import Mathlib

/-!
# GameCube adapter feeder: a shallow embedding of `main.cpp`

The definitions below follow `src/GameCubeAdapterUnlimited/main.cpp`.
Machine integers are natural numbers; a truncation to a fixed width is
written as an explicit `%`.  External collaborators (libusb, ViGEm) appear
only through the values they hand back and the calls they receive.
-/

namespace GameCubeAdapterUnlimited

/-! ## Constants -/

/-- The size of the adapters array (`constexpr std::size_t MAX_ADAPTERS = 6`). -/
def MAX_ADAPTERS : Nat := 6

/-- The value of `SIZE_MAX` for a 64-bit `size_t`. -/
def SIZE_MAX : Nat := 2 ^ 64 - 1

/-! ### ViGEm `DS4_BUTTONS` and `DS4_DPAD_DIRECTIONS`

The header `ViGEm/Common.h` is not part of the repository sources; the values
are those of the ViGEm client library. -/

/-- Modelled from the spec: `DS4_BUTTON_OPTIONS` of ViGEm/Common.h, `1 << 13`. -/
def DS4_BUTTON_OPTIONS : Nat := 1 <<< 13
/-- Modelled from the spec: `DS4_BUTTON_SHARE` of ViGEm/Common.h, `1 << 12`. -/
def DS4_BUTTON_SHARE : Nat := 1 <<< 12
/-- Modelled from the spec: `DS4_BUTTON_SHOULDER_RIGHT` of ViGEm/Common.h, `1 << 9`. -/
def DS4_BUTTON_SHOULDER_RIGHT : Nat := 1 <<< 9
/-- Modelled from the spec: `DS4_BUTTON_SHOULDER_LEFT` of ViGEm/Common.h, `1 << 8`. -/
def DS4_BUTTON_SHOULDER_LEFT : Nat := 1 <<< 8
/-- Modelled from the spec: `DS4_BUTTON_TRIANGLE` of ViGEm/Common.h, `1 << 7`. -/
def DS4_BUTTON_TRIANGLE : Nat := 1 <<< 7
/-- Modelled from the spec: `DS4_BUTTON_CIRCLE` of ViGEm/Common.h, `1 << 6`. -/
def DS4_BUTTON_CIRCLE : Nat := 1 <<< 6
/-- Modelled from the spec: `DS4_BUTTON_CROSS` of ViGEm/Common.h, `1 << 5`. -/
def DS4_BUTTON_CROSS : Nat := 1 <<< 5
/-- Modelled from the spec: `DS4_BUTTON_SQUARE` of ViGEm/Common.h, `1 << 4`. -/
def DS4_BUTTON_SQUARE : Nat := 1 <<< 4

/-- Modelled from the spec: `DS4_BUTTON_DPAD_NONE` of ViGEm/Common.h. -/
def DS4_BUTTON_DPAD_NONE : Nat := 8
/-- Modelled from the spec: `DS4_BUTTON_DPAD_NORTHWEST` of ViGEm/Common.h. -/
def DS4_BUTTON_DPAD_NORTHWEST : Nat := 7
/-- Modelled from the spec: `DS4_BUTTON_DPAD_WEST` of ViGEm/Common.h. -/
def DS4_BUTTON_DPAD_WEST : Nat := 6
/-- Modelled from the spec: `DS4_BUTTON_DPAD_SOUTHWEST` of ViGEm/Common.h. -/
def DS4_BUTTON_DPAD_SOUTHWEST : Nat := 5
/-- Modelled from the spec: `DS4_BUTTON_DPAD_SOUTH` of ViGEm/Common.h. -/
def DS4_BUTTON_DPAD_SOUTH : Nat := 4
/-- Modelled from the spec: `DS4_BUTTON_DPAD_SOUTHEAST` of ViGEm/Common.h. -/
def DS4_BUTTON_DPAD_SOUTHEAST : Nat := 3
/-- Modelled from the spec: `DS4_BUTTON_DPAD_EAST` of ViGEm/Common.h. -/
def DS4_BUTTON_DPAD_EAST : Nat := 2
/-- Modelled from the spec: `DS4_BUTTON_DPAD_NORTHEAST` of ViGEm/Common.h. -/
def DS4_BUTTON_DPAD_NORTHEAST : Nat := 1
/-- Modelled from the spec: `DS4_BUTTON_DPAD_NORTH` of ViGEm/Common.h. -/
def DS4_BUTTON_DPAD_NORTH : Nat := 0

/-! ## `Controller::GCInput` -/

/-- The packed struct `Controller::GCInput`: the status byte, the 16-bit
button word and six analog bytes.  The bit-fields of the two unions are read
off `Status` and `Buttons` by the accessors below (least significant bit
first, the layout of the compiler the program is built with). -/
structure GCInput where
  Status : Nat
  Buttons : Nat
  AnalogX : Nat
  AnalogY : Nat
  CStickX : Nat
  CStickY : Nat
  LeftTrigger : Nat
  RightTrigger : Nat
  deriving DecidableEq, Repr

namespace GCInput

/-- The default constructor `GCInput()`. -/
def reset : GCInput :=
  { Status := 0, Buttons := 0, AnalogX := 128, AnalogY := 128,
    CStickX := 128, CStickY := 128, LeftTrigger := 0, RightTrigger := 0 }

instance : Inhabited GCInput := ⟨reset⟩

/-- Every field holds a value of its C++ type: bytes are below 256, the
button word below 65536. -/
def InRange (gc : GCInput) : Prop :=
  gc.Status < 256 ∧ gc.Buttons < 65536 ∧ gc.AnalogX < 256 ∧ gc.AnalogY < 256 ∧
    gc.CStickX < 256 ∧ gc.CStickY < 256 ∧ gc.LeftTrigger < 256 ∧ gc.RightTrigger < 256

instance (gc : GCInput) : Decidable gc.InRange := by
  unfold InRange; infer_instance

/-- Bit-field `CanRumble` (bit 1 of `Status`). -/
def CanRumble (gc : GCInput) : Bool := gc.Status.testBit 1
/-- Bit-field `Wired` (bit 4 of `Status`). -/
def Wired (gc : GCInput) : Bool := gc.Status.testBit 4
/-- Bit-field `Wireless` (bit 5 of `Status`). -/
def Wireless (gc : GCInput) : Bool := gc.Status.testBit 5

/-- Bit-field `A` (bit 0 of `Buttons`). -/
def A (gc : GCInput) : Bool := gc.Buttons.testBit 0
/-- Bit-field `B` (bit 1 of `Buttons`). -/
def B (gc : GCInput) : Bool := gc.Buttons.testBit 1
/-- Bit-field `X` (bit 2 of `Buttons`). -/
def X (gc : GCInput) : Bool := gc.Buttons.testBit 2
/-- Bit-field `Y` (bit 3 of `Buttons`). -/
def Y (gc : GCInput) : Bool := gc.Buttons.testBit 3
/-- Bit-field `DpadLeft` (bit 4 of `Buttons`). -/
def DpadLeft (gc : GCInput) : Bool := gc.Buttons.testBit 4
/-- Bit-field `DpadRight` (bit 5 of `Buttons`). -/
def DpadRight (gc : GCInput) : Bool := gc.Buttons.testBit 5
/-- Bit-field `DpadDown` (bit 6 of `Buttons`). -/
def DpadDown (gc : GCInput) : Bool := gc.Buttons.testBit 6
/-- Bit-field `DpadUp` (bit 7 of `Buttons`). -/
def DpadUp (gc : GCInput) : Bool := gc.Buttons.testBit 7
/-- Bit-field `Start` (bit 8 of `Buttons`). -/
def Start (gc : GCInput) : Bool := gc.Buttons.testBit 8
/-- Bit-field `Z` (bit 9 of `Buttons`). -/
def Z (gc : GCInput) : Bool := gc.Buttons.testBit 9
/-- Bit-field `R` (bit 10 of `Buttons`). -/
def R (gc : GCInput) : Bool := gc.Buttons.testBit 10
/-- Bit-field `L` (bit 11 of `Buttons`). -/
def L (gc : GCInput) : Bool := gc.Buttons.testBit 11

/-- The member `bool On() { return Wired || Wireless; }`. -/
def On (gc : GCInput) : Bool := gc.Wired || gc.Wireless

end GCInput

/-! ## `_DS4_REPORT` and `Controller::GCtoDS4` -/

/-- Modelled from the spec: the struct `_DS4_REPORT` of ViGEm/Common.h, which
is not among the sources: four stick bytes, the 16-bit button word, the
special byte and two trigger bytes. -/
structure DS4_REPORT where
  bThumbLX : Nat
  bThumbLY : Nat
  bThumbRX : Nat
  bThumbRY : Nat
  wButtons : Nat
  bSpecial : Nat
  bTriggerL : Nat
  bTriggerR : Nat
  deriving DecidableEq, Repr

/-- The C++ expression `~b` stored into a `BYTE`: `b` is promoted to `int`,
complemented (`-1 - b`) and truncated to eight bits. -/
def complementByte (b : Nat) : Nat := ((-1 - (b : Int)) % 256).toNat

/-- The compound assignment `w |= c` on the `USHORT` field `wButtons`. -/
def orButtons (w c : Nat) : Nat := (w ||| c) % 65536

/-- The eight `if (gc.<button>) ds4.wButtons |= ...;` statements of `GCtoDS4`,
run in source order on the button word `w`. -/
def mapButtons (gc : GCInput) (w : Nat) : Nat :=
  let w := if gc.Start then orButtons w DS4_BUTTON_OPTIONS else w
  let w := if gc.Z then orButtons w DS4_BUTTON_SHARE else w
  let w := if gc.R then orButtons w DS4_BUTTON_SHOULDER_RIGHT else w
  let w := if gc.L then orButtons w DS4_BUTTON_SHOULDER_LEFT else w
  let w := if gc.X then orButtons w DS4_BUTTON_TRIANGLE else w
  let w := if gc.A then orButtons w DS4_BUTTON_CIRCLE else w
  let w := if gc.B then orButtons w DS4_BUTTON_CROSS else w
  let w := if gc.Y then orButtons w DS4_BUTTON_SQUARE else w
  w

/-- The `if / else if` chain of `GCtoDS4` that ORs the d-pad direction into
the button word `w`. -/
def mapDpad (gc : GCInput) (w : Nat) : Nat :=
  if gc.DpadUp && gc.DpadLeft then orButtons w DS4_BUTTON_DPAD_NORTHWEST
  else if gc.DpadDown && gc.DpadLeft then orButtons w DS4_BUTTON_DPAD_SOUTHWEST
  else if gc.DpadDown && gc.DpadRight then orButtons w DS4_BUTTON_DPAD_SOUTHEAST
  else if gc.DpadUp && gc.DpadRight then orButtons w DS4_BUTTON_DPAD_NORTHEAST
  else if gc.DpadUp then orButtons w DS4_BUTTON_DPAD_NORTH
  else if gc.DpadLeft then orButtons w DS4_BUTTON_DPAD_WEST
  else if gc.DpadDown then orButtons w DS4_BUTTON_DPAD_SOUTH
  else if gc.DpadRight then orButtons w DS4_BUTTON_DPAD_EAST
  else orButtons w DS4_BUTTON_DPAD_NONE

/-- The function `Controller::GCtoDS4`. -/
def GCtoDS4 (gc : GCInput) : DS4_REPORT :=
  { bThumbLX := gc.AnalogX
    bThumbLY := complementByte gc.AnalogY
    bThumbRX := gc.CStickX
    bThumbRY := complementByte gc.CStickY
    wButtons := mapDpad gc (mapButtons gc 0)
    bSpecial := 0
    bTriggerL := gc.LeftTrigger
    bTriggerR := gc.RightTrigger }


/-- The button word built from eight booleans, as `mapButtons` computes it. -/
def buttonWord (st z r l x a b y : Bool) : Nat :=
  (if st then 8192 else 0) + (if z then 4096 else 0) + (if r then 512 else 0) +
  (if l then 256 else 0) + (if x then 128 else 0) + (if a then 64 else 0) +
  (if b then 32 else 0) + (if y then 16 else 0)

/-- The d-pad code chosen by the `if / else if` chain of `GCtoDS4`, as a
function of the four directional flags. -/
def dpadCode (up left down right : Bool) : Nat :=
  if up && left then 7 else if down && left then 5 else if down && right then 3
  else if up && right then 1 else if up then 0 else if left then 6
  else if down then 4 else if right then 2 else 8

/-- The fixed button table as the specification lists it: each mapped
physical button with its target bit. -/
def buttonTable : List ((GCInput → Bool) × Nat) :=
  [(GCInput.Start, 1 <<< 13), (GCInput.Z, 1 <<< 12), (GCInput.R, 1 <<< 9),
   (GCInput.L, 1 <<< 8), (GCInput.X, 1 <<< 7), (GCInput.A, 1 <<< 6),
   (GCInput.B, 1 <<< 5), (GCInput.Y, 1 <<< 4)]

/-- The OR of the entries of `buttonTable` whose button is pressed in `gc`. -/
def tableMask (gc : GCInput) : Nat :=
  ((buttonTable.filter (fun e => e.1 gc)).map Prod.snd).foldl (fun acc m => acc ||| m) 0

/-! ## libusb and ViGEm as seen from the program -/

/-- Modelled from the spec: the status `LIBUSB_SUCCESS` of libusb.h, which is
not among the sources. -/
def LIBUSB_SUCCESS : Int := 0

/-- Modelled from the spec: the direction bit `LIBUSB_ENDPOINT_IN` of
libusb.h. -/
def LIBUSB_ENDPOINT_IN : Nat := 0x80

/-- Modelled from the spec: the direction bit `LIBUSB_ENDPOINT_OUT` of
libusb.h. -/
def LIBUSB_ENDPOINT_OUT : Nat := 0x00

/-- The constant `Adapter::ReadEndpoint = 1 | LIBUSB_ENDPOINT_IN`. -/
def ReadEndpoint : Nat := 1 ||| LIBUSB_ENDPOINT_IN

/-- The constant `Adapter::WriteEndpoint = 2 | LIBUSB_ENDPOINT_OUT`. -/
def WriteEndpoint : Nat := 2 ||| LIBUSB_ENDPOINT_OUT

/-- A call handed to libusb that changes the device or the handle: the
arguments are recorded as the program passes them. -/
inductive UsbCall where
  | bulk_transfer (dev_handle endpoint : Nat) (data : List Nat) (timeout : Nat)
  | release_interface (dev_handle interface_number : Nat)
  | close (dev_handle : Nat)
  | control_transfer (dev_handle bmRequestType bRequest wValue wIndex timeout : Nat)
  | claim_interface (dev_handle interface_number : Nat)
  deriving DecidableEq, Repr

/-- What `libusb_bulk_transfer` hands back: its return value and the number
of bytes it reports as transferred. -/
structure BulkReply where
  status : Int
  actual : Int
  deriving DecidableEq, Repr

/-- The struct `Adapter::Inputs` without its padding byte: the four
controller snapshots of one interrupt read. -/
structure Inputs where
  Controllers : Fin 4 → GCInput

instance : Inhabited Inputs := ⟨⟨fun _ => GCInput.reset⟩⟩

/-- The size of `Adapter::Inputs` in bytes: one padding byte and four packed
nine-byte `GCInput` records. -/
def sizeofInputs : Int := 37

/-- What `libusb_interrupt_transfer` hands back: its return value, the
number of bytes it reports, and the buffer contents after the call. -/
structure InterruptReply where
  status : Int
  actual : Int
  inputs : Inputs

/-- A call handed to the ViGEm bus. -/
inductive ViGEmCall where
  | target_ds4_update (pad : Nat) (report : DS4_REPORT)
  deriving DecidableEq, Repr

/-- What the program can raise: the two C++ exceptions it throws, and an
access outside a container, which C++ leaves undefined. -/
inductive Fault where
  | runtime_error
  | out_of_range
  | undefined
  deriving DecidableEq, Repr

/-! ## `class Adapter` -/

/-- The data members of `class Adapter`.  A device handle is a pointer,
kept as a number. -/
structure Adapter where
  dev_handle : Nat
  rumblePayload : List Nat
  failedReads : Nat
  deriving DecidableEq, Repr

namespace Adapter

/-- The method `Adapter::Write`: one bulk transfer of the first `length`
bytes of `data`; true when the transfer succeeds and is complete. -/
def Write (a : Adapter) (data : List Nat) (length : Int) (reply : BulkReply) :
    Bool × List UsbCall :=
  (reply.status == LIBUSB_SUCCESS && length == reply.actual,
    [UsbCall.bulk_transfer a.dev_handle WriteEndpoint (data.take length.toNat) 0])

/-- The method `Adapter::WriteRumble`. -/
def WriteRumble (a : Adapter) (reply : BulkReply) : Bool × List UsbCall :=
  a.Write a.rumblePayload (a.rumblePayload.length : Int) reply

/-- The method `Adapter::ReadInterrupt` with the arguments `GetInputs` gives
it, and `Adapter::GetInputs`: the success flag and the buffer. -/
def GetInputs (_a : Adapter) (reply : InterruptReply) : Bool × Inputs :=
  (reply.status == LIBUSB_SUCCESS && sizeofInputs == reply.actual, reply.inputs)

/-- The overload `Adapter::DoesHandleMatch(libusb_device_handle*)`. -/
def DoesHandleMatchHandle (a : Adapter) (dev_handle : Nat) : Bool :=
  a.dev_handle == dev_handle

/-- The overload `Adapter::DoesHandleMatch(Adapter*)`; `none` is `nullptr`. -/
def DoesHandleMatch (a : Adapter) (adapter : Option Adapter) : Bool :=
  match adapter with
  | none => false
  | some b => a.DoesHandleMatchHandle b.dev_handle

/-- The method `Adapter::ShouldDisconnect`: the returned flag and the
session after the call.  `failedReads` is a 64-bit `size_t`. -/
def ShouldDisconnect (a : Adapter) (gotLastInput : Bool) : Bool × Adapter :=
  if gotLastInput then
    (false, { a with failedReads := 0 })
  else
    let old := a.failedReads
    let a := { a with failedReads := (a.failedReads + 1) % 2 ^ 64 }
    if old > 20 then (true, a) else (false, a)

/-- The method `Adapter::ResetRumble`. -/
def ResetRumble (a : Adapter) (reply : BulkReply) : Bool × Adapter × List UsbCall :=
  let a := { a with rumblePayload := [0x11, 0x0, 0x0, 0x0, 0x0] }
  let r := a.WriteRumble reply
  (r.1, a, r.2)

/-- The method `Adapter::SetRumble`: the returned flag, the session after
the call and the libusb calls issued.  `index` is an `ssize_t`, `val` a byte. -/
def SetRumble (a : Adapter) (index : Int) (val : Nat) (reply : BulkReply) :
    Bool × Adapter × List UsbCall :=
  if index < 0 ∨ index ≥ 4 then
    (false, a, [])
  else
    let a := { a with rumblePayload := a.rumblePayload.set (1 + index).toNat val }
    let r := a.WriteRumble reply
    (r.1, a, r.2)

/-- The destructor `Adapter::~Adapter`: the libusb calls it issues. -/
def destroy (a : Adapter) : List UsbCall :=
  [UsbCall.release_interface a.dev_handle 0, UsbCall.close a.dev_handle]

end Adapter

/-! ## Program state -/

/-- The global `adapters` array, the members of the global `adapterThread`,
and the calls handed so far to the ViGEm bus and to libusb.  An empty slot of
`adapters` (a null pointer) is `none`; a virtual pad handle is a number. -/
structure World where
  adapters : List (Option Adapter)
  pads : List Nat
  isConnected : List Bool
  client : Nat
  vigemLog : List ViGEmCall
  usbLog : List UsbCall
  deriving DecidableEq, Repr

namespace World

/-- The method `ViGEmClient::UpdateController` (its result is never used). -/
def UpdateController (w : World) (pad : Nat) (report : DS4_REPORT) : World :=
  { w with vigemLog := w.vigemLog ++ [ViGEmCall.target_ds4_update pad report] }

/-- The read `isConnected[index]`. -/
def getConnected (w : World) (index : Nat) : Except Fault Bool :=
  match w.isConnected[index]? with
  | some b => pure b
  | none => throw Fault.undefined

/-- The assignment `isConnected[index] = b`. -/
def setConnected (w : World) (index : Nat) (b : Bool) : Except Fault World :=
  if index < w.isConnected.length then
    pure { w with isConnected := w.isConnected.set index b }
  else throw Fault.undefined

/-- The read `pads[index]`. -/
def getPad (w : World) (index : Nat) : Except Fault Nat :=
  match w.pads[index]? with
  | some p => pure p
  | none => throw Fault.undefined

end World

/-! ## `class LibUSB`: the device table -/

/-- The loop of `LibUSB::RemoveAdapter` over the slots: the table after the
call and the session that was deleted, if any. -/
def removeFirstMatch (adapterPtr : Option Adapter) :
    List (Option Adapter) → List (Option Adapter) × Option Adapter
  | [] => ([], none)
  | none :: rest =>
    let r := removeFirstMatch adapterPtr rest
    (none :: r.1, r.2)
  | some a :: rest =>
    if a.DoesHandleMatch adapterPtr then
      (none :: rest, some a)
    else
      let r := removeFirstMatch adapterPtr rest
      (some a :: r.1, r.2)

/-- The function `LibUSB::RemoveAdapter`. -/
def RemoveAdapter (adapterPtr : Option Adapter) (w : World) : World :=
  let r := removeFirstMatch adapterPtr w.adapters
  match r.2 with
  | some tmp => { w with adapters := r.1, usbLog := w.usbLog ++ tmp.destroy }
  | none => w

/-- The function `LibUSB::AddAdapter`: `std::find` for the first null slot,
then the store, or the `std::runtime_error`. -/
def AddAdapter (adapterPtr : Option Adapter) (w : World) : Except Fault World :=
  match w.adapters.findIdx? (fun slot => slot.isNone) with
  | some idx => pure { w with adapters := w.adapters.set idx adapterPtr }
  | none => throw Fault.runtime_error

/-- The function `LibUSB::NumAdapters`. -/
def NumAdapters (w : World) : Nat :=
  w.adapters.foldl (fun count adapter => if adapter.isSome then count + 1 else count) 0

/-! ## `class AdapterThread` -/

/-- The method `AdapterThread::GetPadIndex`. -/
def GetPadIndex (w : World) (pad : Nat) : Nat :=
  let it := w.pads.indexOf pad
  if it < w.pads.length then it else SIZE_MAX

/-- One pass of the inner loop of `AdapterThread::run` that updates virtual
pad `i * 4 + j` from `inputs.Controllers[j]`. -/
def updatePad (i : Nat) (inputs : Inputs) (w : World) (j : Fin 4) : Except Fault World := do
  let index := i * 4 + j.val
  let active := (inputs.Controllers j).On
  let was ← w.getConnected index
  let w ←
    if was != active then do
      let w ← w.setConnected index active
      let now ← w.getConnected index
      if now then
        pure w
      else do
        let report := GCtoDS4 GCInput.reset
        let pad ← w.getPad index
        pure (w.UpdateController pad report)
    else pure w
  if !active then
    pure w
  else if w.pads.length < index then
    throw Fault.out_of_range
  else do
    let report := GCtoDS4 (inputs.Controllers j)
    let pad ← w.getPad index
    pure (w.UpdateController pad report)

/-- The loop `for (size_t j = 0; j < 4; j++) isConnected[i * 4 + j] = false;`
of `AdapterThread::run`. -/
def markDisconnected (i : Nat) (w : World) : Except Fault World :=
  (List.finRange 4).foldlM (fun w j => w.setConnected (i * 4 + j.val) false) w

/-- The body of the loop over the adapters in `AdapterThread::run`, for slot
`i`, with `reply` what the interrupt read of this pass hands back.  In C++ a
slot points to a session on the heap; here the slot holds the session, so the
session changed by `ShouldDisconnect` is stored back into its slot. -/
def pollAdapter (i : Nat) (reply : InterruptReply) (w : World) : Except Fault World :=
  match w.adapters[i]? with
  | none => throw Fault.undefined
  | some none => pure w
  | some (some a) => do
    let got := a.GetInputs reply
    let gotLastInput := got.1
    let inputs := got.2
    let sd := a.ShouldDisconnect gotLastInput
    let w := { w with adapters := w.adapters.set i (some sd.2) }
    let w ←
      if sd.1 then
        markDisconnected i (RemoveAdapter (w.adapters.getD i none) w)
      else pure w
    if !gotLastInput then
      pure w
    else
      (List.finRange 4).foldlM (updatePad i inputs) w

/-- The loop `for (size_t i = 0; i < adapters.size(); i++)` of
`AdapterThread::run`: one polling cycle over the `MAX_ADAPTERS` slots, with
`replies i` what the interrupt read on slot `i` hands back. -/
def pollCycle (replies : Nat → InterruptReply) (w : World) : Except Fault World :=
  (List.range MAX_ADAPTERS).foldlM (fun w i => pollAdapter i (replies i) w) w

/-! ## The feedback handler -/

/-- The notification handler `UpdateRumble`.  `Client` and `Target` are
pointers, the two motor values bytes; the lightbar colour is never read and
is left out; `reply` is what the bulk write hands back. -/
def UpdateRumble (Client Target LargeMotor SmallMotor : Nat) (reply : BulkReply)
    (w : World) : Except Fault World :=
  if Client != w.client then
    throw Fault.runtime_error
  else
    let index := GetPadIndex w Target
    if index == SIZE_MAX then
      throw Fault.runtime_error
    else
      match w.adapters[index / 4]? with
      | none => throw Fault.undefined
      | some none => pure w
      | some (some adapter) =>
        let motor : Bool := SmallMotor != 0 || LargeMotor != 0
        let r := adapter.SetRumble ((index % 4 : Nat) : Int) (if motor then 1 else 0) reply
        pure { w with adapters := w.adapters.set (index / 4) (some r.2.1),
                      usbLog := w.usbLog ++ r.2.2 }

/-! ## Auxiliary definitions used in the statements -/

/-- A run of `n` consecutive calls `ShouldDisconnect(false)` on a session:
the flags returned, in call order, and the session after the last call. -/
def failedCalls : Nat → Adapter → List Bool × Adapter
  | 0, a => ([], a)
  | n + 1, a =>
    let r := a.ShouldDisconnect false
    let rest := failedCalls n r.2
    (r.1 :: rest.1, rest.2)

/-- The reports that the calls of `log` push to the virtual pad `pad`, in
call order. -/
def reportsTo (pad : Nat) (log : List ViGEmCall) : List DS4_REPORT :=
  log.filterMap (fun c =>
    match c with
    | ViGEmCall.target_ds4_update p r => if p = pad then some r else none)

/-- No two occupied slots of the table hold sessions with the same device
handle. -/
def HandlesDistinct (adapters : List (Option Adapter)) : Prop :=
  ∀ (m n : Nat) (a b : Adapter), adapters[m]? = some (some a) → adapters[n]? = some (some b) →
    a.dev_handle = b.dev_handle → m = n

/-- The ViGEm calls one pass of the pad loop is expected to make for a
sub-port: the translated snapshot when the snapshot is active; the neutral
report when it is inactive and the pad was connected; nothing otherwise. -/
def padCalls (was : Bool) (s : GCInput) (pad : Nat) : List ViGEmCall :=
  if s.On then [ViGEmCall.target_ds4_update pad (GCtoDS4 s)]
  else if was then [ViGEmCall.target_ds4_update pad (GCtoDS4 GCInput.reset)]
  else []

/-- The container sizes the polling loop runs with once `SetupPads` has
returned: `MAX_ADAPTERS` slots, and four pads and four connected flags for
each slot. -/
def World.Sized (w : World) : Prop :=
  w.adapters.length = MAX_ADAPTERS ∧ w.pads.length = 4 * MAX_ADAPTERS ∧
    w.isConnected.length = 4 * MAX_ADAPTERS

instance (w : World) : Decidable w.Sized := by
  unfold World.Sized; infer_instance

/-! ## Concrete states used as examples -/

/-- A state after `SetupPads`: sessions in slots 0 and 2 (the one in slot 2
with 21 failed reads counted), pads 100 to 123, pad 1 and pads 8 to 11
connected. -/
def sampleWorld : World :=
  { adapters := [some ⟨7, [0x11, 0, 0, 0, 0], 3⟩, none, some ⟨9, [0x11, 0, 0, 0, 0], 21⟩,
      none, none, none]
    pads := List.range' 100 24
    isConnected := [false, true, false, false, false, false, false, false, true, true, true,
      true, false, false, false, false, false, false, false, false, false, false, false, false]
    client := 5
    vigemLog := []
    usbLog := [] }

/-- A failed interrupt read (a timeout). -/
def failedReply : InterruptReply :=
  { status := -7, actual := 0, inputs := default }

/-- A successful read: sub-port 0 wired with A pressed, the other three
sub-ports without a controller. -/
def wiredReply : InterruptReply :=
  { status := 0, actual := 37,
    inputs := ⟨fun j => if j = 0 then ⟨0x10, 0x0001, 128, 128, 128, 128, 0, 0⟩
      else GCInput.reset⟩ }

/-! ## Discovery: the `Adapter` constructor and `LibUSB::PollDevices` -/

/-- The constant `LibUSB::VENDOR_ID`. -/
def VENDOR_ID : Nat := 0x57E

/-- The constant `LibUSB::PRODUCT_ID`. -/
def PRODUCT_ID : Nat := 0x337

/-- What libusb hands back for one entry of the device list during a pass of
`PollDevices`: the result of `libusb_get_device_descriptor` with the two
identifiers of the descriptor, the result of `libusb_open` with the handle it
stores (0 is `nullptr`), and what the two bulk writes of the `Adapter`
constructor hand back. -/
structure UsbDevice where
  descriptor_result : Int
  idVendor : Nat
  idProduct : Nat
  open_result : Int
  dev_handle : Nat
  init_reply : BulkReply
  rumble_reply : BulkReply
  deriving DecidableEq, Repr

/-- The constructor `Adapter::Adapter(libusb_device_handle*)`: the new session
and the libusb calls it issues (control transfer, interface claim, the
one-byte initialisation write `0x13`, then `ResetRumble`).  The payload is
not initialised before `ResetRumble` assigns it. -/
def Adapter.construct (dev_handle : Nat) (init_reply rumble_reply : BulkReply) :
    Adapter × List UsbCall :=
  let a : Adapter := { dev_handle := dev_handle, rumblePayload := [0, 0, 0, 0, 0],
                       failedReads := 0 }
  let transfer := [UsbCall.control_transfer dev_handle 0x21 11 0x0001 0 1000]
  let claim := [UsbCall.claim_interface dev_handle 0]
  let init := a.Write [0x13] 1 init_reply
  let reset := a.ResetRumble rumble_reply
  (reset.2.1, transfer ++ claim ++ init.2 ++ reset.2.2)

/-- The body of the loop of `LibUSB::PollDevices` for one device: the state
when the body is left and the exception it is left with, if any. -/
def pollDevice (d : UsbDevice) (w : World) : World × Option Fault :=
  if d.descriptor_result < 0 then
    (w, none)
  else if d.idVendor == VENDOR_ID && d.idProduct == PRODUCT_ID then
    if d.open_result < 0 then
      (w, none)
    else if d.dev_handle == 0 then
      (w, none)
    else
      let made := Adapter.construct d.dev_handle d.init_reply d.rumble_reply
      let w := { w with usbLog := w.usbLog ++ made.2 }
      match AddAdapter (some made.1) w with
      | Except.ok w' => (w', none)
      | Except.error e => (w, some e)
  else
    (w, none)

/-- The function `LibUSB::PollDevices` on the device list libusb returns: the
state when the function is left and the exception that leaves it, if any.
Nothing in `PollDevices` catches, so the first exception ends the pass. -/
def PollDevices : List UsbDevice → World → World × Option Fault
  | [], w => (w, none)
  | d :: rest, w =>
    match pollDevice d w with
    | (w', none) => PollDevices rest w'
    | (w', some e) => (w', some e)

/-- One pass of the `do ... while` loop of `main`: `PollDevices` runs only
when `NumAdapters() < MAX_ADAPTERS`.  Nothing in `main` catches either. -/
def discoveryPass (devices : List UsbDevice) (w : World) : World × Option Fault :=
  if NumAdapters w < MAX_ADAPTERS then PollDevices devices w else (w, none)

/-! ## Sequences of table operations -/

/-- An operation on the device table: `AddAdapter` with a session, or
`RemoveAdapter` with a pointer (`none` is `nullptr`). -/
inductive TableOp where
  | insert (session : Adapter)
  | remove (adapterPtr : Option Adapter)
  deriving DecidableEq, Repr

/-- The state after one table operation.  `AddAdapter` throws before it
stores anything, so an insertion that throws leaves the state as it was. -/
def applyTableOp (w : World) (op : TableOp) : World :=
  match op with
  | TableOp.insert session =>
    match AddAdapter (some session) w with
    | Except.ok w' => w'
    | Except.error _ => w
  | TableOp.remove adapterPtr => RemoveAdapter adapterPtr w

/-- The states a sequence of table operations goes through: the starting
state, then the state after each operation. -/
def tableStates : List TableOp → World → List World
  | [], w => [w]
  | op :: ops, w => w :: tableStates ops (applyTableOp w op)

/-- The device handles held by the sessions of a table, in slot order. -/
def tableHandles (adapters : List (Option Adapter)) : List Nat :=
  adapters.filterMap (fun s => s.map Adapter.dev_handle)

/-- Every insertion of the sequence brings a session whose device handle is
held by no session in the table at that moment. -/
def FreshInserts : List TableOp → World → Prop
  | [], _ => True
  | TableOp.insert session :: ops, w =>
    session.dev_handle ∉ tableHandles w.adapters ∧
      FreshInserts ops (applyTableOp w (TableOp.insert session))
  | TableOp.remove adapterPtr :: ops, w =>
    FreshInserts ops (applyTableOp w (TableOp.remove adapterPtr))

/-- The initial value of the global `adapters`: every slot a null pointer. -/
def emptyTable : List (Option Adapter) := List.replicate MAX_ADAPTERS none

/-! ## Virtual pad allocation -/

/-- A `while` loop over a state, run for at most `fuel` passes of its body:
`none` when the fuel is spent and the condition still holds. -/
def whileLoop {σ : Type} (cond : σ → Bool) (body : σ → Except Fault σ) :
    Nat → σ → Option (Except Fault σ)
  | 0, s => if cond s then none else some (Except.ok s)
  | fuel + 1, s =>
    if cond s then
      match body s with
      | Except.ok s' => whileLoop cond body fuel s'
      | Except.error e => some (Except.error e)
    else some (Except.ok s)

/-- Modelled from the spec: the code `VIGEM_ERROR_NONE` of ViGEm/Common.h,
which is not among the sources. -/
def VIGEM_ERROR_NONE : Nat := 0x20000000

/-- Modelled from the spec: the test `VIGEM_SUCCESS(val)` of ViGEm/Common.h,
`val == VIGEM_ERROR_NONE`. -/
def VIGEM_SUCCESS (val : Nat) : Bool := val == VIGEM_ERROR_NONE

/-- What the ViGEm bus hands back during one call of `AddController`: the
handle from `vigem_target_ds4_alloc` and the results of `vigem_target_add`
and of `vigem_target_ds4_register_notification`. -/
structure PadReply where
  pad : Nat
  add_err : Nat
  reg_err : Nat
  deriving DecidableEq, Repr

/-- The method `ViGEmClient::AddController`: the new pad handle, or the
`std::runtime_error` of a failed add or registration. -/
def AddController (reply : PadReply) : Except Fault Nat :=
  if !VIGEM_SUCCESS reply.add_err then
    throw Fault.runtime_error
  else if !VIGEM_SUCCESS reply.reg_err then
    throw Fault.runtime_error
  else
    pure reply.pad

/-- One pass of the `for` loop of `AdapterThread::SetupPads`.  The call of
`AddController` made while `n` pads exist gets `env n` from the bus. -/
def setupPad (env : Nat → PadReply) (w : World) : Except Fault World := do
  let pad ← AddController (env w.pads.length)
  let w := { w with pads := w.pads ++ [pad] }
  let report := GCtoDS4 GCInput.reset
  match w.pads.getLast? with
  | none => throw Fault.undefined
  | some back =>
    let w := w.UpdateController back report
    pure { w with isConnected := w.isConnected ++ [false] }

/-- The method `AdapterThread::SetupPads`, its `while` loop run with `fuel`.
The bound `adapters.size()` is the size of the `std::array`, the constant
`MAX_ADAPTERS`. -/
def SetupPads (fuel : Nat) (env : Nat → PadReply) (w : World) : Option (Except Fault World) :=
  whileLoop (fun w => decide (w.pads.length / 4 < MAX_ADAPTERS))
    (fun w => (List.range 4).foldlM (fun w _ => setupPad env w) w) fuel w

/-- What `AdapterThread::AddDeterministic` does that can be observed from
outside: a pad pushed at an index of `pads`, or a sleep. -/
inductive AttachEvent where
  | allocated (index pad : Nat)
  | sleep_for (milliseconds : Nat)
  deriving DecidableEq, Repr

/-- One pass of the `for` loop of `AdapterThread::AddDeterministic`, on the
state and the events so far. -/
def attachPad (env : Nat → PadReply) (s : World × List AttachEvent) :
    Except Fault (World × List AttachEvent) := do
  let pad ← AddController (env s.1.pads.length)
  let w := { s.1 with pads := s.1.pads ++ [pad] }
  let events := s.2 ++ [AttachEvent.allocated s.1.pads.length pad]
  if w.pads.length != MAX_ADAPTERS * 4 then
    pure (w, events ++ [AttachEvent.sleep_for 3000])
  else
    pure (w, events)

/-- The method `AdapterThread::AddDeterministic`, its `while` loop run with
`fuel`: the state and the events. -/
def AddDeterministic (fuel : Nat) (env : Nat → PadReply) (w : World) :
    Option (Except Fault (World × List AttachEvent)) :=
  whileLoop (fun s => decide (s.1.pads.length / 4 < MAX_ADAPTERS))
    (fun s => (List.range 4).foldlM (fun s _ => attachPad env s) s) fuel (w, [])

/-! ## Sequences of reads -/

/-- The calls `ShouldDisconnect(g)` for the read outcomes `g` of a sequence,
in order: the flags returned and the session after the last call. -/
def readCalls : List Bool → Adapter → List Bool × Adapter
  | [], a => ([], a)
  | g :: gs, a =>
    let r := a.ShouldDisconnect g
    let rest := readCalls gs r.2
    (r.1 :: rest.1, rest.2)

/-- A bus that allocates the pad handles 100, 101, ... without error. -/
def sampleBus : Nat → PadReply :=
  fun n => { pad := 100 + n, add_err := VIGEM_ERROR_NONE, reg_err := VIGEM_ERROR_NONE }

/-- A matching device that opens with the handle `h`. -/
def sampleDevice (h : Nat) : UsbDevice :=
  { descriptor_result := 0, idVendor := VENDOR_ID, idProduct := PRODUCT_ID,
    open_result := 0, dev_handle := h, init_reply := ⟨0, 1⟩, rumble_reply := ⟨0, 5⟩ }

instance FreshInserts.instDecidable :
    (ops : List TableOp) → (w : World) → Decidable (FreshInserts ops w)
  | [], _ => isTrue trivial
  | TableOp.insert session :: ops, w =>
    @instDecidableAnd _ _ inferInstance
      (FreshInserts.instDecidable ops (applyTableOp w (TableOp.insert session)))
  | TableOp.remove adapterPtr :: ops, w =>
    FreshInserts.instDecidable ops (applyTableOp w (TableOp.remove adapterPtr))

/-- Nine table operations: eight insertions with the handles 1 to 8 and one
removal of the session with handle 1. -/
def sampleOps : List TableOp :=
  [TableOp.insert ⟨1, [], 0⟩, TableOp.insert ⟨2, [], 0⟩, TableOp.remove (some ⟨1, [], 9⟩),
   TableOp.insert ⟨3, [], 0⟩, TableOp.insert ⟨4, [], 0⟩, TableOp.insert ⟨5, [], 0⟩,
   TableOp.insert ⟨6, [], 0⟩, TableOp.insert ⟨7, [], 0⟩, TableOp.insert ⟨8, [], 0⟩]

/-- The state at program start: the empty table, no pads, no flags. -/
def startWorld : World :=
  { adapters := emptyTable, pads := [], isConnected := [], client := 5, vigemLog := [],
    usbLog := [] }

/-- A state with five of the six slots occupied (slot 4 is empty). -/
def crowdedWorld : World :=
  { adapters := [some ⟨1, [0x11, 0, 0, 0, 0], 0⟩, some ⟨2, [0x11, 0, 0, 0, 0], 0⟩,
      some ⟨3, [0x11, 0, 0, 0, 0], 0⟩, some ⟨4, [0x11, 0, 0, 0, 0], 0⟩, none,
      some ⟨6, [0x11, 0, 0, 0, 0], 0⟩]
    pads := List.range' 100 24
    isConnected := List.replicate 24 false
    client := 5
    vigemLog := []
    usbLog := [] }

/-- A state with all six slots occupied. -/
def fullWorld : World :=
  { adapters := [some ⟨1, [0x11, 0, 0, 0, 0], 0⟩, some ⟨2, [0x11, 0, 0, 0, 0], 0⟩,
      some ⟨3, [0x11, 0, 0, 0, 0], 0⟩, some ⟨4, [0x11, 0, 0, 0, 0], 0⟩,
      some ⟨21, [0x11, 0, 0, 0, 0], 0⟩, some ⟨6, [0x11, 0, 0, 0, 0], 0⟩]
    pads := List.range' 100 24
    isConnected := List.replicate 24 false
    client := 5
    vigemLog := []
    usbLog := [] }

/-- A state with sessions in two slots and no virtual pad allocated yet. -/
def twoAdapterStart : World :=
  { adapters := [some ⟨7, [0x11, 0, 0, 0, 0], 0⟩, none, some ⟨9, [0x11, 0, 0, 0, 0], 0⟩,
      none, none, none]
    pads := []
    isConnected := []
    client := 5
    vigemLog := []
    usbLog := [] }

/-- A state with sessions in two slots and eight virtual pads, four for each
session, all disconnected. -/
def twoAdapterEightPads : World :=
  { twoAdapterStart with
    pads := List.range' 100 8
    isConnected := List.replicate 8 false }

/-- Whether an event of `AddDeterministic` is a sleep. -/
def AttachEvent.isSleep : AttachEvent → Bool
  | AttachEvent.sleep_for _ => true
  | AttachEvent.allocated _ _ => false

/-- The events `AddDeterministic` is expected to produce for the allocation
made while `n` pads exist: the allocation at index `n`, then a sleep of 3000
ms unless the pad count has reached `MAX_ADAPTERS * 4`. -/
def attachEvents (env : Nat → PadReply) (n : Nat) : List AttachEvent :=
  if n + 1 != MAX_ADAPTERS * 4 then
    [AttachEvent.allocated n (env n).pad, AttachEvent.sleep_for 3000]
  else
    [AttachEvent.allocated n (env n).pad]

/-- One pass of the `while (running)` loop of `AdapterThread::run`:
`SetupPads`, then the loop over the adapters.  An exception of `SetupPads`
leaves the pass; `none` when the fuel of `SetupPads` runs out. -/
def runIteration (fuel : Nat) (env : Nat → PadReply) (replies : Nat → InterruptReply)
    (w : World) : Option (Except Fault World) :=
  match SetupPads fuel env w with
  | none => none
  | some (Except.error e) => some (Except.error e)
  | some (Except.ok w') => some (pollCycle replies w')

theorem complementByte_eq (b : Nat) (h : b < 256) : complementByte b = 255 - b := by
  unfold complementByte
  omega

theorem lor_small (w c : Nat) (hw : w % 16 = 0) (hc : c < 16) : w ||| c = w + c := by
  obtain ⟨k, rfl⟩ : ∃ k, w = 2 ^ 4 * k := ⟨w / 16, by omega⟩
  exact (Nat.mul_add_lt_is_or hc k).symm

theorem mapButtons_eq (gc : GCInput) :
    mapButtons gc 0 = buttonWord gc.Start gc.Z gc.R gc.L gc.X gc.A gc.B gc.Y := by
  unfold mapButtons
  generalize gc.Start = st
  generalize gc.Z = z
  generalize gc.R = r
  generalize gc.L = l
  generalize gc.X = x
  generalize gc.A = a
  generalize gc.B = b
  generalize gc.Y = y
  revert st z r l x a b y
  decide

theorem buttonWord_bounds (st z r l x a b y : Bool) :
    buttonWord st z r l x a b y % 16 = 0 ∧ buttonWord st z r l x a b y ≤ 65520 := by
  revert st z r l x a b y
  decide

theorem dpadCode_le (up left down right : Bool) : dpadCode up left down right ≤ 8 := by
  revert up left down right
  decide

theorem orButtons_small (w c : Nat) (hw : w % 16 = 0) (hle : w ≤ 65520) (hc : c < 16) :
    orButtons w c = w + c := by
  unfold orButtons
  rw [lor_small w c hw hc]
  omega

theorem mapDpad_eq (gc : GCInput) (w : Nat) (hw : w % 16 = 0) (hle : w ≤ 65520) :
    mapDpad gc w = w + dpadCode gc.DpadUp gc.DpadLeft gc.DpadDown gc.DpadRight := by
  unfold mapDpad dpadCode
  simp only [DS4_BUTTON_DPAD_NORTHWEST, DS4_BUTTON_DPAD_SOUTHWEST, DS4_BUTTON_DPAD_SOUTHEAST,
    DS4_BUTTON_DPAD_NORTHEAST, DS4_BUTTON_DPAD_NORTH, DS4_BUTTON_DPAD_WEST,
    DS4_BUTTON_DPAD_SOUTH, DS4_BUTTON_DPAD_EAST, DS4_BUTTON_DPAD_NONE]
  split_ifs <;> exact orButtons_small w _ hw hle (by decide)

theorem wButtons_eq (gc : GCInput) :
    (GCtoDS4 gc).wButtons =
      buttonWord gc.Start gc.Z gc.R gc.L gc.X gc.A gc.B gc.Y +
        dpadCode gc.DpadUp gc.DpadLeft gc.DpadDown gc.DpadRight := by
  have hb := buttonWord_bounds gc.Start gc.Z gc.R gc.L gc.X gc.A gc.B gc.Y
  show mapDpad gc (mapButtons gc 0) = _
  rw [mapButtons_eq, mapDpad_eq gc _ hb.1 hb.2]

theorem wButtons_low (gc : GCInput) :
    (GCtoDS4 gc).wButtons % 16 = dpadCode gc.DpadUp gc.DpadLeft gc.DpadDown gc.DpadRight := by
  have hb := buttonWord_bounds gc.Start gc.Z gc.R gc.L gc.X gc.A gc.B gc.Y
  have hd := dpadCode_le gc.DpadUp gc.DpadLeft gc.DpadDown gc.DpadRight
  rw [wButtons_eq]
  omega

theorem tableMask_eq (gc : GCInput) :
    tableMask gc = buttonWord gc.Start gc.Z gc.R gc.L gc.X gc.A gc.B gc.Y := by
  simp only [tableMask, buttonTable, List.filter]
  generalize gc.Start = st
  generalize gc.Z = z
  generalize gc.R = r
  generalize gc.L = l
  generalize gc.X = x
  generalize gc.A = a
  generalize gc.B = b
  generalize gc.Y = y
  revert st z r l x a b y
  decide

theorem buttonWord_bits (st z r l x a b y : Bool) :
    (buttonWord st z r l x a b y).testBit 13 = st ∧
    (buttonWord st z r l x a b y).testBit 12 = z ∧
    (buttonWord st z r l x a b y).testBit 9 = r ∧
    (buttonWord st z r l x a b y).testBit 8 = l ∧
    (buttonWord st z r l x a b y).testBit 7 = x ∧
    (buttonWord st z r l x a b y).testBit 6 = a ∧
    (buttonWord st z r l x a b y).testBit 5 = b ∧
    (buttonWord st z r l x a b y).testBit 4 = y := by
  revert st z r l x a b y
  decide

theorem buttonWord_inj (st z r l x a b y st' z' r' l' x' a' b' y' : Bool)
    (h : buttonWord st z r l x a b y = buttonWord st' z' r' l' x' a' b' y') :
    st = st' ∧ z = z' ∧ r = r' ∧ l = l' ∧ x = x' ∧ a = a' ∧ b = b' ∧ y = y' := by
  obtain ⟨h1, h2, h3, h4, h5, h6, h7, h8⟩ := buttonWord_bits st z r l x a b y
  obtain ⟨k1, k2, k3, k4, k5, k6, k7, k8⟩ := buttonWord_bits st' z' r' l' x' a' b' y'
  rw [h] at h1 h2 h3 h4 h5 h6 h7 h8
  exact ⟨h1.symm.trans k1, h2.symm.trans k2, h3.symm.trans k3, h4.symm.trans k4,
    h5.symm.trans k5, h6.symm.trans k6, h7.symm.trans k7, h8.symm.trans k8⟩

/-! ## The report translator -/

/-- C1: when exactly one of the four directional flags of a snapshot is set,
the low 4 bits of `wButtons` produced by `GCtoDS4` are the matching cardinal
(Up 0, Right 2, Down 4, Left 6); when exactly two adjacent flags are set they
are the matching diagonal (Up+Right 1, Down+Right 3, Down+Left 5, Up+Left 7).
Nothing is assumed about the other buttons, the sticks or the triggers. -/
theorem GCtoDS4_dpad_cardinal_diagonal (gc : GCInput) :
    (gc.DpadUp = true ∧ gc.DpadLeft = false ∧ gc.DpadDown = false ∧ gc.DpadRight = false →
      (GCtoDS4 gc).wButtons % 16 = 0 ∧ DS4_BUTTON_DPAD_NORTH = 0) ∧
    (gc.DpadUp = false ∧ gc.DpadLeft = false ∧ gc.DpadDown = false ∧ gc.DpadRight = true →
      (GCtoDS4 gc).wButtons % 16 = 2 ∧ DS4_BUTTON_DPAD_EAST = 2) ∧
    (gc.DpadUp = false ∧ gc.DpadLeft = false ∧ gc.DpadDown = true ∧ gc.DpadRight = false →
      (GCtoDS4 gc).wButtons % 16 = 4 ∧ DS4_BUTTON_DPAD_SOUTH = 4) ∧
    (gc.DpadUp = false ∧ gc.DpadLeft = true ∧ gc.DpadDown = false ∧ gc.DpadRight = false →
      (GCtoDS4 gc).wButtons % 16 = 6 ∧ DS4_BUTTON_DPAD_WEST = 6) ∧
    (gc.DpadUp = true ∧ gc.DpadLeft = false ∧ gc.DpadDown = false ∧ gc.DpadRight = true →
      (GCtoDS4 gc).wButtons % 16 = 1 ∧ DS4_BUTTON_DPAD_NORTHEAST = 1) ∧
    (gc.DpadUp = false ∧ gc.DpadLeft = false ∧ gc.DpadDown = true ∧ gc.DpadRight = true →
      (GCtoDS4 gc).wButtons % 16 = 3 ∧ DS4_BUTTON_DPAD_SOUTHEAST = 3) ∧
    (gc.DpadUp = false ∧ gc.DpadLeft = true ∧ gc.DpadDown = true ∧ gc.DpadRight = false →
      (GCtoDS4 gc).wButtons % 16 = 5 ∧ DS4_BUTTON_DPAD_SOUTHWEST = 5) ∧
    (gc.DpadUp = true ∧ gc.DpadLeft = true ∧ gc.DpadDown = false ∧ gc.DpadRight = false →
      (GCtoDS4 gc).wButtons % 16 = 7 ∧ DS4_BUTTON_DPAD_NORTHWEST = 7) := by
  rw [wButtons_low]
  refine ⟨?_, ?_, ?_, ?_, ?_, ?_, ?_, ?_⟩ <;>
    (rintro ⟨hu, hl, hd, hr⟩; rw [hu, hl, hd, hr]; exact ⟨rfl, rfl⟩)

/-- C1 at concrete snapshots: Up alone with A, Start and bit 15 set and odd
sticks gives 0, and Down+Left with every mapped button pressed gives 5. -/
theorem GCtoDS4_dpad_cardinal_diagonal_witness :
    (GCtoDS4 ⟨0x10, 0x8181, 3, 250, 7, 9, 200, 1⟩).wButtons % 16 = 0 ∧
    (GCtoDS4 ⟨0x20, 0x0F5F, 128, 128, 128, 128, 0, 0⟩).wButtons % 16 = 5 :=
  ⟨((GCtoDS4_dpad_cardinal_diagonal ⟨0x10, 0x8181, 3, 250, 7, 9, 200, 1⟩).1
      ⟨by decide, by decide, by decide, by decide⟩).1,
   ((GCtoDS4_dpad_cardinal_diagonal ⟨0x20, 0x0F5F, 128, 128, 128, 128, 0, 0⟩).2.2.2.2.2.2.1
      ⟨by decide, by decide, by decide, by decide⟩).1⟩

/-- C2, as stated, fails: the snapshot whose only directional flags are Up
and Down (`Buttons = 0xC0`) gets the d-pad value 0 (north), not 8, and the
snapshot whose only directional flags are Left and Right (`Buttons = 0x30`)
gets 6 (west), not 8. -/
theorem GCtoDS4_dpad_opposite_not_centered :
    ((GCInput.DpadUp ⟨0, 0xC0, 128, 128, 128, 128, 0, 0⟩ = true ∧
      GCInput.DpadDown ⟨0, 0xC0, 128, 128, 128, 128, 0, 0⟩ = true ∧
      GCInput.DpadLeft ⟨0, 0xC0, 128, 128, 128, 128, 0, 0⟩ = false ∧
      GCInput.DpadRight ⟨0, 0xC0, 128, 128, 128, 128, 0, 0⟩ = false) ∧
      (GCtoDS4 ⟨0, 0xC0, 128, 128, 128, 128, 0, 0⟩).wButtons % 16 = 0 ∧
      (GCtoDS4 ⟨0, 0xC0, 128, 128, 128, 128, 0, 0⟩).wButtons % 16 ≠ DS4_BUTTON_DPAD_NONE) ∧
    ((GCInput.DpadUp ⟨0, 0x30, 128, 128, 128, 128, 0, 0⟩ = false ∧
      GCInput.DpadDown ⟨0, 0x30, 128, 128, 128, 128, 0, 0⟩ = false ∧
      GCInput.DpadLeft ⟨0, 0x30, 128, 128, 128, 128, 0, 0⟩ = true ∧
      GCInput.DpadRight ⟨0, 0x30, 128, 128, 128, 128, 0, 0⟩ = true) ∧
      (GCtoDS4 ⟨0, 0x30, 128, 128, 128, 128, 0, 0⟩).wButtons % 16 = 6 ∧
      (GCtoDS4 ⟨0, 0x30, 128, 128, 128, 128, 0, 0⟩).wButtons % 16 ≠ DS4_BUTTON_DPAD_NONE) := by
  decide

/-- C2, amended: a snapshot with no directional flag set gets the d-pad value
8 (centered); a snapshot whose only directional flags are Up and Down gets 0
(north), and one whose only directional flags are Left and Right gets 6
(west), because the single-direction checks run in the order up, left, down,
right. -/
theorem GCtoDS4_dpad_none_or_opposite (gc : GCInput) :
    (gc.DpadUp = false ∧ gc.DpadLeft = false ∧ gc.DpadDown = false ∧ gc.DpadRight = false →
      (GCtoDS4 gc).wButtons % 16 = 8 ∧ DS4_BUTTON_DPAD_NONE = 8) ∧
    (gc.DpadUp = true ∧ gc.DpadLeft = false ∧ gc.DpadDown = true ∧ gc.DpadRight = false →
      (GCtoDS4 gc).wButtons % 16 = 0 ∧ DS4_BUTTON_DPAD_NORTH = 0) ∧
    (gc.DpadUp = false ∧ gc.DpadLeft = true ∧ gc.DpadDown = false ∧ gc.DpadRight = true →
      (GCtoDS4 gc).wButtons % 16 = 6 ∧ DS4_BUTTON_DPAD_WEST = 6) := by
  rw [wButtons_low]
  refine ⟨?_, ?_, ?_⟩ <;>
    (rintro ⟨hu, hl, hd, hr⟩; rw [hu, hl, hd, hr]; exact ⟨rfl, rfl⟩)

/-- C2 amended, at concrete snapshots: no flag with buttons pressed gives 8,
Up+Down gives 0, Left+Right gives 6. -/
theorem GCtoDS4_dpad_none_or_opposite_witness :
    (GCtoDS4 ⟨0x10, 0x0F0F, 1, 2, 3, 4, 5, 6⟩).wButtons % 16 = 8 ∧
    (GCtoDS4 ⟨0, 0xC0, 128, 128, 128, 128, 0, 0⟩).wButtons % 16 = 0 ∧
    (GCtoDS4 ⟨0, 0x30, 128, 128, 128, 128, 0, 0⟩).wButtons % 16 = 6 :=
  ⟨((GCtoDS4_dpad_none_or_opposite ⟨0x10, 0x0F0F, 1, 2, 3, 4, 5, 6⟩).1
      ⟨by decide, by decide, by decide, by decide⟩).1,
   ((GCtoDS4_dpad_none_or_opposite ⟨0, 0xC0, 128, 128, 128, 128, 0, 0⟩).2.1
      ⟨by decide, by decide, by decide, by decide⟩).1,
   ((GCtoDS4_dpad_none_or_opposite ⟨0, 0x30, 128, 128, 128, 128, 0, 0⟩).2.2
      ⟨by decide, by decide, by decide, by decide⟩).1⟩

/-- C3: for a snapshot whose fields are bytes, `GCtoDS4` passes `AnalogX`,
`CStickX` and the two triggers through unchanged and stores `255 - AnalogY`
and `255 - CStickY` in the two Y fields; every stick and trigger field of the
report is again a byte. -/
theorem GCtoDS4_axes_triggers (gc : GCInput) (h : gc.InRange) :
    (GCtoDS4 gc).bThumbLX = gc.AnalogX ∧ (GCtoDS4 gc).bThumbRX = gc.CStickX ∧
    (GCtoDS4 gc).bTriggerL = gc.LeftTrigger ∧ (GCtoDS4 gc).bTriggerR = gc.RightTrigger ∧
    (GCtoDS4 gc).bThumbLY = 255 - gc.AnalogY ∧ (GCtoDS4 gc).bThumbRY = 255 - gc.CStickY ∧
    (GCtoDS4 gc).bThumbLY + gc.AnalogY = 255 ∧ (GCtoDS4 gc).bThumbRY + gc.CStickY = 255 := by
  obtain ⟨_, _, _, hy, _, hcy, _, _⟩ := h
  have h1 : (GCtoDS4 gc).bThumbLY = 255 - gc.AnalogY := complementByte_eq _ hy
  have h2 : (GCtoDS4 gc).bThumbRY = 255 - gc.CStickY := complementByte_eq _ hcy
  refine ⟨rfl, rfl, rfl, rfl, h1, h2, ?_, ?_⟩ <;> omega

/-- C3 at a concrete snapshot: sticks (10, 200) and (0, 255), triggers 77 and
255. -/
theorem GCtoDS4_axes_triggers_witness :
    GCInput.InRange ⟨0x10, 0x0001, 10, 200, 0, 255, 77, 255⟩ ∧
    (GCtoDS4 ⟨0x10, 0x0001, 10, 200, 0, 255, 77, 255⟩).bThumbLY = 255 - 200 ∧
    (GCtoDS4 ⟨0x10, 0x0001, 10, 200, 0, 255, 77, 255⟩).bThumbRY = 255 - 255 :=
  ⟨by decide,
   (GCtoDS4_axes_triggers ⟨0x10, 0x0001, 10, 200, 0, 255, 77, 255⟩ (by decide)).2.2.2.2.1,
   (GCtoDS4_axes_triggers ⟨0x10, 0x0001, 10, 200, 0, 255, 77, 255⟩ (by decide)).2.2.2.2.2.1⟩

theorem testBit_low_bits (b hi i : Nat) (hi12 : i < 12) :
    (b % 4096 + 4096 * hi).testBit i = b.testBit i := by
  have e : b % 4096 + 4096 * hi = 2 ^ 12 * hi + b % 2 ^ 12 := by norm_num; omega
  rw [e, Nat.testBit_mul_pow_two_add hi (Nat.mod_lt b (by norm_num)) i,
    Nat.testBit_mod_two_pow]
  simp [hi12]

theorem GCtoDS4_congr (gc gc' : GCInput)
    (hb : ∀ i, i < 12 → gc'.Buttons.testBit i = gc.Buttons.testBit i)
    (h1 : gc'.AnalogX = gc.AnalogX) (h2 : gc'.AnalogY = gc.AnalogY)
    (h3 : gc'.CStickX = gc.CStickX) (h4 : gc'.CStickY = gc.CStickY)
    (h5 : gc'.LeftTrigger = gc.LeftTrigger) (h6 : gc'.RightTrigger = gc.RightTrigger) :
    GCtoDS4 gc' = GCtoDS4 gc := by
  simp only [GCtoDS4, mapDpad, mapButtons, GCInput.Start, GCInput.Z, GCInput.R, GCInput.L,
    GCInput.X, GCInput.A, GCInput.B, GCInput.Y, GCInput.DpadUp, GCInput.DpadLeft,
    GCInput.DpadDown, GCInput.DpadRight, h1, h2, h3, h4, h5, h6,
    hb 0 (by decide), hb 1 (by decide), hb 2 (by decide), hb 3 (by decide), hb 4 (by decide),
    hb 5 (by decide), hb 6 (by decide), hb 7 (by decide), hb 8 (by decide), hb 9 (by decide),
    hb 10 (by decide), hb 11 (by decide)]

/-- C4: the button part of `wButtons` (bits 4 to 15) is the OR of the table
entries of the pressed buttons under Start 1<<13, Z 1<<12, R 1<<9, L 1<<8,
X 1<<7, A 1<<6, B 1<<5, Y 1<<4; two snapshots with the same button part have
the same eight buttons pressed; and replacing the status byte and bits 12 and
up of the `Buttons` word by anything leaves the whole report unchanged. -/
theorem GCtoDS4_button_table (gc : GCInput) :
    (GCtoDS4 gc).wButtons / 16 * 16 = tableMask gc ∧
    (∀ gc' : GCInput, (GCtoDS4 gc).wButtons / 16 * 16 = (GCtoDS4 gc').wButtons / 16 * 16 →
      gc.Start = gc'.Start ∧ gc.Z = gc'.Z ∧ gc.R = gc'.R ∧ gc.L = gc'.L ∧
      gc.X = gc'.X ∧ gc.A = gc'.A ∧ gc.B = gc'.B ∧ gc.Y = gc'.Y) ∧
    (∀ status hi : Nat,
      GCtoDS4 { gc with Status := status, Buttons := gc.Buttons % 4096 + 4096 * hi } =
        GCtoDS4 gc) := by
  have key : ∀ g : GCInput, (GCtoDS4 g).wButtons / 16 * 16 =
      buttonWord g.Start g.Z g.R g.L g.X g.A g.B g.Y := by
    intro g
    have hb := buttonWord_bounds g.Start g.Z g.R g.L g.X g.A g.B g.Y
    have hd := dpadCode_le g.DpadUp g.DpadLeft g.DpadDown g.DpadRight
    rw [wButtons_eq]
    omega
  refine ⟨?_, ?_, ?_⟩
  · rw [key, tableMask_eq]
  · intro gc' h
    rw [key, key] at h
    exact buttonWord_inj _ _ _ _ _ _ _ _ _ _ _ _ _ _ _ _ h
  · intro status hi
    exact GCtoDS4_congr gc _ (fun i hi12 => testBit_low_bits gc.Buttons hi i hi12)
      rfl rfl rfl rfl rfl rfl

/-- C4 at concrete snapshots: A and Start pressed with Up gives the button
part `1<<13 | 1<<6`; a second snapshot with the same button part has A
pressed too. -/
theorem GCtoDS4_button_table_witness :
    (GCtoDS4 ⟨0x10, 0x0181, 1, 2, 3, 4, 5, 6⟩).wButtons / 16 * 16 = 1 <<< 13 ||| 1 <<< 6 ∧
    GCInput.A ⟨0x10, 0x0181, 1, 2, 3, 4, 5, 6⟩ = GCInput.A ⟨0x24, 0xF121, 9, 9, 9, 9, 9, 9⟩ :=
  ⟨(GCtoDS4_button_table ⟨0x10, 0x0181, 1, 2, 3, 4, 5, 6⟩).1.trans (by decide),
   ((GCtoDS4_button_table ⟨0x10, 0x0181, 1, 2, 3, 4, 5, 6⟩).2.1
      ⟨0x24, 0xF121, 9, 9, 9, 9, 9, 9⟩ (by decide)).2.2.2.2.2.1⟩

/-! ## The failure counter -/

theorem failedCalls_flags (n : Nat) : ∀ (a : Adapter), a.failedReads + n ≤ 2 ^ 64 →
    (failedCalls n a).1 = (List.range' a.failedReads n).map (fun c => decide (20 < c)) := by
  induction n with
  | zero =>
    intro a _
    simp [failedCalls]
  | succ n ih =>
    intro a h
    have hflag : (a.ShouldDisconnect false).1 = decide (20 < a.failedReads) := by
      by_cases hc : 20 < a.failedReads <;> simp [Adapter.ShouldDisconnect, hc]
    have hnext : (a.ShouldDisconnect false).2.failedReads = (a.failedReads + 1) % 2 ^ 64 := by
      by_cases hc : 20 < a.failedReads <;> simp [Adapter.ShouldDisconnect, hc]
    rcases Nat.eq_zero_or_pos n with hn | hn
    · subst hn
      simp [failedCalls, hflag]
    · have hm : (a.failedReads + 1) % 2 ^ 64 = a.failedReads + 1 :=
        Nat.mod_eq_of_lt (by omega)
      have ih' := ih (a.ShouldDisconnect false).2 (by rw [hnext, hm]; omega)
      rw [hnext, hm] at ih'
      simp only [failedCalls, ih', hflag, List.range', List.map_cons]

theorem range'_flags (n : Nat) :
    (List.range' 0 n).map (fun c => decide (20 < c)) =
      List.replicate (min n 21) false ++ List.replicate (n - 21) true := by
  apply List.ext_getElem
  · simp; omega
  · intro k h1 h2
    simp only [List.length_map, List.length_range'] at h1
    by_cases hk : k < 21
    · rw [List.getElem_append_left (by simp; omega)]
      simp; omega
    · rw [List.getElem_append_right (by simp; omega)]
      simp; omega

/-- C5, as stated, fails: on a fresh session (counter 0) the 21st consecutive
call `ShouldDisconnect(false)` returns false, the 22nd is the first to return
true, and the 23rd returns true again, so a run of 23 calls returns true
twice. -/
theorem ShouldDisconnect_call21_false :
    (failedCalls 23 ⟨1, [0x11, 0, 0, 0, 0], 0⟩).1[20]? = some false ∧
    (failedCalls 23 ⟨1, [0x11, 0, 0, 0, 0], 0⟩).1[21]? = some true ∧
    (failedCalls 23 ⟨1, [0x11, 0, 0, 0, 0], 0⟩).1[22]? = some true ∧
    (failedCalls 23 ⟨1, [0x11, 0, 0, 0, 0], 0⟩).1.count true = 2 := by
  decide

/-- C5, amended: starting from a failure counter of zero, in a run of `n`
consecutive calls `ShouldDisconnect(false)` (with `n` at most `2^64`, where
the counter would wrap) the calls 1 to 21 return false and every call from
number 22 on returns true: the flags are 21 times false, then true
throughout. -/
theorem ShouldDisconnect_consecutive_failures (a : Adapter) (h0 : a.failedReads = 0)
    (n : Nat) (hn : n ≤ 2 ^ 64) :
    (failedCalls n a).1 = List.replicate (min n 21) false ++ List.replicate (n - 21) true := by
  rw [failedCalls_flags n a (by omega), h0, range'_flags]

/-- C5 amended, on a fresh session and a run of 25 calls. -/
theorem ShouldDisconnect_consecutive_failures_witness :
    (failedCalls 25 ⟨1, [0x11, 0, 0, 0, 0], 0⟩).1 =
      List.replicate (min 25 21) false ++ List.replicate (25 - 21) true :=
  ShouldDisconnect_consecutive_failures ⟨1, [0x11, 0, 0, 0, 0], 0⟩ rfl 25 (by norm_num)

/-! ## The polling loop -/

theorem set_of_getElem? {α : Type} (l : List α) : ∀ (n : Nat) (a : α), l[n]? = some a →
    l.set n a = l := by
  induction l with
  | nil => intro n a h; simp at h
  | cons x xs ih =>
    intro n a h
    cases n with
    | zero => simp at h; simp [h]
    | succ n => simp at h; simp [ih n a h]

theorem flatMap_congr_mem {α β : Type} (f g : α → List β) : ∀ (l : List α),
    (∀ x ∈ l, f x = g x) → l.flatMap f = l.flatMap g := by
  intro l
  induction l with
  | nil => intro _; rfl
  | cons x xs ih =>
    intro h
    simp only [List.flatMap_cons]
    rw [h x (List.mem_cons_self _ _), ih (fun y hy => h y (List.mem_cons_of_mem _ hy))]

theorem updatePad_ok (i : Nat) (inputs : Inputs) (w : World) (j : Fin 4)
    (hc : i * 4 + j.val < w.isConnected.length) (hp : i * 4 + j.val < w.pads.length) :
    updatePad i inputs w j = Except.ok
      { w with
        isConnected := w.isConnected.set (i * 4 + j.val) (inputs.Controllers j).On,
        vigemLog := w.vigemLog ++
          padCalls (w.isConnected.getD (i * 4 + j.val) false) (inputs.Controllers j)
            (w.pads.getD (i * 4 + j.val) 0) } := by
  have hnot : ¬ (w.pads.length < i * 4 + j.val) := by omega
  have hwas : w.isConnected[i * 4 + j.val]? = some w.isConnected[i * 4 + j.val] :=
    List.getElem?_eq_getElem hc
  have hpad : w.pads[i * 4 + j.val]? = some w.pads[i * 4 + j.val] :=
    List.getElem?_eq_getElem hp
  have hself : w.isConnected.set (i * 4 + j.val) w.isConnected[i * 4 + j.val] =
      w.isConnected := set_of_getElem? _ _ _ hwas
  cases hon : (inputs.Controllers j).On <;> cases hw : w.isConnected[i * 4 + j.val] <;>
    simp [updatePad, World.getConnected, World.setConnected, World.getPad,
      World.UpdateController, padCalls, hon, hw, hwas, hpad, hc, hnot, bind, Except.bind,
      pure, Except.pure] <;>
    (rw [hw] at hself; simp [hself])

theorem updatePads_ok (i : Nat) (inputs : Inputs) : ∀ (js : List (Fin 4)) (w : World),
    js.Nodup →
    (∀ j ∈ js, i * 4 + j.val < w.isConnected.length ∧ i * 4 + j.val < w.pads.length) →
    ∃ w', js.foldlM (updatePad i inputs) w = Except.ok w' ∧
      w'.adapters = w.adapters ∧ w'.pads = w.pads ∧ w'.client = w.client ∧
      w'.usbLog = w.usbLog ∧ w'.isConnected.length = w.isConnected.length ∧
      (∀ j ∈ js, w'.isConnected[i * 4 + j.val]? = some (inputs.Controllers j).On) ∧
      (∀ t, (∀ j ∈ js, t ≠ i * 4 + j.val) → w'.isConnected[t]? = w.isConnected[t]?) ∧
      w'.vigemLog = w.vigemLog ++ js.flatMap (fun j =>
        padCalls (w.isConnected.getD (i * 4 + j.val) false) (inputs.Controllers j)
          (w.pads.getD (i * 4 + j.val) 0)) := by
  intro js
  induction js with
  | nil =>
    intro w _ _
    exact ⟨w, rfl, rfl, rfl, rfl, rfl, rfl, by simp, by simp, by simp⟩
  | cons j js ih =>
    intro w hnd hlen
    obtain ⟨hj, hnd'⟩ := List.nodup_cons.mp hnd
    obtain ⟨hc, hp⟩ := hlen j (List.mem_cons_self _ _)
    have hne : ∀ j' ∈ js, i * 4 + j.val ≠ i * 4 + j'.val := by
      intro j' hj' he
      have : j = j' := Fin.ext (by omega)
      exact hj (this ▸ hj')
    obtain ⟨w', h1, h2, h3, h4, h5, h6, h7, h8, h9⟩ := ih
      { w with
        isConnected := w.isConnected.set (i * 4 + j.val) (inputs.Controllers j).On,
        vigemLog := w.vigemLog ++
          padCalls (w.isConnected.getD (i * 4 + j.val) false) (inputs.Controllers j)
            (w.pads.getD (i * 4 + j.val) 0) } hnd'
      (by
        intro j' hj'
        have := hlen j' (List.mem_cons_of_mem _ hj')
        simpa using this)
    refine ⟨w', ?_, h2, h3, h4, h5, by simpa using h6, ?_, ?_, ?_⟩
    · simp only [List.foldlM_cons, updatePad_ok i inputs w j hc hp, bind, Except.bind]
      exact h1
    · intro j' hj'
      rcases List.mem_cons.mp hj' with rfl | hj''
      · rw [h8 _ (fun j'' hj'' => hne j'' hj'')]
        simp [List.getElem?_set_self hc]
      · exact h7 j' hj''
    · intro t ht
      rw [h8 t (fun j' hj' => ht j' (List.mem_cons_of_mem _ hj'))]
      have : i * 4 + j.val ≠ t := fun h => ht j (List.mem_cons_self _ _) h.symm
      simp [List.getElem?_set_ne this]
    · rw [h9]
      simp only [List.flatMap_cons, List.append_assoc, List.append_cancel_left_eq]
      apply flatMap_congr_mem
      intro j' hj'
      have := hne j' hj'
      simp [List.getElem?_set_ne this]

theorem setConnected_fold_ok (i : Nat) : ∀ (js : List (Fin 4)) (w : World),
    (∀ j ∈ js, i * 4 + j.val < w.isConnected.length) →
    ∃ w', js.foldlM (fun w j => w.setConnected (i * 4 + j.val) false) w = Except.ok w' ∧
      w'.adapters = w.adapters ∧ w'.pads = w.pads ∧ w'.client = w.client ∧
      w'.usbLog = w.usbLog ∧ w'.vigemLog = w.vigemLog ∧
      w'.isConnected.length = w.isConnected.length ∧
      (∀ j ∈ js, w'.isConnected[i * 4 + j.val]? = some false) ∧
      (∀ t, (∀ j ∈ js, t ≠ i * 4 + j.val) → w'.isConnected[t]? = w.isConnected[t]?) := by
  intro js
  induction js with
  | nil =>
    intro w _
    exact ⟨w, rfl, rfl, rfl, rfl, rfl, rfl, rfl, by simp, by simp⟩
  | cons j js ih =>
    intro w hlen
    have hc := hlen j (List.mem_cons_self _ _)
    obtain ⟨w', h1, h2, h3, h4, h5, h6, h7, h8, h9⟩ := ih
      { w with isConnected := w.isConnected.set (i * 4 + j.val) false }
      (by
        intro j' hj'
        have := hlen j' (List.mem_cons_of_mem _ hj')
        simpa using this)
    refine ⟨w', ?_, h2, h3, h4, h5, h6, by simpa using h7, ?_, ?_⟩
    · simp only [List.foldlM_cons, World.setConnected, hc, if_true, bind, Except.bind, pure,
        Except.pure]
      exact h1
    · intro j' hj'
      rcases List.mem_cons.mp hj' with rfl | hj''
      · by_cases hmem : j' ∈ js
        · exact h8 j' hmem
        · rw [h9 _ (fun j'' hj'' he => hmem (by
            have : j' = j'' := Fin.ext (by omega)
            exact this ▸ hj''))]
          simp [List.getElem?_set_self hc]
      · exact h8 j' hj''
    · intro t ht
      rw [h9 t (fun j' hj' => ht j' (List.mem_cons_of_mem _ hj'))]
      have : i * 4 + j.val ≠ t := fun h => ht j (List.mem_cons_self _ _) h.symm
      simp [List.getElem?_set_ne this]

theorem markDisconnected_ok (i : Nat) (w : World) (hc : i * 4 + 4 ≤ w.isConnected.length) :
    ∃ w', markDisconnected i w = Except.ok w' ∧
      w'.adapters = w.adapters ∧ w'.pads = w.pads ∧ w'.client = w.client ∧
      w'.usbLog = w.usbLog ∧ w'.vigemLog = w.vigemLog ∧
      w'.isConnected.length = w.isConnected.length ∧
      (∀ j, j < 4 → w'.isConnected[i * 4 + j]? = some false) ∧
      (∀ t, (t < i * 4 ∨ i * 4 + 4 ≤ t) → w'.isConnected[t]? = w.isConnected[t]?) := by
  obtain ⟨w', h1, h2, h3, h4, h5, h6, h7, h8, h9⟩ :=
    setConnected_fold_ok i (List.finRange 4) w (fun j _ => by omega)
  refine ⟨w', h1, h2, h3, h4, h5, h6, h7, ?_, ?_⟩
  · intro j hj
    exact h8 ⟨j, hj⟩ (List.mem_finRange _)
  · intro t ht
    exact h9 t (fun j _ => by omega)

theorem removeFirstMatch_at (p : Adapter) : ∀ (l : List (Option Adapter)) (i : Nat) (a : Adapter),
    l[i]? = some (some a) → a.dev_handle = p.dev_handle →
    (∀ k b, k < i → l[k]? = some (some b) → b.dev_handle ≠ p.dev_handle) →
    removeFirstMatch (some p) l = (l.set i none, some a) := by
  intro l
  induction l with
  | nil => intro i a h; simp at h
  | cons x xs ih =>
    intro i a h hh hlow
    cases i with
    | zero =>
      simp only [List.getElem?_cons_zero, Option.some.injEq] at h
      subst h
      simp [removeFirstMatch, Adapter.DoesHandleMatch, Adapter.DoesHandleMatchHandle, hh]
    | succ i =>
      simp only [List.getElem?_cons_succ] at h
      have hlow' : ∀ k b, k < i → xs[k]? = some (some b) → b.dev_handle ≠ p.dev_handle := by
        intro k b hk hb
        exact hlow (k + 1) b (by omega) (by simpa using hb)
      cases x with
      | none => simp [removeFirstMatch, ih i a h hh hlow']
      | some b =>
        have hb : b.dev_handle ≠ p.dev_handle := hlow 0 b (by omega) (by simp)
        simp [removeFirstMatch, Adapter.DoesHandleMatch, Adapter.DoesHandleMatchHandle, hb,
          ih i a h hh hlow']

theorem ShouldDisconnect_handle (a : Adapter) (g : Bool) :
    (a.ShouldDisconnect g).2.dev_handle = a.dev_handle ∧
    (a.ShouldDisconnect g).2.rumblePayload = a.rumblePayload := by
  cases g
  · by_cases hc : 20 < a.failedReads <;> simp [Adapter.ShouldDisconnect, hc]
  · simp [Adapter.ShouldDisconnect]

theorem pollAdapter_empty (i : Nat) (reply : InterruptReply) (w : World)
    (ha : w.adapters[i]? = some none) : pollAdapter i reply w = Except.ok w := by
  simp only [pollAdapter, ha]
  rfl

theorem pollAdapter_fail_keep (i : Nat) (reply : InterruptReply) (w : World) (a : Adapter)
    (ha : w.adapters[i]? = some (some a)) (hfail : (a.GetInputs reply).1 = false)
    (hsd : (a.ShouldDisconnect false).1 = false) :
    pollAdapter i reply w =
      Except.ok { w with adapters := w.adapters.set i (some (a.ShouldDisconnect false).2) } := by
  simp only [pollAdapter, ha, hfail, hsd]
  rfl

theorem pollAdapter_disconnect (i : Nat) (reply : InterruptReply) (w : World) (a : Adapter)
    (ha : w.adapters[i]? = some (some a)) (hfail : (a.GetInputs reply).1 = false)
    (hsd : (a.ShouldDisconnect false).1 = true) (hc : i * 4 + 4 ≤ w.isConnected.length)
    (hfirst : ∀ k b, k < i → w.adapters[k]? = some (some b) → b.dev_handle ≠ a.dev_handle) :
    ∃ w', pollAdapter i reply w = Except.ok w' ∧
      w'.adapters = w.adapters.set i none ∧ w'.pads = w.pads ∧ w'.client = w.client ∧
      w'.vigemLog = w.vigemLog ∧
      w'.usbLog = w.usbLog ++
        [UsbCall.release_interface a.dev_handle 0, UsbCall.close a.dev_handle] ∧
      w'.isConnected.length = w.isConnected.length ∧
      (∀ j, j < 4 → w'.isConnected[i * 4 + j]? = some false) ∧
      (∀ t, (t < i * 4 ∨ i * 4 + 4 ≤ t) → w'.isConnected[t]? = w.isConnected[t]?) := by
  have hlt : i < w.adapters.length := (List.getElem?_eq_some_iff.mp ha).1
  obtain ⟨hh, _⟩ := ShouldDisconnect_handle a false
  have hrem : removeFirstMatch (some (a.ShouldDisconnect false).2)
      (w.adapters.set i (some (a.ShouldDisconnect false).2)) =
      (w.adapters.set i none, some (a.ShouldDisconnect false).2) := by
    rw [removeFirstMatch_at (a.ShouldDisconnect false).2 _ i (a.ShouldDisconnect false).2
      (by simp [List.getElem?_set_self hlt]) rfl]
    · simp
    · intro k b hk hb
      have hne : i ≠ k := by omega
      rw [List.getElem?_set_ne hne] at hb
      rw [hh]
      exact hfirst k b hk hb
  obtain ⟨w', h1, h2, h3, h4, h5, h6, h7, h8, h9⟩ := markDisconnected_ok i
    { w with adapters := w.adapters.set i none,
             usbLog := w.usbLog ++ (a.ShouldDisconnect false).2.destroy } hc
  refine ⟨w', ?_, h2, h3, h4, h6, ?_, h7, h8, h9⟩
  · simp only [pollAdapter, ha, hfail, hsd, if_true, RemoveAdapter, List.getD_eq_getElem?_getD,
      List.getElem?_set_self hlt, Option.getD_some, hrem, bind, Except.bind, h1]
    rfl
  · rw [h5]
    simp [Adapter.destroy, hh]

theorem pollAdapter_success (i : Nat) (reply : InterruptReply) (w : World) (a : Adapter)
    (ha : w.adapters[i]? = some (some a)) (hgot : (a.GetInputs reply).1 = true)
    (hc : i * 4 + 4 ≤ w.isConnected.length) (hp : i * 4 + 4 ≤ w.pads.length) :
    ∃ w', pollAdapter i reply w = Except.ok w' ∧
      w'.adapters = w.adapters.set i (some { a with failedReads := 0 }) ∧
      w'.pads = w.pads ∧ w'.client = w.client ∧ w'.usbLog = w.usbLog ∧
      w'.isConnected.length = w.isConnected.length ∧
      (∀ j : Fin 4, w'.isConnected[i * 4 + j.val]? = some (reply.inputs.Controllers j).On) ∧
      (∀ t, (t < i * 4 ∨ i * 4 + 4 ≤ t) → w'.isConnected[t]? = w.isConnected[t]?) ∧
      w'.vigemLog = w.vigemLog ++ (List.finRange 4).flatMap (fun j =>
        padCalls (w.isConnected.getD (i * 4 + j.val) false) (reply.inputs.Controllers j)
          (w.pads.getD (i * 4 + j.val) 0)) := by
  obtain ⟨w', h1, h2, h3, h4, h5, h6, h7, h8, h9⟩ := updatePads_ok i reply.inputs
    (List.finRange 4) { w with adapters := w.adapters.set i (some { a with failedReads := 0 }) }
    (List.nodup_finRange 4) (fun j _ => ⟨by show i * 4 + j.val < w.isConnected.length; omega,
      by show i * 4 + j.val < w.pads.length; omega⟩)
  refine ⟨w', ?_, h2, h3, h4, h5, h6, fun j => h7 j (List.mem_finRange j), ?_, h9⟩
  · have hsd : a.ShouldDisconnect true = (false, { a with failedReads := 0 }) := by
      simp [Adapter.ShouldDisconnect]
    simp only [pollAdapter, ha, hgot, hsd, Bool.false_eq_true, if_false, Bool.not_true, bind,
      Except.bind, pure, Except.pure]
    exact h1
  · intro t ht
    exact h8 t (fun j _ => by omega)

theorem HandlesDistinct_set (l : List (Option Adapter)) (k : Nat) (a : Adapter)
    (x : Option Adapter) (hd : HandlesDistinct l) (ha : l[k]? = some (some a))
    (hx : ∀ a', x = some a' → a'.dev_handle = a.dev_handle) :
    HandlesDistinct (l.set k x) := by
  have hlt : k < l.length := (List.getElem?_eq_some_iff.mp ha).1
  intro m n b c hb hc hbc
  by_cases hm : k = m
  · by_cases hn : k = n
    · omega
    · subst hm
      rw [List.getElem?_set_self hlt] at hb
      rw [List.getElem?_set_ne hn] at hc
      have := hx b (Option.some.inj hb)
      exact hd k n a c ha hc (by rw [← this, hbc])
  · by_cases hn : k = n
    · subst hn
      rw [List.getElem?_set_self hlt] at hc
      rw [List.getElem?_set_ne hm] at hb
      have := hx c (Option.some.inj hc)
      exact hd m k b a hb ha (by rw [hbc, this])
    · rw [List.getElem?_set_ne hm] at hb
      rw [List.getElem?_set_ne hn] at hc
      exact hd m n b c hb hc hbc

theorem mem_padCalls (was : Bool) (s : GCInput) (pad : Nat) (c : ViGEmCall)
    (h : c ∈ padCalls was s pad) : ∃ r, c = ViGEmCall.target_ds4_update pad r := by
  unfold padCalls at h
  split_ifs at h
  · exact ⟨_, List.mem_singleton.mp h⟩
  · exact ⟨_, List.mem_singleton.mp h⟩
  · simp at h

theorem pollAdapter_frame (k : Nat) (reply : InterruptReply) (w : World)
    (hk : k < MAX_ADAPTERS) (hs : w.Sized) (hd : HandlesDistinct w.adapters) :
    ∃ w' new, pollAdapter k reply w = Except.ok w' ∧ w'.Sized ∧
      HandlesDistinct w'.adapters ∧ w'.pads = w.pads ∧ w'.client = w.client ∧
      (∀ m, m ≠ k → w'.adapters[m]? = w.adapters[m]?) ∧
      (∀ t, (t < k * 4 ∨ k * 4 + 4 ≤ t) → w'.isConnected[t]? = w.isConnected[t]?) ∧
      w'.vigemLog = w.vigemLog ++ new ∧
      (∀ c ∈ new, ∃ j : Fin 4, ∃ r,
        c = ViGEmCall.target_ds4_update (w.pads.getD (k * 4 + j.val) 0) r) := by
  obtain ⟨hs1, hs2, hs3⟩ := hs
  simp only [MAX_ADAPTERS] at hk hs1 hs2 hs3
  have hlt : k < w.adapters.length := by omega
  have hc : k * 4 + 4 ≤ w.isConnected.length := by omega
  have hp : k * 4 + 4 ≤ w.pads.length := by omega
  have hget : w.adapters[k]? = some w.adapters[k] := List.getElem?_eq_getElem hlt
  cases hslot : w.adapters[k] with
  | none =>
    rw [hslot] at hget
    exact ⟨w, [], pollAdapter_empty k reply w hget, ⟨hs1, hs2, hs3⟩, hd, rfl, rfl,
      fun _ _ => rfl, fun _ _ => rfl, by simp, by simp⟩
  | some a =>
    rw [hslot] at hget
    cases hgot : (a.GetInputs reply).1 with
    | true =>
      obtain ⟨w', h1, h2, h3, h4, h5, h6, h7, h8, h9⟩ :=
        pollAdapter_success k reply w a hget hgot hc hp
      refine ⟨w', _, h1, ⟨by rw [h2]; simpa [MAX_ADAPTERS] using hs1, by rw [h3]; exact hs2,
        by rw [h6]; exact hs3⟩, ?_, h3, h4, ?_, h8, h9, ?_⟩
      · rw [h2]
        exact HandlesDistinct_set _ k a _ hd hget (fun a' ha' => by
          rw [← Option.some.inj ha'])
      · intro m hm
        rw [h2, List.getElem?_set_ne (Ne.symm hm)]
      · intro c hcmem
        obtain ⟨j, _, hj⟩ := List.mem_flatMap.mp hcmem
        obtain ⟨r, hr⟩ := mem_padCalls _ _ _ c hj
        exact ⟨j, r, hr⟩
    | false =>
      cases hsd : (a.ShouldDisconnect false).1 with
      | false =>
        refine ⟨_, [], pollAdapter_fail_keep k reply w a hget hgot hsd,
          ⟨by simpa [MAX_ADAPTERS] using hs1, hs2, hs3⟩, ?_, rfl, rfl, ?_, fun _ _ => rfl,
          by simp, by simp⟩
        · exact HandlesDistinct_set _ k a _ hd hget (fun a' ha' => by
            rw [← Option.some.inj ha']
            exact (ShouldDisconnect_handle a false).1)
        · intro m hm
          simp [List.getElem?_set_ne (Ne.symm hm)]
      | true =>
        obtain ⟨w', h1, h2, h3, h4, h5, h6, h7, h8, h9⟩ :=
          pollAdapter_disconnect k reply w a hget hgot hsd hc (by
            intro m b hm hb he
            have := hd m k b a hb hget he
            omega)
        refine ⟨w', [], h1, ⟨by rw [h2]; simpa [MAX_ADAPTERS] using hs1, by rw [h3]; exact hs2,
          by rw [h7]; exact hs3⟩, ?_, h3, h4, ?_, h9, by simpa using h5, by simp⟩
        · rw [h2]
          exact HandlesDistinct_set _ k a _ hd hget (fun a' ha' => by simp at ha')
        · intro m hm
          rw [h2, List.getElem?_set_ne (Ne.symm hm)]

theorem pads_getD_ne (pads : List Nat) (hnd : pads.Nodup) (s t : Nat) (hs : s < pads.length)
    (ht : t < pads.length) (hne : s ≠ t) : pads.getD s 0 ≠ pads.getD t 0 := by
  intro h
  simp only [List.getD_eq_getElem?_getD, List.getElem?_eq_getElem hs,
    List.getElem?_eq_getElem ht, Option.getD_some] at h
  exact hne ((hnd.getElem_inj_iff).mp h)

theorem pollSlots_frame (replies : Nat → InterruptReply) : ∀ (ks : List Nat) (w : World),
    (∀ k ∈ ks, k < MAX_ADAPTERS) → w.Sized → HandlesDistinct w.adapters →
    ∃ w' new, ks.foldlM (fun w k => pollAdapter k (replies k) w) w = Except.ok w' ∧
      w'.Sized ∧ HandlesDistinct w'.adapters ∧ w'.pads = w.pads ∧ w'.client = w.client ∧
      (∀ m, m ∉ ks → w'.adapters[m]? = w.adapters[m]?) ∧
      (∀ t, t / 4 ∉ ks → w'.isConnected[t]? = w.isConnected[t]?) ∧
      w'.vigemLog = w.vigemLog ++ new ∧
      (∀ c ∈ new, ∃ k ∈ ks, ∃ j : Fin 4, ∃ r,
        c = ViGEmCall.target_ds4_update (w.pads.getD (k * 4 + j.val) 0) r) := by
  intro ks
  induction ks with
  | nil =>
    intro w _ hs hd
    exact ⟨w, [], rfl, hs, hd, rfl, rfl, fun _ _ => rfl, fun _ _ => rfl, by simp, by simp⟩
  | cons k ks ih =>
    intro w hks hs hd
    obtain ⟨w1, new1, a1, a2, a3, a4, a5, a6, a7, a8, a9⟩ :=
      pollAdapter_frame k (replies k) w (hks k (List.mem_cons_self _ _)) hs hd
    obtain ⟨w2, new2, b1, b2, b3, b4, b5, b6, b7, b8, b9⟩ :=
      ih w1 (fun k' hk' => hks k' (List.mem_cons_of_mem _ hk')) a2 a3
    refine ⟨w2, new1 ++ new2, ?_, b2, b3, b4.trans a4, b5.trans a5, ?_, ?_, ?_, ?_⟩
    · simp only [List.foldlM_cons, a1, bind, Except.bind]
      exact b1
    · intro m hm
      rw [b6 m (fun h => hm (List.mem_cons_of_mem _ h)),
        a6 m (fun h => hm (h ▸ List.mem_cons_self _ _))]
    · intro t ht
      rw [b7 t (fun h => ht (List.mem_cons_of_mem _ h))]
      apply a7
      have : t / 4 ≠ k := fun h => ht (h ▸ List.mem_cons_self _ _)
      omega
    · rw [b8, a8, List.append_assoc]
    · intro c hc
      rcases List.mem_append.mp hc with h | h
      · obtain ⟨j, r, hr⟩ := a9 c h
        exact ⟨k, List.mem_cons_self _ _, j, r, hr⟩
      · obtain ⟨k', hk', j, r, hr⟩ := b9 c h
        exact ⟨k', List.mem_cons_of_mem _ hk', j, r, by rw [hr, a4]⟩

theorem reportsTo_other_slots (pads : List Nat) (hnd : pads.Nodup)
    (hlen : pads.length = 4 * MAX_ADAPTERS) (ks : List Nat) (hks : ∀ k ∈ ks, k < MAX_ADAPTERS)
    (i : Nat) (hi : i < MAX_ADAPTERS) (hni : i ∉ ks) (new : List ViGEmCall)
    (hnew : ∀ c ∈ new, ∃ k ∈ ks, ∃ j : Fin 4, ∃ r,
      c = ViGEmCall.target_ds4_update (pads.getD (k * 4 + j.val) 0) r)
    (j : Fin 4) : reportsTo (pads.getD (i * 4 + j.val) 0) new = [] := by
  simp only [MAX_ADAPTERS] at hlen hks hi
  unfold reportsTo
  rw [List.filterMap_eq_nil_iff]
  intro c hc
  obtain ⟨k, hk, j', r, rfl⟩ := hnew c hc
  have hk6 := hks k hk
  have hne : k ≠ i := fun h => hni (h ▸ hk)
  have := pads_getD_ne pads hnd (k * 4 + j'.val) (i * 4 + j.val) (by omega) (by omega)
    (by omega)
  exact if_neg this

theorem range_split (i : Nat) (hi : i < MAX_ADAPTERS) :
    ∃ pre post, List.range MAX_ADAPTERS = pre ++ i :: post ∧ i ∉ pre ∧ i ∉ post ∧
      (∀ k ∈ pre, k < MAX_ADAPTERS) ∧ (∀ k ∈ post, k < MAX_ADAPTERS) := by
  simp only [MAX_ADAPTERS] at hi ⊢
  have : i = 0 ∨ i = 1 ∨ i = 2 ∨ i = 3 ∨ i = 4 ∨ i = 5 := by omega
  rcases this with rfl | rfl | rfl | rfl | rfl | rfl
  · exact ⟨[], [1, 2, 3, 4, 5], by decide, by decide, by decide, by decide, by decide⟩
  · exact ⟨[0], [2, 3, 4, 5], by decide, by decide, by decide, by decide, by decide⟩
  · exact ⟨[0, 1], [3, 4, 5], by decide, by decide, by decide, by decide, by decide⟩
  · exact ⟨[0, 1, 2], [4, 5], by decide, by decide, by decide, by decide, by decide⟩
  · exact ⟨[0, 1, 2, 3], [5], by decide, by decide, by decide, by decide, by decide⟩
  · exact ⟨[0, 1, 2, 3, 4], [], by decide, by decide, by decide, by decide, by decide⟩

theorem reportsTo_append (p : Nat) (l l' : List ViGEmCall) :
    reportsTo p (l ++ l') = reportsTo p l ++ reportsTo p l' := by
  simp [reportsTo]

theorem reportsTo_padCalls_same (was : Bool) (s : GCInput) (p : Nat) :
    reportsTo p (padCalls was s p) =
      if s.On then [GCtoDS4 s] else if was then [GCtoDS4 GCInput.reset] else [] := by
  unfold padCalls reportsTo
  split_ifs <;> simp

theorem reportsTo_padCalls_ne (was : Bool) (s : GCInput) (p q : Nat) (h : q ≠ p) :
    reportsTo p (padCalls was s q) = [] := by
  unfold padCalls reportsTo
  split_ifs <;> simp [h]

theorem reportsTo_pad_loop (pads : List Nat) (hnd : pads.Nodup) (flags : List Bool)
    (inputs : Inputs) (i : Nat) (hlen : i * 4 + 4 ≤ pads.length) (j : Fin 4) :
    ∀ js : List (Fin 4), js.Nodup →
    reportsTo (pads.getD (i * 4 + j.val) 0) (js.flatMap (fun j' =>
        padCalls (flags.getD (i * 4 + j'.val) false) (inputs.Controllers j')
          (pads.getD (i * 4 + j'.val) 0))) =
      if j ∈ js then
        (if (inputs.Controllers j).On then [GCtoDS4 (inputs.Controllers j)]
         else if flags.getD (i * 4 + j.val) false then [GCtoDS4 GCInput.reset] else [])
      else [] := by
  intro js
  induction js with
  | nil => intro _; simp [reportsTo]
  | cons x xs ih =>
    intro hnd'
    obtain ⟨hx, hxs⟩ := List.nodup_cons.mp hnd'
    rw [List.flatMap_cons, reportsTo_append, ih hxs]
    by_cases hxj : x = j
    · subst hxj
      rw [reportsTo_padCalls_same, if_neg hx, if_pos (List.mem_cons_self _ _),
        List.append_nil]
    · have hne : pads.getD (i * 4 + x.val) 0 ≠ pads.getD (i * 4 + j.val) 0 :=
        pads_getD_ne pads hnd _ _ (by omega) (by omega)
          (fun h => hxj (Fin.ext (by omega)))
      rw [reportsTo_padCalls_ne _ _ _ _ hne, List.nil_append]
      have hmem : j ∈ x :: xs ↔ j ∈ xs := by
        simp [List.mem_cons, Ne.symm hxj]
      simp only [hmem]

theorem handlesDistinct_of_nodup : ∀ (l : List (Option Adapter)),
    (l.filterMap (fun s => s.map Adapter.dev_handle)).Nodup → HandlesDistinct l := by
  intro l
  induction l with
  | nil => intro _ m n a b h; simp at h
  | cons x xs ih =>
    intro hnd m n a b hm hn hab
    have hmem : ∀ (k : Nat) (c : Adapter), xs[k]? = some (some c) →
        c.dev_handle ∈ xs.filterMap (fun s => s.map Adapter.dev_handle) := by
      intro k c hk
      exact List.mem_filterMap.mpr ⟨some c, List.getElem?_mem hk, rfl⟩
    have htail : (xs.filterMap (fun s => s.map Adapter.dev_handle)).Nodup := by
      cases x with
      | none => simpa using hnd
      | some c => exact (List.nodup_cons.mp (by simpa using hnd)).2
    cases m with
    | zero =>
      cases n with
      | zero => rfl
      | succ n =>
        exfalso
        simp only [List.getElem?_cons_zero, Option.some.injEq] at hm
        simp only [List.getElem?_cons_succ] at hn
        subst hm
        have h1 : a.dev_handle ∉ xs.filterMap (fun s => s.map Adapter.dev_handle) :=
          (List.nodup_cons.mp (by simpa using hnd)).1
        exact h1 (hab ▸ hmem n b hn)
    | succ m =>
      cases n with
      | zero =>
        exfalso
        simp only [List.getElem?_cons_zero, Option.some.injEq] at hn
        simp only [List.getElem?_cons_succ] at hm
        subst hn
        have h1 : b.dev_handle ∉ xs.filterMap (fun s => s.map Adapter.dev_handle) :=
          (List.nodup_cons.mp (by simpa using hnd)).1
        exact h1 (hab ▸ hmem m a hm)
      | succ n =>
        simp only [List.getElem?_cons_succ] at hm hn
        have := ih htail m n a b hm hn hab
        omega

/-- C6, as stated, fails: in `sampleWorld` slot 2 is occupied, its read fails
and `ShouldDisconnect` returns true; the polling cycle empties slot 2 and
clears the flags of targets 8 to 11, but it hands no call at all to the
ViGEm bus, so no neutral report reaches pad 8 (handle 108). -/
theorem pollCycle_disconnect_no_neutral_report :
    sampleWorld.adapters[2]? = some (some ⟨9, [0x11, 0, 0, 0, 0], 21⟩) ∧
    (Adapter.GetInputs ⟨9, [0x11, 0, 0, 0, 0], 21⟩ failedReply).1 = false ∧
    (Adapter.ShouldDisconnect ⟨9, [0x11, 0, 0, 0, 0], 21⟩ false).1 = true ∧
    sampleWorld.pads[8]? = some 108 ∧
    ∃ w', pollCycle (fun _ => failedReply) sampleWorld = Except.ok w' ∧
      w'.adapters[2]? = some none ∧ w'.isConnected[8]? = some false ∧
      w'.vigemLog = [] ∧
      reportsTo 108 w'.vigemLog ≠ [GCtoDS4 GCInput.reset] := by
  refine ⟨by decide, by decide, by decide, by decide, ?_⟩
  refine ⟨{ sampleWorld with
      adapters := [some ⟨7, [0x11, 0, 0, 0, 0], 4⟩, none, none, none, none, none]
      isConnected := [false, true, false, false, false, false, false, false, false, false,
        false, false, false, false, false, false, false, false, false, false, false, false,
        false, false]
      usbLog := [UsbCall.release_interface 9 0, UsbCall.close 9] }, rfl, ?_, ?_, ?_, ?_⟩ <;>
    decide

/-- C6, amended: on a state with `MAX_ADAPTERS` slots, 24 distinct pads and 24
flags, and pairwise distinct device handles, for every occupied slot `i`
whose read fails and whose `ShouldDisconnect` call returns true: the polling
cycle returns normally, afterwards slot `i` is empty and the connected flags
of targets `4i..4i+3` are all false whatever they were, and no report at all
(neutral or translated) is pushed to those four targets during the cycle;
the pass of the loop for slot `i` itself leaves every other slot and every
other target's flag unchanged, hands nothing to the ViGEm bus, and destroys
the session (release of the interface, close of the handle). -/
theorem pollCycle_disconnect (replies : Nat → InterruptReply) (w : World) (i : Nat)
    (a : Adapter) (hs : w.Sized) (hnd : w.pads.Nodup) (hd : HandlesDistinct w.adapters)
    (hi : i < MAX_ADAPTERS) (ha : w.adapters[i]? = some (some a))
    (hfail : (a.GetInputs (replies i)).1 = false)
    (hsd : (a.ShouldDisconnect false).1 = true) :
    (∃ w' new, pollCycle replies w = Except.ok w' ∧ w'.vigemLog = w.vigemLog ++ new ∧
      w'.adapters[i]? = some none ∧
      ∀ j : Fin 4, w'.isConnected[i * 4 + j.val]? = some false ∧
        reportsTo (w.pads.getD (i * 4 + j.val) 0) new = []) ∧
    (∃ w1, pollAdapter i (replies i) w = Except.ok w1 ∧ w1.adapters[i]? = some none ∧
      (∀ m, m ≠ i → w1.adapters[m]? = w.adapters[m]?) ∧
      (∀ j : Fin 4, w1.isConnected[i * 4 + j.val]? = some false) ∧
      (∀ t, (t < i * 4 ∨ i * 4 + 4 ≤ t) → w1.isConnected[t]? = w.isConnected[t]?) ∧
      w1.vigemLog = w.vigemLog ∧ w1.pads = w.pads ∧
      w1.usbLog = w.usbLog ++
        [UsbCall.release_interface a.dev_handle 0, UsbCall.close a.dev_handle]) := by
  have hfirst : ∀ (l : List (Option Adapter)), HandlesDistinct l → l[i]? = some (some a) →
      ∀ k b, k < i → l[k]? = some (some b) → b.dev_handle ≠ a.dev_handle := by
    intro l hl hla k b hk hb he
    have := hl k i b a hb hla he
    omega
  constructor
  · obtain ⟨pre, post, hsplit, hpre, hpost, hpre6, hpost6⟩ := range_split i hi
    obtain ⟨w1, new1, a1, a2, a3, a4, a5, a6, a7, a8, a9⟩ :=
      pollSlots_frame replies pre w hpre6 hs hd
    have ha1 : w1.adapters[i]? = some (some a) := by rw [a6 i hpre]; exact ha
    have hc1 : i * 4 + 4 ≤ w1.isConnected.length := by
      have := a2.2.2; simp only [MAX_ADAPTERS] at this hi; omega
    obtain ⟨w2, b1, b2, b3, b4, b5, b6, b7, b8, b9⟩ :=
      pollAdapter_disconnect i (replies i) w1 a ha1 hfail hsd hc1 (hfirst _ a3 ha1)
    have hs2 : w2.Sized :=
      ⟨by rw [b2]; simpa using a2.1, by rw [b3]; exact a2.2.1, by rw [b7]; exact a2.2.2⟩
    have hd2 : HandlesDistinct w2.adapters := by
      rw [b2]
      exact HandlesDistinct_set _ i a _ a3 ha1 (fun a' ha' => by simp at ha')
    obtain ⟨w3, new3, c1, c2, c3, c4, c5, c6, c7, c8, c9⟩ :=
      pollSlots_frame replies post w2 hpost6 hs2 hd2
    have hlt : i < w1.adapters.length := (List.getElem?_eq_some_iff.mp ha1).1
    have hflag : ∀ j : Fin 4, (i * 4 + j.val) / 4 = i := by
      intro j; omega
    refine ⟨w3, new1 ++ new3, ?_, ?_, ?_, ?_⟩
    · unfold pollCycle
      rw [hsplit, List.foldlM_append, a1]
      simp only [bind, Except.bind, List.foldlM_cons, b1]
      exact c1
    · rw [c8, b5, a8, List.append_assoc]
    · rw [c6 i hpost, b2, List.getElem?_set_self hlt]
    · intro j
      constructor
      · rw [c7 _ (by rw [hflag j]; exact hpost)]
        exact b8 j.val j.isLt
      · rw [reportsTo_append,
          reportsTo_other_slots w.pads hnd hs.2.1 pre hpre6 i hi hpre new1 a9 j]
        apply reportsTo_other_slots w.pads hnd hs.2.1 post hpost6 i hi hpost new3
        intro c hc
        obtain ⟨k, hk, j', r, hr⟩ := c9 c hc
        exact ⟨k, hk, j', r, by rw [hr, b3, a4]⟩
  · have hc : i * 4 + 4 ≤ w.isConnected.length := by
      have := hs.2.2; simp only [MAX_ADAPTERS] at this hi; omega
    have hlt : i < w.adapters.length := (List.getElem?_eq_some_iff.mp ha).1
    obtain ⟨w1, b1, b2, b3, b4, b5, b6, b7, b8, b9⟩ :=
      pollAdapter_disconnect i (replies i) w a ha hfail hsd hc (hfirst _ hd ha)
    refine ⟨w1, b1, by rw [b2, List.getElem?_set_self hlt], ?_, fun j => b8 j.val j.isLt, b9,
      b5, b3, b6⟩
    intro m hm
    rw [b2, List.getElem?_set_ne (Ne.symm hm)]

/-- C6 amended, on `sampleWorld` with every read failing: slot 2 (21 failures
counted) is torn down and nothing is pushed to pads 108 to 111. -/
theorem pollCycle_disconnect_witness :
    ∃ w' new, pollCycle (fun _ => failedReply) sampleWorld = Except.ok w' ∧
      w'.vigemLog = sampleWorld.vigemLog ++ new ∧ w'.adapters[2]? = some none ∧
      ∀ j : Fin 4, w'.isConnected[2 * 4 + j.val]? = some false ∧
        reportsTo (sampleWorld.pads.getD (2 * 4 + j.val) 0) new = [] :=
  (pollCycle_disconnect (fun _ => failedReply) sampleWorld 2 ⟨9, [0x11, 0, 0, 0, 0], 21⟩
    (by decide) (by decide) (handlesDistinct_of_nodup _ (by decide)) (by decide) (by decide)
    (by decide) (by decide)).1

/-- C7: in one polling cycle run on a state with `MAX_ADAPTERS` slots, 24
distinct pads and 24 flags, and pairwise distinct device handles, for every
occupied slot `i` whose read succeeds with snapshots `s[0..3]` and every
sub-port `j`, with `t = 4i + j`: the cycle returns normally, afterwards
`isConnected[t] = s[j].On()`, the reports pushed to pad `t` during the cycle
are exactly `[GCtoDS4(s[j])]` when `s[j]` is active, the neutral report alone
when `s[j]` is inactive and the flag was set before, and none when `s[j]` is
inactive and the flag was clear; slot `i` still holds the session, with its
failure counter reset. -/
theorem pollCycle_successful_read (replies : Nat → InterruptReply) (w : World) (i : Nat)
    (a : Adapter) (hs : w.Sized) (hnd : w.pads.Nodup) (hd : HandlesDistinct w.adapters)
    (hi : i < MAX_ADAPTERS) (ha : w.adapters[i]? = some (some a))
    (hgot : (a.GetInputs (replies i)).1 = true) :
    ∃ w' new, pollCycle replies w = Except.ok w' ∧ w'.vigemLog = w.vigemLog ++ new ∧
      w'.adapters[i]? = some (some { a with failedReads := 0 }) ∧
      ∀ j : Fin 4,
        w'.isConnected[i * 4 + j.val]? = some ((replies i).inputs.Controllers j).On ∧
        reportsTo (w.pads.getD (i * 4 + j.val) 0) new =
          if ((replies i).inputs.Controllers j).On then
            [GCtoDS4 ((replies i).inputs.Controllers j)]
          else if w.isConnected.getD (i * 4 + j.val) false then [GCtoDS4 GCInput.reset]
          else [] := by
  obtain ⟨pre, post, hsplit, hpre, hpost, hpre6, hpost6⟩ := range_split i hi
  obtain ⟨w1, new1, a1, a2, a3, a4, a5, a6, a7, a8, a9⟩ :=
    pollSlots_frame replies pre w hpre6 hs hd
  have hc1 : i * 4 + 4 ≤ w1.isConnected.length := by
    have := a2.2.2; simp only [MAX_ADAPTERS] at this hi; omega
  have hp1 : i * 4 + 4 ≤ w1.pads.length := by
    have := a2.2.1; simp only [MAX_ADAPTERS] at this hi; omega
  have hp0 : i * 4 + 4 ≤ w.pads.length := by rw [← a4]; exact hp1
  obtain ⟨w2, b1, b2, b3, b4, b5, b6, b7, b8, b9⟩ :=
    pollAdapter_success i (replies i) w1 a (by rw [a6 i hpre]; exact ha) hgot hc1 hp1
  have hs2 : w2.Sized :=
    ⟨by rw [b2]; simpa using a2.1, by rw [b3]; exact a2.2.1, by rw [b6]; exact a2.2.2⟩
  have hd2 : HandlesDistinct w2.adapters := by
    rw [b2]
    exact HandlesDistinct_set _ i a _ a3 (by rw [a6 i hpre]; exact ha)
      (fun a' ha' => by rw [← Option.some.inj ha'])
  obtain ⟨w3, new3, c1, c2, c3, c4, c5, c6, c7, c8, c9⟩ :=
    pollSlots_frame replies post w2 hpost6 hs2 hd2
  have hflag : ∀ j : Fin 4, i * 4 + j.val < 4 * (i + 1) ∧ (i * 4 + j.val) / 4 = i := by
    intro j; omega
  have hlt : i < w1.adapters.length := by
    have := a2.1; simp only [MAX_ADAPTERS] at this hi; omega
  refine ⟨w3, new1 ++ ((List.finRange 4).flatMap (fun j =>
      padCalls (w1.isConnected.getD (i * 4 + j.val) false) ((replies i).inputs.Controllers j)
        (w1.pads.getD (i * 4 + j.val) 0)) ++ new3), ?_, ?_, ?_, ?_⟩
  · unfold pollCycle
    rw [hsplit, List.foldlM_append, a1]
    simp only [bind, Except.bind, List.foldlM_cons, b1]
    exact c1
  · rw [c8, b9, a8]
    simp only [List.append_assoc]
  · rw [c6 i hpost, b2, List.getElem?_set_self hlt]
  · intro j
    constructor
    · rw [c7 _ (by rw [(hflag j).2]; exact hpost)]
      exact b7 j
    · rw [reportsTo_append, reportsTo_append,
        reportsTo_other_slots w.pads hnd hs.2.1 pre hpre6 i hi hpre new1 a9 j]
      have hnew3 : reportsTo (w.pads.getD (i * 4 + j.val) 0) new3 = [] := by
        apply reportsTo_other_slots w.pads hnd hs.2.1 post hpost6 i hi hpost new3
        intro c hc
        obtain ⟨k, hk, j', r, hr⟩ := c9 c hc
        exact ⟨k, hk, j', r, by rw [hr, b3, a4]⟩
      rw [hnew3, List.nil_append, List.append_nil, a4,
        reportsTo_pad_loop w.pads hnd w1.isConnected (replies i).inputs i hp0 j
          (List.finRange 4) (List.nodup_finRange 4),
        if_pos (List.mem_finRange j)]
      have hsame : w1.isConnected.getD (i * 4 + j.val) false =
          w.isConnected.getD (i * 4 + j.val) false := by
        simp only [List.getD_eq_getElem?_getD]
        rw [a7 _ (by rw [(hflag j).2]; exact hpre)]
      rw [hsame]

/-- C7 on `sampleWorld` with every read returning `wiredReply`: slot 0 keeps
its session, pad 0 becomes connected and gets the translated snapshot, pad 1
(connected before, now inactive) gets the neutral report, pads 2 and 3 get
nothing. -/
theorem pollCycle_successful_read_witness :
    ∃ w' new, pollCycle (fun _ => wiredReply) sampleWorld = Except.ok w' ∧
      w'.vigemLog = sampleWorld.vigemLog ++ new ∧
      w'.adapters[0]? = some (some ⟨7, [0x11, 0, 0, 0, 0], 0⟩) ∧
      ∀ j : Fin 4,
        w'.isConnected[0 * 4 + j.val]? = some (wiredReply.inputs.Controllers j).On ∧
        reportsTo (sampleWorld.pads.getD (0 * 4 + j.val) 0) new =
          if (wiredReply.inputs.Controllers j).On then
            [GCtoDS4 (wiredReply.inputs.Controllers j)]
          else if sampleWorld.isConnected.getD (0 * 4 + j.val) false then
            [GCtoDS4 GCInput.reset]
          else [] :=
  pollCycle_successful_read (fun _ => wiredReply) sampleWorld 0 ⟨7, [0x11, 0, 0, 0, 0], 3⟩
    (by decide) (by decide) (handlesDistinct_of_nodup _ (by decide)) (by decide) (by decide)
    (by decide)

theorem GetPadIndex_of_nodup (w : World) (k Target : Nat) (hpads : w.pads.Nodup)
    (hk : w.pads[k]? = some Target) : GetPadIndex w Target = k := by
  obtain ⟨hlt, hget⟩ := List.getElem?_eq_some_iff.mp hk
  have hidx : w.pads.indexOf Target = k := by
    rw [← hget]
    exact List.indexOf_getElem hpads k hlt
  simp [GetPadIndex, hidx, hlt]

/-- C8: a feedback notification from the program's own ViGEm client whose
target is the virtual pad allocated at index `k` (pad handles distinct, the
table holding `MAX_ADAPTERS` slots): when slot `k / 4` holds a session, the
handler returns normally and the new state is the old one with exactly that
slot's session replaced by the result of `SetRumble(k % 4, m)` on it and that
call's libusb calls appended, where `m` is 0 when both motor bytes are 0 and
1 otherwise; when slot `k / 4` is empty the state is unchanged (no payload
changes, nothing is written). -/
theorem UpdateRumble_routes_to_slot (w : World) (Target LargeMotor SmallMotor k : Nat)
    (reply : BulkReply) (hpads : w.pads.Nodup) (hk : w.pads[k]? = some Target)
    (hadapters : w.adapters.length = MAX_ADAPTERS) :
    (∀ a : Adapter, w.adapters[k / 4]? = some (some a) →
      UpdateRumble w.client Target LargeMotor SmallMotor reply w =
        Except.ok { w with
          adapters := w.adapters.set (k / 4)
            (some (a.SetRumble ((k % 4 : Nat) : Int)
              (if LargeMotor = 0 ∧ SmallMotor = 0 then 0 else 1) reply).2.1),
          usbLog := w.usbLog ++
            (a.SetRumble ((k % 4 : Nat) : Int)
              (if LargeMotor = 0 ∧ SmallMotor = 0 then 0 else 1) reply).2.2 }) ∧
    (w.adapters[k / 4]? = some none →
      UpdateRumble w.client Target LargeMotor SmallMotor reply w = Except.ok w) := by
  have hidx := GetPadIndex_of_nodup w k Target hpads hk
  have hmax : ∀ s, w.adapters[k / 4]? = some s → ¬ (k == SIZE_MAX) = true := by
    intro s hs
    have hlt := (List.getElem?_eq_some_iff.mp hs).1
    rw [hadapters] at hlt
    simp only [MAX_ADAPTERS] at hlt
    simp only [SIZE_MAX, beq_iff_eq]
    omega
  constructor
  · intro a ha
    have hm := hmax _ ha
    have hmotor : (if (SmallMotor != 0 || LargeMotor != 0) = true then 1 else 0) =
        (if LargeMotor = 0 ∧ SmallMotor = 0 then 0 else 1) := by
      by_cases h1 : LargeMotor = 0 <;> by_cases h2 : SmallMotor = 0 <;> simp [h1, h2]
    simp only [UpdateRumble, bne_self_eq_false, Bool.false_eq_true, if_false, hidx, hm, ha,
      hmotor]
    rfl
  · intro hnone
    have hm := hmax _ hnone
    simp only [UpdateRumble, bne_self_eq_false, Bool.false_eq_true, if_false, hidx, hm, hnone]
    rfl

/-- C8 at a concrete state: pad 100 is target 0, slot 0 holds session 7; a
notification with small motor 3 and large motor 0 sets byte 1 of that
session's payload to 1 and writes the payload once. -/
theorem UpdateRumble_routes_to_slot_witness :
    UpdateRumble 5 100 0 3 ⟨0, 5⟩
        ⟨[some ⟨7, [0x11, 0, 0, 0, 0], 0⟩, none, none, none, none, none],
          [100, 101, 102, 103], [false, false, false, false], 5, [], []⟩ =
      Except.ok
        ⟨[some ⟨7, [0x11, 1, 0, 0, 0], 0⟩, none, none, none, none, none],
          [100, 101, 102, 103], [false, false, false, false], 5, [],
          [UsbCall.bulk_transfer 7 WriteEndpoint [0x11, 1, 0, 0, 0] 0]⟩ :=
  ((UpdateRumble_routes_to_slot
      ⟨[some ⟨7, [0x11, 0, 0, 0, 0], 0⟩, none, none, none, none, none],
        [100, 101, 102, 103], [false, false, false, false], 5, [], []⟩
      100 0 3 0 ⟨0, 5⟩ (by decide) (by decide) (by decide)).1
    ⟨7, [0x11, 0, 0, 0, 0], 0⟩ (by decide)).trans rfl

/-! ## Rumble -/

theorem SetRumble_in_range (a : Adapter) (index : Int) (val : Nat) (reply : BulkReply)
    (h0 : 0 ≤ index) (h4 : index < 4) :
    a.SetRumble index val reply =
      (reply.status == LIBUSB_SUCCESS &&
          ((a.rumblePayload.set (1 + index).toNat val).length : Int) == reply.actual,
        { a with rumblePayload := a.rumblePayload.set (1 + index).toNat val },
        [UsbCall.bulk_transfer a.dev_handle WriteEndpoint
          ((a.rumblePayload.set (1 + index).toNat val).take
            ((a.rumblePayload.set (1 + index).toNat val).length : Int).toNat) 0]) := by
  have hn : ¬ (index < 0 ∨ index ≥ 4) := by omega
  simp only [Adapter.SetRumble, hn, if_false, Adapter.WriteRumble, Adapter.Write]

/-- C9: `SetRumble(index, val)` with `index < 0` or `index >= 4` returns false,
issues no libusb call and leaves the session unchanged; with `0 <= index < 4`
on a session holding a 5-byte payload it stores `val` at byte `1 + index`,
leaves every other byte of the payload (the command byte and the three other
sub-port bytes) and the rest of the session unchanged, and issues exactly one
libusb call, a bulk transfer on the write endpoint whose data is the whole
updated 5-byte payload. -/
theorem SetRumble_contract (a : Adapter) (index : Int) (val : Nat) (reply : BulkReply) :
    (index < 0 ∨ index ≥ 4 → a.SetRumble index val reply = (false, a, [])) ∧
    (0 ≤ index → index < 4 → a.rumblePayload.length = 5 →
      (a.SetRumble index val reply).2.1.rumblePayload.length = 5 ∧
      (a.SetRumble index val reply).2.1.rumblePayload[(1 + index).toNat]? = some val ∧
      (∀ k : Nat, k ≠ (1 + index).toNat →
        (a.SetRumble index val reply).2.1.rumblePayload[k]? = a.rumblePayload[k]?) ∧
      (a.SetRumble index val reply).2.1.dev_handle = a.dev_handle ∧
      (a.SetRumble index val reply).2.1.failedReads = a.failedReads ∧
      (a.SetRumble index val reply).2.2 =
        [UsbCall.bulk_transfer a.dev_handle WriteEndpoint
          (a.SetRumble index val reply).2.1.rumblePayload 0] ∧
      (a.SetRumble index val reply).1 =
        (reply.status == LIBUSB_SUCCESS && (5 : Int) == reply.actual)) := by
  constructor
  · intro h
    simp only [Adapter.SetRumble, h, if_true]
  · intro h0 h4 hlen
    rw [SetRumble_in_range a index val reply h0 h4]
    have hi : (1 + index).toNat < a.rumblePayload.length := by omega
    refine ⟨by simp [hlen], ?_, ?_, rfl, rfl, ?_, ?_⟩
    · simp [List.getElem?_set_self hi]
    · intro k hk
      simp [List.getElem?_set_ne (Ne.symm hk)]
    · simp
    · simp [hlen]

/-- C9 at concrete calls: index 4 and index -1 are rejected without a write;
index 2 with value 1 on the idle payload writes `[0x11, 0, 0, 1, 0]`. -/
theorem SetRumble_contract_witness :
    Adapter.SetRumble ⟨7, [0x11, 0, 1, 0, 0], 3⟩ 4 1 ⟨0, 5⟩ =
      (false, ⟨7, [0x11, 0, 1, 0, 0], 3⟩, []) ∧
    Adapter.SetRumble ⟨7, [0x11, 0, 1, 0, 0], 3⟩ (-1) 1 ⟨0, 5⟩ =
      (false, ⟨7, [0x11, 0, 1, 0, 0], 3⟩, []) ∧
    (Adapter.SetRumble ⟨7, [0x11, 0, 0, 0, 0], 3⟩ 2 1 ⟨0, 5⟩).2.2 =
      [UsbCall.bulk_transfer 7 WriteEndpoint
        (Adapter.SetRumble ⟨7, [0x11, 0, 0, 0, 0], 3⟩ 2 1 ⟨0, 5⟩).2.1.rumblePayload 0] ∧
    (Adapter.SetRumble ⟨7, [0x11, 0, 0, 0, 0], 3⟩ 2 1 ⟨0, 5⟩).2.1.rumblePayload =
      [0x11, 0, 0, 1, 0] :=
  ⟨(SetRumble_contract ⟨7, [0x11, 0, 1, 0, 0], 3⟩ 4 1 ⟨0, 5⟩).1 (by decide),
   (SetRumble_contract ⟨7, [0x11, 0, 1, 0, 0], 3⟩ (-1) 1 ⟨0, 5⟩).1 (by decide),
   ((SetRumble_contract ⟨7, [0x11, 0, 0, 0, 0], 3⟩ 2 1 ⟨0, 5⟩).2
      (by decide) (by decide) rfl).2.2.2.2.2.1,
   by decide⟩

/-! ## The device table -/

theorem foldl_count_eq (l : List (Option Adapter)) : ∀ n : Nat,
    l.foldl (fun count adapter => if adapter.isSome then count + 1 else count) n =
      n + l.countP (fun adapter => adapter.isSome) := by
  induction l with
  | nil => intro n; simp
  | cons x xs ih =>
    intro n
    cases x with
    | none => simp [ih]
    | some a => simp [ih]; omega

theorem NumAdapters_eq_countP (w : World) :
    NumAdapters w = w.adapters.countP (fun adapter => adapter.isSome) := by
  simp [NumAdapters, foldl_count_eq]

theorem first_free_slot (l : List (Option Adapter)) (h : (none : Option Adapter) ∈ l) :
    ∃ idx, l.findIdx? (fun slot => slot.isNone) = some idx ∧ idx < l.length ∧
      l[idx]? = some none ∧ ∀ k, k < idx → ∃ b, l[k]? = some (some b) := by
  induction l with
  | nil => simp at h
  | cons x xs ih =>
    cases x with
    | none => exact ⟨0, by simp, by simp, by simp, by intro k hk; omega⟩
    | some a =>
      have h' : (none : Option Adapter) ∈ xs := by simpa using h
      obtain ⟨idx, h1, h2, h3, h4⟩ := ih h'
      refine ⟨idx + 1, by simp [h1], by simpa using h2, by simpa using h3, ?_⟩
      intro k hk
      cases k with
      | zero => exact ⟨a, by simp⟩
      | succ k => simpa using h4 k (by omega)

/-- C10: when the device table has an empty slot, `AddAdapter` with a
session returns normally, stores the session in the empty slot of lowest
index (every slot before it is occupied), leaves every other slot and the
rest of the state unchanged, and raises `NumAdapters` by exactly one. -/
theorem AddAdapter_lowest_free_slot (w : World) (s : Adapter)
    (h : (none : Option Adapter) ∈ w.adapters) :
    ∃ idx w', AddAdapter (some s) w = Except.ok w' ∧
      idx < w.adapters.length ∧ w.adapters[idx]? = some none ∧
      (∀ k, k < idx → ∃ b, w.adapters[k]? = some (some b)) ∧
      w'.adapters[idx]? = some (some s) ∧
      (∀ k, k ≠ idx → w'.adapters[k]? = w.adapters[k]?) ∧
      w'.adapters.length = w.adapters.length ∧
      NumAdapters w' = NumAdapters w + 1 ∧
      w'.pads = w.pads ∧ w'.isConnected = w.isConnected ∧ w'.client = w.client ∧
      w'.vigemLog = w.vigemLog ∧ w'.usbLog = w.usbLog := by
  obtain ⟨idx, h1, h2, h3, h4⟩ := first_free_slot w.adapters h
  refine ⟨idx, { w with adapters := w.adapters.set idx (some s) }, ?_, h2, h3, h4, ?_, ?_, ?_, ?_,
    rfl, rfl, rfl, rfl, rfl⟩
  · simp only [AddAdapter, h1]
    rfl
  · simp [List.getElem?_set_self h2]
  · intro k hk
    simp [List.getElem?_set_ne (Ne.symm hk)]
  · simp
  · have hget : w.adapters[idx] = none := by
      have := List.getElem?_eq_getElem h2
      rw [h3] at this
      exact (Option.some.inj this).symm
    rw [NumAdapters_eq_countP, NumAdapters_eq_countP]
    simp only [List.countP_set _ _ _ _ h2, hget]
    simp

/-- C10 on a table with slots 0 and 2 occupied: the session goes to slot 1
and the occupancy goes from 2 to 3. -/
theorem AddAdapter_lowest_free_slot_witness :
    ∃ idx w', AddAdapter (some ⟨11, [0x11, 0, 0, 0, 0], 0⟩)
        ⟨[some ⟨7, [0x11, 0, 0, 0, 0], 0⟩, none, some ⟨9, [0x11, 0, 0, 0, 0], 4⟩, none, none,
          none], [], [], 5, [], []⟩ = Except.ok w' ∧
      idx < 6 ∧ w'.adapters[idx]? = some (some ⟨11, [0x11, 0, 0, 0, 0], 0⟩) ∧
      NumAdapters w' = 2 + 1 := by
  obtain ⟨idx, w', h1, h2, _, _, h5, _, _, h8, _⟩ :=
    AddAdapter_lowest_free_slot
      ⟨[some ⟨7, [0x11, 0, 0, 0, 0], 0⟩, none, some ⟨9, [0x11, 0, 0, 0, 0], 4⟩, none, none,
        none], [], [], 5, [], []⟩ ⟨11, [0x11, 0, 0, 0, 0], 0⟩ (by decide)
  exact ⟨idx, w', h1, h2, h5, h8⟩

/-! ## Discovery on a full table -/

theorem AddAdapter_full (adapterPtr : Option Adapter) (w : World)
    (hfull : (none : Option Adapter) ∉ w.adapters) :
    AddAdapter adapterPtr w = Except.error Fault.runtime_error := by
  have hfind : w.adapters.findIdx? (fun slot => slot.isNone) = none := by
    rw [List.findIdx?_eq_none_iff]
    intro x hx
    cases x with
    | none => exact absurd hx hfull
    | some a => rfl
  simp only [AddAdapter, hfind]
  rfl

/-- C11, as stated, fails: `crowdedWorld` has five of six slots occupied, so
`main` runs `PollDevices`; with two matching devices (handles 21 and 22) the
first session takes the last slot and the insertion of the second raises
`std::runtime_error`, which ends the pass; the interface of handle 22 has
been claimed and the handle is neither released nor closed. -/
theorem discoveryPass_capacity_is_fatal :
    NumAdapters crowdedWorld = 5 ∧
    (discoveryPass [sampleDevice 21, sampleDevice 22] crowdedWorld).2 =
      some Fault.runtime_error ∧
    (discoveryPass [sampleDevice 21, sampleDevice 22] crowdedWorld).1.adapters[4]? =
      some (some ⟨21, [0x11, 0, 0, 0, 0], 0⟩) ∧
    UsbCall.claim_interface 22 0 ∈
      (discoveryPass [sampleDevice 21, sampleDevice 22] crowdedWorld).1.usbLog ∧
    UsbCall.release_interface 22 0 ∉
      (discoveryPass [sampleDevice 21, sampleDevice 22] crowdedWorld).1.usbLog ∧
    UsbCall.close 22 ∉
      (discoveryPass [sampleDevice 21, sampleDevice 22] crowdedWorld).1.usbLog := by
  decide

/-- C11, amended: when no slot of the device table is empty, `AddAdapter`
raises `std::runtime_error` for any argument, before it stores anything; and
a pass of `PollDevices` that reaches a matching device which opens with a
non-null handle while the table is full is ended by that exception: the
session has been constructed (control transfer, interface claim, the `0x13`
write and the idle rumble payload), every slot of the table is as before, no
release of the interface and no close of the handle is issued, and the
devices after it in the list are not looked at. -/
theorem PollDevices_full_table (w : World) (hfull : (none : Option Adapter) ∉ w.adapters) :
    (∀ adapterPtr : Option Adapter,
      AddAdapter adapterPtr w = Except.error Fault.runtime_error) ∧
    (∀ (d : UsbDevice) (rest : List UsbDevice), 0 ≤ d.descriptor_result →
      d.idVendor = VENDOR_ID → d.idProduct = PRODUCT_ID → 0 ≤ d.open_result →
      d.dev_handle ≠ 0 →
      PollDevices (d :: rest) w =
        ({ w with usbLog := w.usbLog ++
            [UsbCall.control_transfer d.dev_handle 0x21 11 0x0001 0 1000,
             UsbCall.claim_interface d.dev_handle 0,
             UsbCall.bulk_transfer d.dev_handle WriteEndpoint [0x13] 0,
             UsbCall.bulk_transfer d.dev_handle WriteEndpoint [0x11, 0, 0, 0, 0] 0] },
          some Fault.runtime_error)) := by
  refine ⟨fun adapterPtr => AddAdapter_full adapterPtr w hfull, ?_⟩
  intro d rest h1 h2 h3 h4 h5
  have hd1 : ¬ d.descriptor_result < 0 := by omega
  have hd4 : ¬ d.open_result < 0 := by omega
  have hcalls : (Adapter.construct d.dev_handle d.init_reply d.rumble_reply).2 =
      [UsbCall.control_transfer d.dev_handle 0x21 11 0x0001 0 1000,
       UsbCall.claim_interface d.dev_handle 0,
       UsbCall.bulk_transfer d.dev_handle WriteEndpoint [0x13] 0,
       UsbCall.bulk_transfer d.dev_handle WriteEndpoint [0x11, 0, 0, 0, 0] 0] := by
    simp [Adapter.construct, Adapter.Write, Adapter.ResetRumble, Adapter.WriteRumble]
  have hadd := AddAdapter_full
    (some (Adapter.construct d.dev_handle d.init_reply d.rumble_reply).1)
    { w with usbLog := w.usbLog ++
        (Adapter.construct d.dev_handle d.init_reply d.rumble_reply).2 } hfull
  have hpoll : pollDevice d w =
      ({ w with usbLog := w.usbLog ++
          (Adapter.construct d.dev_handle d.init_reply d.rumble_reply).2 },
        some Fault.runtime_error) := by
    simp only [pollDevice, hd1, hd4, h2, h3, h5, if_false, beq_self_eq_true, Bool.and_self,
      if_true, beq_iff_eq, hadd]
  rw [PollDevices, hpoll, hcalls]

/-- C11 amended, on `fullWorld` with two matching devices: the pass ends
with the exception at the first one and the six sessions stay in their
slots. -/
theorem PollDevices_full_table_witness :
    PollDevices [sampleDevice 22, sampleDevice 23] fullWorld =
      ({ fullWorld with
          usbLog := fullWorld.usbLog ++
            [UsbCall.control_transfer (sampleDevice 22).dev_handle 0x21 11 0x0001 0 1000,
             UsbCall.claim_interface (sampleDevice 22).dev_handle 0,
             UsbCall.bulk_transfer (sampleDevice 22).dev_handle WriteEndpoint [0x13] 0,
             UsbCall.bulk_transfer (sampleDevice 22).dev_handle WriteEndpoint
               [0x11, 0, 0, 0, 0] 0] },
        some Fault.runtime_error) :=
  (PollDevices_full_table fullWorld (by decide)).2
    (sampleDevice 22) [sampleDevice 23] (by decide) rfl rfl (by decide) (by decide)

/-! ## Removal from the device table and sequences of table operations -/

theorem removeFirstMatch_no_match (p : Option Adapter) : ∀ l : List (Option Adapter),
    (∀ (k : Nat) (b : Adapter), l[k]? = some (some b) → b.DoesHandleMatch p = false) →
    removeFirstMatch p l = (l, none) := by
  intro l
  induction l with
  | nil => intro _; rfl
  | cons x xs ih =>
    intro h
    have h' : ∀ (k : Nat) (b : Adapter), xs[k]? = some (some b) →
        b.DoesHandleMatch p = false :=
      fun k b hb => h (k + 1) b (by simpa using hb)
    cases x with
    | none => simp [removeFirstMatch, ih h']
    | some b =>
      have hb : b.DoesHandleMatch p = false := h 0 b (by simp)
      simp [removeFirstMatch, hb, ih h']

theorem removeFirstMatch_cases (p : Option Adapter) : ∀ l : List (Option Adapter),
    removeFirstMatch p l = (l, none) ∨
    ∃ (k : Nat) (b : Adapter), l[k]? = some (some b) ∧
      removeFirstMatch p l = (l.set k none, some b) := by
  intro l
  induction l with
  | nil => exact Or.inl rfl
  | cons x xs ih =>
    cases x with
    | none =>
      rcases ih with h | ⟨k, b, hk, h⟩
      · exact Or.inl (by simp [removeFirstMatch, h])
      · exact Or.inr ⟨k + 1, b, by simpa using hk, by simp [removeFirstMatch, h]⟩
    | some c =>
      by_cases hc : c.DoesHandleMatch p = true
      · exact Or.inr ⟨0, c, by simp, by simp [removeFirstMatch, hc]⟩
      · rcases ih with h | ⟨k, b, hk, h⟩
        · exact Or.inl (by simp [removeFirstMatch, hc, h])
        · exact Or.inr ⟨k + 1, b, by simpa using hk, by simp [removeFirstMatch, hc, h]⟩

/-- C12: on a table whose sessions hold pairwise distinct device handles,
`RemoveAdapter` called with the session held in slot `i` empties slot `i`,
destroys that session (release of the interface, close of the handle) and
leaves every other slot and the rest of the state unchanged; called with a
session whose device handle is held by no session of the table, or with a
null pointer, it leaves the whole state unchanged. -/
theorem RemoveAdapter_by_handle (w : World) (hd : HandlesDistinct w.adapters) :
    (∀ (i : Nat) (a : Adapter), w.adapters[i]? = some (some a) →
      RemoveAdapter (some a) w =
        { w with adapters := w.adapters.set i none,
                 usbLog := w.usbLog ++
                   [UsbCall.release_interface a.dev_handle 0, UsbCall.close a.dev_handle] } ∧
      (RemoveAdapter (some a) w).adapters[i]? = some none ∧
      (∀ k, k ≠ i → (RemoveAdapter (some a) w).adapters[k]? = w.adapters[k]?)) ∧
    (∀ p : Adapter, (∀ (k : Nat) (b : Adapter), w.adapters[k]? = some (some b) →
        b.dev_handle ≠ p.dev_handle) → RemoveAdapter (some p) w = w) ∧
    RemoveAdapter none w = w := by
  refine ⟨?_, ?_, ?_⟩
  · intro i a ha
    have hlt : i < w.adapters.length := (List.getElem?_eq_some_iff.mp ha).1
    have hrem : removeFirstMatch (some a) w.adapters = (w.adapters.set i none, some a) :=
      removeFirstMatch_at a w.adapters i a ha rfl (by
        intro k b hk hb he
        have := hd k i b a hb ha he
        omega)
    have heq : RemoveAdapter (some a) w =
        { w with adapters := w.adapters.set i none,
                 usbLog := w.usbLog ++
                   [UsbCall.release_interface a.dev_handle 0, UsbCall.close a.dev_handle] } := by
      simp only [RemoveAdapter, hrem, Adapter.destroy]
    refine ⟨heq, ?_, ?_⟩
    · rw [heq]
      exact List.getElem?_set_self hlt
    · intro k hk
      rw [heq]
      exact List.getElem?_set_ne (Ne.symm hk)
  · intro p hp
    have hrem : removeFirstMatch (some p) w.adapters = (w.adapters, none) :=
      removeFirstMatch_no_match _ _ (by
        intro k b hb
        have := hp k b hb
        simp [Adapter.DoesHandleMatch, Adapter.DoesHandleMatchHandle, this])
    simp only [RemoveAdapter, hrem]
  · have hrem : removeFirstMatch none w.adapters = (w.adapters, none) :=
      removeFirstMatch_no_match _ _ (by
        intro k b _
        rfl)
    simp only [RemoveAdapter, hrem]

/-- C12 on `sampleWorld` (handles 7 and 9): removing the session of slot 2
empties slot 2 and keeps slot 0; removing a session with handle 8 changes
nothing. -/
theorem RemoveAdapter_by_handle_witness :
    (RemoveAdapter (some ⟨9, [0x11, 0, 0, 0, 0], 21⟩) sampleWorld).adapters[2]? = some none ∧
    (RemoveAdapter (some ⟨9, [0x11, 0, 0, 0, 0], 21⟩) sampleWorld).adapters[0]? =
      sampleWorld.adapters[0]? ∧
    RemoveAdapter (some ⟨8, [0x11, 0, 0, 0, 0], 0⟩) sampleWorld = sampleWorld :=
  ⟨((RemoveAdapter_by_handle sampleWorld (handlesDistinct_of_nodup _ (by decide))).1 2
      ⟨9, [0x11, 0, 0, 0, 0], 21⟩ (by decide)).2.1,
   ((RemoveAdapter_by_handle sampleWorld (handlesDistinct_of_nodup _ (by decide))).1 2
      ⟨9, [0x11, 0, 0, 0, 0], 21⟩ (by decide)).2.2 0 (by decide),
   (RemoveAdapter_by_handle sampleWorld (handlesDistinct_of_nodup _ (by decide))).2.1
      ⟨8, [0x11, 0, 0, 0, 0], 0⟩ (by
        intro k b hb
        have hmem : b.dev_handle ∈ tableHandles sampleWorld.adapters :=
          List.mem_filterMap.mpr ⟨some b, List.getElem?_mem hb, rfl⟩
        intro he
        rw [he] at hmem
        exact absurd hmem (by decide))⟩

theorem removeFirstMatch_length (p : Option Adapter) (l : List (Option Adapter)) :
    (removeFirstMatch p l).1.length = l.length := by
  rcases removeFirstMatch_cases p l with h | ⟨k, b, _, h⟩ <;> simp [h]

theorem mem_tableHandles (l : List (Option Adapter)) (k : Nat) (b : Adapter)
    (hb : l[k]? = some (some b)) : b.dev_handle ∈ tableHandles l :=
  List.mem_filterMap.mpr ⟨some b, List.getElem?_mem hb, rfl⟩

theorem HandlesDistinct_insert (l : List (Option Adapter)) (idx : Nat) (s : Adapter)
    (hd : HandlesDistinct l) (hlt : idx < l.length)
    (hfresh : s.dev_handle ∉ tableHandles l) : HandlesDistinct (l.set idx (some s)) := by
  intro m n a b ha hb hab
  by_cases hm : idx = m
  · by_cases hn : idx = n
    · omega
    · subst hm
      rw [List.getElem?_set_self hlt] at ha
      rw [List.getElem?_set_ne hn] at hb
      have hs : s = a := Option.some.inj (Option.some.inj ha)
      exact absurd (mem_tableHandles l n b hb) (by rw [← hab, ← hs]; exact hfresh)
  · by_cases hn : idx = n
    · subst hn
      rw [List.getElem?_set_self hlt] at hb
      rw [List.getElem?_set_ne hm] at ha
      have hs : s = b := Option.some.inj (Option.some.inj hb)
      exact absurd (mem_tableHandles l m a ha) (by rw [hab, ← hs]; exact hfresh)
    · rw [List.getElem?_set_ne hm] at ha
      rw [List.getElem?_set_ne hn] at hb
      exact hd m n a b ha hb hab

theorem HandlesDistinct_emptyTable : HandlesDistinct emptyTable := by
  intro m n a b ha _ _
  have hmem : (some a : Option Adapter) ∈ emptyTable := List.getElem?_mem ha
  simp [emptyTable] at hmem

theorem countP_isSome_eq_handles (l : List (Option Adapter)) :
    l.countP (fun adapter => adapter.isSome) = (tableHandles l).length := by
  induction l with
  | nil => rfl
  | cons x xs ih =>
    cases x with
    | none => simpa [tableHandles] using ih
    | some a => simpa [tableHandles] using ih

theorem applyTableOp_invariant (w : World) (op : TableOp)
    (hlen : w.adapters.length = MAX_ADAPTERS) (hd : HandlesDistinct w.adapters)
    (hfresh : ∀ s, op = TableOp.insert s → s.dev_handle ∉ tableHandles w.adapters) :
    (applyTableOp w op).adapters.length = MAX_ADAPTERS ∧
      HandlesDistinct (applyTableOp w op).adapters := by
  cases op with
  | insert s =>
    cases hfind : w.adapters.findIdx? (fun slot => slot.isNone) with
    | none =>
      have hadd : AddAdapter (some s) w = Except.error Fault.runtime_error := by
        simp only [AddAdapter, hfind]
        rfl
      simp only [applyTableOp, hadd]
      exact ⟨hlen, hd⟩
    | some idx =>
      have hlt : idx < w.adapters.length :=
        (List.findIdx?_eq_some_iff_getElem.mp hfind).1
      have hadd : AddAdapter (some s) w =
          Except.ok { w with adapters := w.adapters.set idx (some s) } := by
        simp only [AddAdapter, hfind]
        rfl
      simp only [applyTableOp, hadd]
      exact ⟨by simpa using hlen,
        HandlesDistinct_insert _ idx s hd hlt (hfresh s rfl)⟩
  | remove p =>
    simp only [applyTableOp, RemoveAdapter]
    rcases removeFirstMatch_cases p w.adapters with h | ⟨k, b, hk, h⟩
    · rw [h]
      exact ⟨hlen, hd⟩
    · rw [h]
      exact ⟨by simpa using hlen,
        HandlesDistinct_set _ k b none hd hk (fun a' ha' => by simp at ha')⟩

theorem tableStates_invariant : ∀ (ops : List TableOp) (w : World),
    w.adapters.length = MAX_ADAPTERS → HandlesDistinct w.adapters → FreshInserts ops w →
    ∀ w' ∈ tableStates ops w,
      w'.adapters.length = MAX_ADAPTERS ∧ HandlesDistinct w'.adapters := by
  intro ops
  induction ops with
  | nil =>
    intro w hlen hd _ w' hw'
    rw [tableStates, List.mem_singleton] at hw'
    subst hw'
    exact ⟨hlen, hd⟩
  | cons op ops ih =>
    intro w hlen hd hfresh w' hw'
    rw [tableStates, List.mem_cons] at hw'
    rcases hw' with rfl | hw'
    · exact ⟨hlen, hd⟩
    · cases op with
      | insert s =>
        obtain ⟨hf, hrest⟩ := hfresh
        obtain ⟨h1, h2⟩ := applyTableOp_invariant w (TableOp.insert s) hlen hd (by
          intro s' hs'
          cases hs'
          exact hf)
        exact ih _ h1 h2 hrest w' hw'
      | remove p =>
        obtain ⟨h1, h2⟩ := applyTableOp_invariant w (TableOp.remove p) hlen hd (by
          intro s' hs'
          cases hs')
        exact ih _ h1 h2 hfresh w' hw'

/-- C13: start from the empty device table and apply any finite sequence of
`AddAdapter` and `RemoveAdapter` calls in which every inserted session brings
a device handle that no session in the table holds at that moment.  In every
state the sequence goes through, the table still has its `MAX_ADAPTERS = 6`
slots, the number of occupied slots is at most 6 and equals the number of
sessions in the table (a slot holds one session or none), and the occupied
slots hold pairwise distinct device handles. -/
theorem table_operations_invariant (ops : List TableOp) (w : World)
    (hempty : w.adapters = emptyTable) (hfresh : FreshInserts ops w) :
    ∀ w' ∈ tableStates ops w,
      NumAdapters w' ≤ MAX_ADAPTERS ∧ MAX_ADAPTERS = 6 ∧
      w'.adapters.length = MAX_ADAPTERS ∧
      NumAdapters w' = (tableHandles w'.adapters).length ∧
      HandlesDistinct w'.adapters := by
  intro w' hw'
  obtain ⟨hlen, hd⟩ := tableStates_invariant ops w
    (by rw [hempty]; simp [emptyTable])
    (by rw [hempty]; exact HandlesDistinct_emptyTable) hfresh w' hw'
  refine ⟨?_, rfl, hlen, ?_, hd⟩
  · rw [NumAdapters_eq_countP, ← hlen]
    exact List.countP_le_length _
  · rw [NumAdapters_eq_countP, countP_isSome_eq_handles]

/-- C13 on `sampleOps` from the empty table (the last insertion finds the
table full): the state after the last operation holds at most six sessions,
with distinct handles. -/
theorem table_operations_invariant_witness :
    FreshInserts sampleOps startWorld ∧
    NumAdapters (List.foldl applyTableOp startWorld sampleOps) ≤ MAX_ADAPTERS ∧
    HandlesDistinct (List.foldl applyTableOp startWorld sampleOps).adapters :=
  ⟨by decide,
   (table_operations_invariant sampleOps startWorld rfl (by decide)
      (List.foldl applyTableOp startWorld sampleOps) (by decide)).1,
   (table_operations_invariant sampleOps startWorld rfl (by decide)
      (List.foldl applyTableOp startWorld sampleOps) (by decide)).2.2.2.2⟩

/-! ## Allocation of the virtual pads -/

theorem AddController_ok (reply : PadReply) (h1 : reply.add_err = VIGEM_ERROR_NONE)
    (h2 : reply.reg_err = VIGEM_ERROR_NONE) : AddController reply = Except.ok reply.pad := by
  simp [AddController, VIGEM_SUCCESS, h1, h2]
  rfl

theorem setupPad_ok (env : Nat → PadReply) (w : World)
    (henv : ∀ n, (env n).add_err = VIGEM_ERROR_NONE ∧ (env n).reg_err = VIGEM_ERROR_NONE) :
    setupPad env w = Except.ok
      { w with
        pads := w.pads ++ [(env w.pads.length).pad],
        isConnected := w.isConnected ++ [false],
        vigemLog := w.vigemLog ++
          [ViGEmCall.target_ds4_update (env w.pads.length).pad (GCtoDS4 GCInput.reset)] } := by
  simp only [setupPad, AddController_ok _ (henv _).1 (henv _).2, bind, Except.bind,
    List.getLast?_concat, World.UpdateController]
  rfl

theorem setupPads_fold (env : Nat → PadReply)
    (henv : ∀ n, (env n).add_err = VIGEM_ERROR_NONE ∧ (env n).reg_err = VIGEM_ERROR_NONE) :
    ∀ (is : List Nat) (w : World),
    ∃ w', is.foldlM (fun w _ => setupPad env w) w = Except.ok w' ∧
      w'.adapters = w.adapters ∧ w'.client = w.client ∧ w'.usbLog = w.usbLog ∧
      w'.pads = w.pads ++ (List.range' w.pads.length is.length).map (fun n => (env n).pad) ∧
      w'.isConnected = w.isConnected ++ List.replicate is.length false ∧
      w'.vigemLog = w.vigemLog ++ (List.range' w.pads.length is.length).map
        (fun n => ViGEmCall.target_ds4_update (env n).pad (GCtoDS4 GCInput.reset)) := by
  intro is
  induction is with
  | nil =>
    intro w
    exact ⟨w, rfl, rfl, rfl, rfl, by simp, by simp, by simp⟩
  | cons i is ih =>
    intro w
    obtain ⟨w', h1, h2, h3, h4, h5, h6, h7⟩ := ih
      { w with
        pads := w.pads ++ [(env w.pads.length).pad],
        isConnected := w.isConnected ++ [false],
        vigemLog := w.vigemLog ++
          [ViGEmCall.target_ds4_update (env w.pads.length).pad (GCtoDS4 GCInput.reset)] }
    refine ⟨w', ?_, h2, h3, h4, ?_, ?_, ?_⟩
    · simp only [List.foldlM_cons, setupPad_ok env w henv, bind, Except.bind]
      exact h1
    · rw [h5]
      simp [List.range'_succ]
    · rw [h6]
      simp [List.replicate_succ]
    · rw [h7]
      simp [List.range'_succ]

theorem whileLoop_done {σ : Type} (cond : σ → Bool) (body : σ → Except Fault σ) (fuel : Nat)
    (s : σ) (h : cond s = false) : whileLoop cond body fuel s = some (Except.ok s) := by
  cases fuel <;> simp [whileLoop, h]

theorem whileLoop_step {σ : Type} (cond : σ → Bool) (body : σ → Except Fault σ) (fuel : Nat)
    (s s' : σ) (h : cond s = true) (hb : body s = Except.ok s') :
    whileLoop cond body (fuel + 1) s = whileLoop cond body fuel s' := by
  simp [whileLoop, h, hb]

theorem SetupPads_groups (env : Nat → PadReply)
    (henv : ∀ n, (env n).add_err = VIGEM_ERROR_NONE ∧ (env n).reg_err = VIGEM_ERROR_NONE) :
    ∀ (r : Nat) (w : World) (fuel : Nat), w.pads.length + 4 * r = 4 * MAX_ADAPTERS →
    r ≤ fuel →
    ∃ w', SetupPads fuel env w = some (Except.ok w') ∧
      w'.adapters = w.adapters ∧ w'.client = w.client ∧ w'.usbLog = w.usbLog ∧
      w'.pads = w.pads ++ (List.range' w.pads.length (4 * r)).map (fun n => (env n).pad) ∧
      w'.isConnected = w.isConnected ++ List.replicate (4 * r) false ∧
      w'.vigemLog = w.vigemLog ++ (List.range' w.pads.length (4 * r)).map
        (fun n => ViGEmCall.target_ds4_update (env n).pad (GCtoDS4 GCInput.reset)) := by
  intro r
  induction r with
  | zero =>
    intro w fuel hlen _
    refine ⟨w, ?_, rfl, rfl, rfl, by simp, by simp, by simp⟩
    apply whileLoop_done
    simp only [MAX_ADAPTERS] at hlen ⊢
    simp only [decide_eq_false_iff_not]
    omega
  | succ r ih =>
    intro w fuel hlen hfuel
    obtain ⟨f, rfl⟩ : ∃ f, fuel = f + 1 := ⟨fuel - 1, by omega⟩
    obtain ⟨w1, g1, g2, g3, g4, g5, g6, g7⟩ := setupPads_fold env henv (List.range 4) w
    simp only [List.length_range] at g5 g6 g7
    have hlen1 : w1.pads.length = w.pads.length + 4 := by
      rw [g5]; simp
    have e : 4 * (r + 1) = 4 * r + 4 := by omega
    obtain ⟨w', h1, h2, h3, h4, h5, h6, h7⟩ := ih w1 f (by omega) (by omega)
    refine ⟨w', ?_, h2.trans g2, h3.trans g3, h4.trans g4, ?_, ?_, ?_⟩
    · unfold SetupPads
      rw [whileLoop_step _ _ f w w1 (by
        simp only [MAX_ADAPTERS] at hlen ⊢
        simp only [decide_eq_true_eq]
        omega) g1]
      exact h1
    · rw [h5, hlen1, g5, List.append_assoc, ← List.map_append, List.range'_append_1, e]
    · rw [h6, g6, List.append_assoc, ← List.replicate_add, e, Nat.add_comm]
    · rw [h7, hlen1, g7, List.append_assoc, ← List.map_append, List.range'_append_1, e]

/-- C14, as stated, fails: from a table holding 2 adapters and no target,
`SetupPads` leaves 24 targets, not 8; and from the same table with 8 targets
(four for each adapter) it adds 16 more. -/
theorem SetupPads_ignores_occupancy :
    NumAdapters twoAdapterStart = 2 ∧ twoAdapterStart.pads.length = 0 ∧
    (∃ w', SetupPads 6 sampleBus twoAdapterStart = some (Except.ok w') ∧
      w'.pads.length = 24 ∧ w'.pads.length ≠ 4 * NumAdapters twoAdapterStart) ∧
    NumAdapters twoAdapterEightPads = 2 ∧
    twoAdapterEightPads.pads.length = 4 * NumAdapters twoAdapterEightPads ∧
    (∃ w', SetupPads 6 sampleBus twoAdapterEightPads = some (Except.ok w') ∧
      w'.pads.length = 24 ∧ w'.pads.length ≠ twoAdapterEightPads.pads.length) := by
  refine ⟨by decide, by decide, ⟨_, rfl, by decide, by decide⟩, by decide, by decide,
    ⟨_, rfl, by decide, by decide⟩⟩

/-- C14, amended: `SetupPads` adds virtual targets in groups of four while
`targetCount / 4` is below the capacity `MAX_ADAPTERS` of the table, whatever
its occupancy.  With a bus that accepts every target: started with no target
it returns (6 passes of the loop suffice) with exactly `4 * MAX_ADAPTERS = 24`
targets, the handles the bus allocated, in order; each new target has been
sent the neutral report and is marked disconnected; the table is untouched.
Started with `targetCount / 4 >= MAX_ADAPTERS` it adds nothing. -/
theorem SetupPads_fills_capacity (env : Nat → PadReply) (w : World)
    (henv : ∀ n, (env n).add_err = VIGEM_ERROR_NONE ∧ (env n).reg_err = VIGEM_ERROR_NONE) :
    (w.pads = [] → ∀ fuel, MAX_ADAPTERS ≤ fuel →
      ∃ w', SetupPads fuel env w = some (Except.ok w') ∧
        w'.pads.length = 4 * MAX_ADAPTERS ∧ 4 * MAX_ADAPTERS = 24 ∧
        w'.pads = (List.range' 0 24).map (fun n => (env n).pad) ∧
        w'.isConnected = w.isConnected ++ List.replicate 24 false ∧
        w'.vigemLog = w.vigemLog ++ (List.range' 0 24).map
          (fun n => ViGEmCall.target_ds4_update (env n).pad (GCtoDS4 GCInput.reset)) ∧
        w'.adapters = w.adapters) ∧
    (MAX_ADAPTERS ≤ w.pads.length / 4 → ∀ fuel, SetupPads fuel env w = some (Except.ok w)) := by
  constructor
  · intro hpads fuel hfuel
    obtain ⟨w', h1, h2, h3, h4, h5, h6, h7⟩ := SetupPads_groups env henv MAX_ADAPTERS w fuel
      (by rw [hpads]; simp) hfuel
    rw [hpads] at h5 h7
    have h24 : 4 * MAX_ADAPTERS = 24 := by decide
    rw [h24] at h5 h6 h7
    simp only [List.length_nil, List.nil_append] at h5 h7
    refine ⟨w', h1, ?_, h24, h5, h6, h7, h2⟩
    rw [h5, h24]
    simp
  · intro hfull fuel
    apply whileLoop_done
    simp only [decide_eq_false_iff_not]
    omega

/-- C14 amended, with the bus `sampleBus`: from `twoAdapterStart` the call
returns with 24 targets; from `sampleWorld`, which has 24 targets, it
changes nothing. -/
theorem SetupPads_fills_capacity_witness :
    (∃ w', SetupPads 6 sampleBus twoAdapterStart = some (Except.ok w') ∧
      w'.pads.length = 4 * MAX_ADAPTERS ∧ 4 * MAX_ADAPTERS = 24 ∧
      w'.pads = (List.range' 0 24).map (fun n => (sampleBus n).pad) ∧
      w'.isConnected = twoAdapterStart.isConnected ++ List.replicate 24 false ∧
      w'.vigemLog = twoAdapterStart.vigemLog ++ (List.range' 0 24).map
        (fun n => ViGEmCall.target_ds4_update (sampleBus n).pad (GCtoDS4 GCInput.reset)) ∧
      w'.adapters = twoAdapterStart.adapters) ∧
    SetupPads 0 sampleBus sampleWorld = some (Except.ok sampleWorld) :=
  ⟨(SetupPads_fills_capacity sampleBus twoAdapterStart (fun _ => ⟨rfl, rfl⟩)).1 rfl 6
      (by decide),
   (SetupPads_fills_capacity sampleBus sampleWorld (fun _ => ⟨rfl, rfl⟩)).2 (by decide) 0⟩

theorem attachPad_ok (env : Nat → PadReply) (s : World × List AttachEvent)
    (henv : ∀ n, (env n).add_err = VIGEM_ERROR_NONE ∧ (env n).reg_err = VIGEM_ERROR_NONE) :
    attachPad env s = Except.ok
      ({ s.1 with pads := s.1.pads ++ [(env s.1.pads.length).pad] },
        s.2 ++ attachEvents env s.1.pads.length) := by
  simp only [attachPad, AddController_ok _ (henv _).1 (henv _).2, bind, Except.bind,
    attachEvents, List.length_append, List.length_singleton]
  split_ifs <;> simp [pure, Except.pure]

theorem attachPads_fold (env : Nat → PadReply)
    (henv : ∀ n, (env n).add_err = VIGEM_ERROR_NONE ∧ (env n).reg_err = VIGEM_ERROR_NONE) :
    ∀ (is : List Nat) (s : World × List AttachEvent),
    ∃ s', is.foldlM (fun s _ => attachPad env s) s = Except.ok s' ∧
      s'.1.adapters = s.1.adapters ∧ s'.1.isConnected = s.1.isConnected ∧
      s'.1.vigemLog = s.1.vigemLog ∧ s'.1.usbLog = s.1.usbLog ∧
      s'.1.pads =
        s.1.pads ++ (List.range' s.1.pads.length is.length).map (fun n => (env n).pad) ∧
      s'.2 = s.2 ++ (List.range' s.1.pads.length is.length).flatMap (attachEvents env) := by
  intro is
  induction is with
  | nil =>
    intro s
    exact ⟨s, rfl, rfl, rfl, rfl, rfl, by simp, by simp⟩
  | cons i is ih =>
    intro s
    obtain ⟨s', h1, h2, h3, h4, h5, h6, h7⟩ := ih
      ({ s.1 with pads := s.1.pads ++ [(env s.1.pads.length).pad] },
        s.2 ++ attachEvents env s.1.pads.length)
    refine ⟨s', ?_, h2, h3, h4, h5, ?_, ?_⟩
    · simp only [List.foldlM_cons, attachPad_ok env s henv, bind, Except.bind]
      exact h1
    · rw [h6]
      simp [List.range'_succ]
    · rw [h7]
      simp [List.range'_succ]

theorem AddDeterministic_groups (env : Nat → PadReply)
    (henv : ∀ n, (env n).add_err = VIGEM_ERROR_NONE ∧ (env n).reg_err = VIGEM_ERROR_NONE) :
    ∀ (r : Nat) (s : World × List AttachEvent) (fuel : Nat),
    s.1.pads.length + 4 * r = 4 * MAX_ADAPTERS → r ≤ fuel →
    ∃ s', whileLoop (fun s => decide (s.1.pads.length / 4 < MAX_ADAPTERS))
        (fun s => (List.range 4).foldlM (fun s _ => attachPad env s) s) fuel s =
        some (Except.ok s') ∧
      s'.1.adapters = s.1.adapters ∧ s'.1.isConnected = s.1.isConnected ∧
      s'.1.vigemLog = s.1.vigemLog ∧ s'.1.usbLog = s.1.usbLog ∧
      s'.1.pads =
        s.1.pads ++ (List.range' s.1.pads.length (4 * r)).map (fun n => (env n).pad) ∧
      s'.2 = s.2 ++ (List.range' s.1.pads.length (4 * r)).flatMap (attachEvents env) := by
  intro r
  induction r with
  | zero =>
    intro s fuel hlen _
    refine ⟨s, ?_, rfl, rfl, rfl, rfl, by simp, by simp⟩
    apply whileLoop_done
    simp only [MAX_ADAPTERS] at hlen ⊢
    simp only [decide_eq_false_iff_not]
    omega
  | succ r ih =>
    intro s fuel hlen hfuel
    obtain ⟨f, rfl⟩ : ∃ f, fuel = f + 1 := ⟨fuel - 1, by omega⟩
    obtain ⟨s1, g1, g2, g3, g4, g5, g6, g7⟩ := attachPads_fold env henv (List.range 4) s
    simp only [List.length_range] at g6 g7
    have hlen1 : s1.1.pads.length = s.1.pads.length + 4 := by
      rw [g6]; simp
    have e : 4 * (r + 1) = 4 * r + 4 := by omega
    obtain ⟨s', h1, h2, h3, h4, h5, h6, h7⟩ := ih s1 f (by omega) (by omega)
    refine ⟨s', ?_, h2.trans g2, h3.trans g3, h4.trans g4, h5.trans g5, ?_, ?_⟩
    · rw [whileLoop_step _ _ f s s1 (by
        simp only [MAX_ADAPTERS] at hlen ⊢
        simp only [decide_eq_true_eq]
        omega) g1]
      exact h1
    · rw [h6, hlen1, g6, List.append_assoc, ← List.map_append, List.range'_append_1, e]
    · rw [h7, hlen1, g7, List.append_assoc, ← List.flatMap_append, List.range'_append_1, e]

/-- C15, as stated, fails: from a table holding 2 adapters and no target,
`AddDeterministic` makes 24 allocations, not 8, and sleeps 23 times, not
once; the first sleep comes right after the first allocation. -/
theorem AddDeterministic_allocates_all :
    NumAdapters twoAdapterStart = 2 ∧ twoAdapterStart.pads.length = 0 ∧
    ∃ s', AddDeterministic 6 sampleBus twoAdapterStart = some (Except.ok s') ∧
      s'.1.pads.length = 24 ∧
      (s'.2.filter (fun e => !e.isSleep)).length = 24 ∧
      (s'.2.filter AttachEvent.isSleep).length = 23 ∧
      s'.2[0]? = some (AttachEvent.allocated 0 100) ∧
      s'.2[1]? = some (AttachEvent.sleep_for 3000) ∧
      s'.2[2]? = some (AttachEvent.allocated 1 101) := by
  refine ⟨by decide, by decide, _, rfl, ?_, ?_, ?_, ?_, ?_, ?_⟩ <;> decide

/-- C15, amended: `AddDeterministic`, invoked with no target allocated and a
bus that accepts every target, returns (6 passes of the loop suffice) after
exactly `4 * MAX_ADAPTERS = 24` allocations whatever the table holds, at the
indices 0, 1, ..., 23 in this order, and sleeps 3000 ms after every
allocation except the last one: 24 allocations and 23 sleeps, each
allocation but the last directly followed by a sleep.  The table, the flags
and the logs are untouched. -/
theorem AddDeterministic_trace (env : Nat → PadReply) (w : World)
    (henv : ∀ n, (env n).add_err = VIGEM_ERROR_NONE ∧ (env n).reg_err = VIGEM_ERROR_NONE)
    (hpads : w.pads = []) (fuel : Nat) (hfuel : MAX_ADAPTERS ≤ fuel) :
    ∃ w' events, AddDeterministic fuel env w = some (Except.ok (w', events)) ∧
      w'.pads = (List.range' 0 24).map (fun n => (env n).pad) ∧
      w'.pads.length = 4 * MAX_ADAPTERS ∧
      events = (List.range' 0 24).flatMap (fun n =>
        if n + 1 != 24 then [AttachEvent.allocated n (env n).pad, AttachEvent.sleep_for 3000]
        else [AttachEvent.allocated n (env n).pad]) ∧
      (events.filter (fun e => !e.isSleep)).length = 24 ∧
      (events.filter AttachEvent.isSleep).length = 23 ∧
      w'.adapters = w.adapters ∧ w'.isConnected = w.isConnected ∧
      w'.vigemLog = w.vigemLog ∧ w'.usbLog = w.usbLog := by
  obtain ⟨s', h1, h2, h3, h4, h5, h6, h7⟩ :=
    AddDeterministic_groups env henv MAX_ADAPTERS (w, []) fuel (by simp [hpads]) hfuel
  have h24 : 4 * MAX_ADAPTERS = 24 := by decide
  simp only [hpads, List.length_nil, List.nil_append, h24] at h6 h7
  have hev : s'.2 = (List.range' 0 24).flatMap (fun n =>
      if n + 1 != 24 then [AttachEvent.allocated n (env n).pad, AttachEvent.sleep_for 3000]
      else [AttachEvent.allocated n (env n).pad]) := by
    rw [h7]
    rfl
  refine ⟨s'.1, s'.2, h1, h6, by rw [h6, h24]; simp, hev, ?_, ?_, h2, h3, h4, h5⟩
  · rw [hev]
    simp [List.range', List.flatMap, AttachEvent.isSleep]
  · rw [hev]
    simp [List.range', List.flatMap, AttachEvent.isSleep]

/-- C15 amended, with the bus `sampleBus` from `twoAdapterStart`. -/
theorem AddDeterministic_trace_witness :
    ∃ w' events, AddDeterministic 6 sampleBus twoAdapterStart =
        some (Except.ok (w', events)) ∧
      w'.pads = (List.range' 0 24).map (fun n => (sampleBus n).pad) ∧
      w'.pads.length = 4 * MAX_ADAPTERS ∧
      events = (List.range' 0 24).flatMap (fun n =>
        if n + 1 != 24 then
          [AttachEvent.allocated n (sampleBus n).pad, AttachEvent.sleep_for 3000]
        else [AttachEvent.allocated n (sampleBus n).pad]) ∧
      (events.filter (fun e => !e.isSleep)).length = 24 ∧
      (events.filter AttachEvent.isSleep).length = 23 ∧
      w'.adapters = twoAdapterStart.adapters ∧
      w'.isConnected = twoAdapterStart.isConnected ∧
      w'.vigemLog = twoAdapterStart.vigemLog ∧ w'.usbLog = twoAdapterStart.usbLog :=
  AddDeterministic_trace sampleBus twoAdapterStart (fun _ => ⟨rfl, rfl⟩) rfl 6 (by decide)

theorem flags_of_low_bits (s : GCInput) (v : Nat) (h : s.Buttons % 4096 = v) (i : Nat)
    (hi : i < 12) : s.Buttons.testBit i = v.testBit i := by
  have := testBit_low_bits s.Buttons 0 i hi
  rw [h] at this
  exact this.symm

theorem GCtoDS4_only_A (s : GCInput) (hbuttons : s.Buttons % 4096 = 1)
    (hx : s.AnalogX = 128) (hy : s.AnalogY = 128) (hcx : s.CStickX = 128)
    (hcy : s.CStickY = 128) (hl : s.LeftTrigger = 0) (hr : s.RightTrigger = 0) :
    GCtoDS4 s = ⟨128, 127, 128, 127, 72, 0, 0, 0⟩ := by
  have hcongr := GCtoDS4_congr ⟨0, 1, 128, 128, 128, 128, 0, 0⟩ s
    (fun i hi => flags_of_low_bits s 1 hbuttons i hi) hx hy hcx hcy hl hr
  rw [hcongr]
  decide

/-- C16, as stated, fails: in `sampleWorld` slot 0 is occupied and target 0
is disconnected; with a successful read whose sub-port 0 is wired, has only A
pressed, centred sticks and triggers 0, the cycle connects target 0 and
pushes one report to pad 0 (handle 100) with the circle bit and the d-pad
centred, but its Y fields are 127, not 128. -/
theorem pollCycle_wired_A_sticks_not_centred :
    sampleWorld.adapters[0]? = some (some ⟨7, [0x11, 0, 0, 0, 0], 3⟩) ∧
    sampleWorld.isConnected[0]? = some false ∧ sampleWorld.pads[0]? = some 100 ∧
    (Adapter.GetInputs ⟨7, [0x11, 0, 0, 0, 0], 3⟩ wiredReply).1 = true ∧
    wiredReply.inputs.Controllers 0 = ⟨0x10, 0x0001, 128, 128, 128, 128, 0, 0⟩ ∧
    ∃ w', pollCycle (fun _ => wiredReply) sampleWorld = Except.ok w' ∧
      w'.isConnected[0]? = some true ∧
      reportsTo 100 w'.vigemLog = [⟨128, 127, 128, 127, 72, 0, 0, 0⟩] ∧
      (⟨128, 127, 128, 127, 72, 0, 0, 0⟩ : DS4_REPORT).bThumbLY ≠ 128 ∧
      (⟨128, 127, 128, 127, 72, 0, 0, 0⟩ : DS4_REPORT).bThumbRY ≠ 128 := by
  refine ⟨by decide, by decide, by decide, by decide, by decide, ?_⟩
  refine ⟨{ sampleWorld with
      adapters := [some ⟨7, [0x11, 0, 0, 0, 0], 0⟩, none, some ⟨9, [0x11, 0, 0, 0, 0], 0⟩,
        none, none, none]
      isConnected := [true, false, false, false, false, false, false, false, true, false,
        false, false, false, false, false, false, false, false, false, false, false, false,
        false, false]
      vigemLog := [ViGEmCall.target_ds4_update 100 ⟨128, 127, 128, 127, 72, 0, 0, 0⟩,
        ViGEmCall.target_ds4_update 101 ⟨128, 127, 128, 127, 8, 0, 0, 0⟩,
        ViGEmCall.target_ds4_update 108 ⟨128, 127, 128, 127, 72, 0, 0, 0⟩,
        ViGEmCall.target_ds4_update 109 ⟨128, 127, 128, 127, 8, 0, 0, 0⟩,
        ViGEmCall.target_ds4_update 110 ⟨128, 127, 128, 127, 8, 0, 0, 0⟩,
        ViGEmCall.target_ds4_update 111 ⟨128, 127, 128, 127, 8, 0, 0, 0⟩] },
    rfl, ?_, ?_, ?_, ?_⟩ <;> decide

/-- C16, amended: on a state with `MAX_ADAPTERS` slots, 24 distinct pads and
24 flags, and pairwise distinct device handles, with slot 0 occupied, target
0 disconnected, and a successful read whose sub-port 0 snapshot is wired, has
A as its only set flag among the twelve button and d-pad flags, both sticks
at 128 and both triggers at 0: the polling cycle returns normally, sets
target 0 to connected and pushes exactly one report to pad 0; its button bits
are exactly the circle bit `1 << 6`, its d-pad value is 8 (centred), its X
fields are 128 and its Y fields are 127 (the complement `255 - 128`), its
triggers 0. -/
theorem pollCycle_wired_A (replies : Nat → InterruptReply) (w : World) (a : Adapter)
    (hs : w.Sized) (hnd : w.pads.Nodup) (hd : HandlesDistinct w.adapters)
    (ha : w.adapters[0]? = some (some a)) (_hflag : w.isConnected[0]? = some false)
    (hgot : (a.GetInputs (replies 0)).1 = true)
    (hwired : ((replies 0).inputs.Controllers 0).Wired = true)
    (hbuttons : ((replies 0).inputs.Controllers 0).Buttons % 4096 = 1)
    (hx : ((replies 0).inputs.Controllers 0).AnalogX = 128)
    (hy : ((replies 0).inputs.Controllers 0).AnalogY = 128)
    (hcx : ((replies 0).inputs.Controllers 0).CStickX = 128)
    (hcy : ((replies 0).inputs.Controllers 0).CStickY = 128)
    (hl : ((replies 0).inputs.Controllers 0).LeftTrigger = 0)
    (hr : ((replies 0).inputs.Controllers 0).RightTrigger = 0) :
    ∃ w' new r, pollCycle replies w = Except.ok w' ∧ w'.vigemLog = w.vigemLog ++ new ∧
      w'.isConnected[0]? = some true ∧
      reportsTo (w.pads.getD 0 0) new = [r] ∧
      r.wButtons / 16 * 16 = 1 <<< 6 ∧ r.wButtons % 16 = 8 ∧
      r.bThumbLX = 128 ∧ r.bThumbRX = 128 ∧ r.bThumbLY = 127 ∧ r.bThumbRY = 127 ∧
      r.bTriggerL = 0 ∧ r.bTriggerR = 0 := by
  have hi : 0 < MAX_ADAPTERS := by decide
  have hrange : List.range MAX_ADAPTERS = 0 :: [1, 2, 3, 4, 5] := by decide
  have hpost6 : ∀ k ∈ [1, 2, 3, 4, 5], k < MAX_ADAPTERS := by decide
  have hpost : 0 ∉ [1, 2, 3, 4, 5] := by decide
  have hc0 : 0 * 4 + 4 ≤ w.isConnected.length := by
    have := hs.2.2; simp only [MAX_ADAPTERS] at this; omega
  have hp0 : 0 * 4 + 4 ≤ w.pads.length := by
    have := hs.2.1; simp only [MAX_ADAPTERS] at this; omega
  have hactive : ((replies 0).inputs.Controllers 0).On = true := by
    simp [GCInput.On, hwired]
  obtain ⟨w2, b1, b2, b3, b4, b5, b6, b7, b8, b9⟩ :=
    pollAdapter_success 0 (replies 0) w a ha hgot hc0 hp0
  have hs2 : w2.Sized :=
    ⟨by rw [b2]; simpa using hs.1, by rw [b3]; exact hs.2.1, by rw [b6]; exact hs.2.2⟩
  have hd2 : HandlesDistinct w2.adapters := by
    rw [b2]
    exact HandlesDistinct_set _ 0 a _ hd ha (fun a' ha' => by rw [← Option.some.inj ha'])
  obtain ⟨w3, new3, c1, c2, c3, c4, c5, c6, c7, c8, c9⟩ :=
    pollSlots_frame replies [1, 2, 3, 4, 5] w2 hpost6 hs2 hd2
  have hnew3 : reportsTo (w.pads.getD (0 * 4 + (0 : Fin 4).val) 0) new3 = [] := by
    apply reportsTo_other_slots w.pads hnd hs.2.1 [1, 2, 3, 4, 5] hpost6 0 hi hpost new3
    intro c hc
    obtain ⟨k, hk, j', r, hr⟩ := c9 c hc
    exact ⟨k, hk, j', r, by rw [hr, b3]⟩
  have hnew0 := reportsTo_pad_loop w.pads hnd w.isConnected (replies 0).inputs 0 hp0 0
    (List.finRange 4) (List.nodup_finRange 4)
  rw [if_pos (List.mem_finRange 0), if_pos hactive] at hnew0
  have hreport := GCtoDS4_only_A _ hbuttons hx hy hcx hcy hl hr
  refine ⟨w3, (List.finRange 4).flatMap (fun j =>
      padCalls (w.isConnected.getD (0 * 4 + j.val) false) ((replies 0).inputs.Controllers j)
        (w.pads.getD (0 * 4 + j.val) 0)) ++ new3,
    GCtoDS4 ((replies 0).inputs.Controllers 0), ?_, ?_, ?_, ?_, ?_⟩
  · unfold pollCycle
    rw [hrange]
    simp only [bind, Except.bind, List.foldlM_cons, b1]
    exact c1
  · rw [c8, b9, List.append_assoc]
  · rw [c7 0 (by decide)]
    have := b7 0
    simpa [hactive] using this
  · rw [reportsTo_append]
    have e0 : w.pads.getD 0 0 = w.pads.getD (0 * 4 + (0 : Fin 4).val) 0 := by simp
    rw [e0, hnew3, List.append_nil, hnew0]
  · rw [hreport]
    decide

/-- C16 amended, on `sampleWorld` with every read returning `wiredReply`:
pad 0 (handle 100) gets exactly one report, with the Y fields at 127. -/
theorem pollCycle_wired_A_witness :
    ∃ w' new r, pollCycle (fun _ => wiredReply) sampleWorld = Except.ok w' ∧
      w'.vigemLog = sampleWorld.vigemLog ++ new ∧
      w'.isConnected[0]? = some true ∧
      reportsTo (sampleWorld.pads.getD 0 0) new = [r] ∧
      r.wButtons / 16 * 16 = 1 <<< 6 ∧ r.wButtons % 16 = 8 ∧
      r.bThumbLX = 128 ∧ r.bThumbRX = 128 ∧ r.bThumbLY = 127 ∧ r.bThumbRY = 127 ∧
      r.bTriggerL = 0 ∧ r.bTriggerR = 0 :=
  pollCycle_wired_A (fun _ => wiredReply) sampleWorld ⟨7, [0x11, 0, 0, 0, 0], 3⟩
    (by decide) (by decide) (handlesDistinct_of_nodup _ (by decide)) (by decide) (by decide)
    (by decide) (by decide) (by decide) (by decide) (by decide) (by decide) (by decide)
    (by decide) (by decide)

/-! ## The polling loop: failed reads and the wired-controller scenario -/

theorem pollAdapter_failed_read (i : Nat) (reply : InterruptReply) (w : World) (a : Adapter)
    (hs : w.Sized) (hd : HandlesDistinct w.adapters) (hi : i < MAX_ADAPTERS)
    (ha : w.adapters[i]? = some (some a)) (hfail : (a.GetInputs reply).1 = false) :
    ∃ w', pollAdapter i reply w = Except.ok w' ∧ w'.Sized ∧ HandlesDistinct w'.adapters ∧
      w'.pads = w.pads ∧ w'.vigemLog = w.vigemLog := by
  obtain ⟨hs1, hs2, hs3⟩ := hs
  cases hsd : (a.ShouldDisconnect false).1 with
  | false =>
    refine ⟨_, pollAdapter_fail_keep i reply w a ha hfail hsd, ⟨by simpa using hs1, hs2, hs3⟩,
      ?_, rfl, rfl⟩
    exact HandlesDistinct_set _ i a _ hd ha (fun a' ha' => by
      rw [← Option.some.inj ha']
      exact (ShouldDisconnect_handle a false).1)
  | true =>
    have hc : i * 4 + 4 ≤ w.isConnected.length := by
      simp only [MAX_ADAPTERS] at hs3 hi; omega
    obtain ⟨w', h1, h2, h3, h4, h5, h6, h7, h8, h9⟩ :=
      pollAdapter_disconnect i reply w a ha hfail hsd hc (by
        intro m b hm hb he
        have := hd m i b a hb ha he
        omega)
    refine ⟨w', h1, ⟨by rw [h2]; simpa using hs1, by rw [h3]; exact hs2,
      by rw [h7]; exact hs3⟩, ?_, h3, h5⟩
    rw [h2]
    exact HandlesDistinct_set _ i a _ hd ha (fun a' ha' => by simp at ha')

/-- C17: in one polling cycle run on a state with `MAX_ADAPTERS` slots, 24
distinct pads and 24 flags, and pairwise distinct device handles, for every
occupied slot `i` whose read fails, the cycle returns normally and no report
at all, so no translated snapshot, is pushed to any of the pads `4i..4i+3`
during the cycle; and when `ShouldDisconnect` returns false for that read,
the pass of the loop for slot `i` returns the state it was given with one
change only: the session of slot `i` has its failure counter raised by one
(slot `i` keeps the session, every flag, pad and log is as before). -/
theorem pollCycle_failed_read (replies : Nat → InterruptReply) (w : World) (i : Nat)
    (a : Adapter) (hs : w.Sized) (hnd : w.pads.Nodup) (hd : HandlesDistinct w.adapters)
    (hi : i < MAX_ADAPTERS) (ha : w.adapters[i]? = some (some a))
    (hfail : (a.GetInputs (replies i)).1 = false) :
    (∃ w' new, pollCycle replies w = Except.ok w' ∧ w'.vigemLog = w.vigemLog ++ new ∧
      ∀ j : Fin 4, reportsTo (w.pads.getD (i * 4 + j.val) 0) new = []) ∧
    ((a.ShouldDisconnect false).1 = false →
      pollAdapter i (replies i) w =
        Except.ok { w with
          adapters := w.adapters.set i
            (some { a with failedReads := (a.failedReads + 1) % 2 ^ 64 }) }) := by
  constructor
  · obtain ⟨pre, post, hsplit, hpre, hpost, hpre6, hpost6⟩ := range_split i hi
    obtain ⟨w1, new1, a1, a2, a3, a4, a5, a6, a7, a8, a9⟩ :=
      pollSlots_frame replies pre w hpre6 hs hd
    have ha1 : w1.adapters[i]? = some (some a) := by rw [a6 i hpre]; exact ha
    obtain ⟨w2, b1, b2, b3, b4, b5⟩ :=
      pollAdapter_failed_read i (replies i) w1 a a2 a3 hi ha1 hfail
    obtain ⟨w3, new3, c1, c2, c3, c4, c5, c6, c7, c8, c9⟩ :=
      pollSlots_frame replies post w2 hpost6 b2 b3
    refine ⟨w3, new1 ++ new3, ?_, ?_, ?_⟩
    · unfold pollCycle
      rw [hsplit, List.foldlM_append, a1]
      simp only [bind, Except.bind, List.foldlM_cons, b1]
      exact c1
    · rw [c8, b5, a8, List.append_assoc]
    · intro j
      rw [reportsTo_append,
        reportsTo_other_slots w.pads hnd hs.2.1 pre hpre6 i hi hpre new1 a9 j]
      apply reportsTo_other_slots w.pads hnd hs.2.1 post hpost6 i hi hpost new3
      intro c hc
      obtain ⟨k, hk, j', r, hr⟩ := c9 c hc
      exact ⟨k, hk, j', r, by rw [hr, b4, a4]⟩
  · intro hsd
    rw [pollAdapter_fail_keep i (replies i) w a ha hfail hsd]
    have hnext : (a.ShouldDisconnect false).2 =
        { a with failedReads := (a.failedReads + 1) % 2 ^ 64 } := by
      by_cases hc : 20 < a.failedReads <;> simp [Adapter.ShouldDisconnect, hc]
    rw [hnext]

/-- C17 on `sampleWorld` with every read failing: nothing reaches pads 100 to
103 of slot 0, and the pass for slot 0 only raises its counter from 3 to 4. -/
theorem pollCycle_failed_read_witness :
    (∃ w' new, pollCycle (fun _ => failedReply) sampleWorld = Except.ok w' ∧
      w'.vigemLog = sampleWorld.vigemLog ++ new ∧
      ∀ j : Fin 4, reportsTo (sampleWorld.pads.getD (0 * 4 + j.val) 0) new = []) ∧
    pollAdapter 0 failedReply sampleWorld =
      Except.ok { sampleWorld with
        adapters := sampleWorld.adapters.set 0
          (some ⟨7, [0x11, 0, 0, 0, 0], (3 + 1) % 2 ^ 64⟩) } :=
  ⟨(pollCycle_failed_read (fun _ => failedReply) sampleWorld 0 ⟨7, [0x11, 0, 0, 0, 0], 3⟩
      (by decide) (by decide) (handlesDistinct_of_nodup _ (by decide)) (by decide) (by decide)
      (by decide)).1,
   (pollCycle_failed_read (fun _ => failedReply) sampleWorld 0 ⟨7, [0x11, 0, 0, 0, 0], 3⟩
      (by decide) (by decide) (handlesDistinct_of_nodup _ (by decide)) (by decide) (by decide)
      (by decide)).2 (by decide)⟩

/-! ## The failure counter after a success -/

theorem readCalls_cons (g : Bool) (gs : List Bool) (a : Adapter) :
    (readCalls (g :: gs) a).1 =
      (a.ShouldDisconnect g).1 :: (readCalls gs (a.ShouldDisconnect g).2).1 := rfl

theorem readCalls_append (gs hs : List Bool) : ∀ a : Adapter,
    (readCalls (gs ++ hs) a).1 = (readCalls gs a).1 ++ (readCalls hs (readCalls gs a).2).1 := by
  induction gs with
  | nil => intro a; rfl
  | cons g gs ih =>
    intro a
    exact congrArg (fun t => (a.ShouldDisconnect g).1 :: t) (ih (a.ShouldDisconnect g).2)

theorem readCalls_failures (n : Nat) : ∀ a : Adapter,
    readCalls (List.replicate n false) a = failedCalls n a := by
  induction n with
  | zero => intro a; rfl
  | succ n ih =>
    intro a
    simp only [List.replicate_succ, readCalls, failedCalls, ih]

/-- C18: whatever the failure counter is, `ShouldDisconnect(true)` returns
false and leaves the session with the counter at zero and nothing else
changed; hence in any sequence of reads, after any earlier outcomes, a
success followed by 20 failed reads (the threshold) gives false for the
success and for each of the 20 failures. -/
theorem ShouldDisconnect_success_resets (a : Adapter) :
    (a.ShouldDisconnect true).1 = false ∧
    (a.ShouldDisconnect true).2 = { a with failedReads := 0 } ∧
    (failedCalls 20 (a.ShouldDisconnect true).2).1 = List.replicate 20 false ∧
    (∀ earlier : List Bool,
      (readCalls (earlier ++ true :: List.replicate 20 false) a).1 =
        (readCalls earlier a).1 ++ false :: List.replicate 20 false) := by
  have hreset : ∀ b : Adapter, b.ShouldDisconnect true = (false, { b with failedReads := 0 }) := by
    intro b
    simp [Adapter.ShouldDisconnect]
  have hrun : ∀ b : Adapter,
      (failedCalls 20 { b with failedReads := 0 }).1 = List.replicate 20 false := by
    intro b
    have h0 : ({ b with failedReads := 0 } : Adapter).failedReads = 0 := rfl
    rw [failedCalls_flags 20 _ (by rw [h0]; norm_num), h0]
    decide
  refine ⟨by rw [hreset], by rw [hreset], by rw [hreset]; exact hrun a, ?_⟩
  intro earlier
  rw [readCalls_append]
  rw [readCalls_cons, hreset, readCalls_failures, hrun]

/-! ## The translator: inversion and the layout of `wButtons` -/

theorem complementByte_lt (b : Nat) : complementByte b < 256 := by
  unfold complementByte
  omega

/-- C19: the 8-bit complement that `GCtoDS4` applies to the Y axes is an
involution on bytes: complementing a byte twice gives the byte back; so for
a snapshot whose fields are bytes, translating the snapshot that carries the
`bThumbLY` and `bThumbRY` of its report as `AnalogY` and `CStickY` gives
back the original `AnalogY` and `CStickY` in the Y fields. -/
theorem GCtoDS4_inversion_involutive :
    (∀ b : Nat, b < 256 → complementByte (complementByte b) = b) ∧
    (∀ gc : GCInput, gc.InRange →
      (GCtoDS4 { gc with AnalogY := (GCtoDS4 gc).bThumbLY,
                         CStickY := (GCtoDS4 gc).bThumbRY }).bThumbLY = gc.AnalogY ∧
      (GCtoDS4 { gc with AnalogY := (GCtoDS4 gc).bThumbLY,
                         CStickY := (GCtoDS4 gc).bThumbRY }).bThumbRY = gc.CStickY) := by
  have hinv : ∀ b : Nat, b < 256 → complementByte (complementByte b) = b := by
    intro b hb
    rw [complementByte_eq b hb, complementByte_eq (255 - b) (by omega)]
    omega
  refine ⟨hinv, ?_⟩
  rintro gc ⟨_, _, _, hy, _, hcy, _, _⟩
  exact ⟨hinv _ hy, hinv _ hcy⟩

/-- C19 at concrete bytes: 200 is complemented to 55 and back, and the
snapshot with Y values 200 and 3 gets them back. -/
theorem GCtoDS4_inversion_involutive_witness :
    complementByte (complementByte 200) = 200 ∧
    (GCtoDS4 { (⟨0x10, 0, 128, 200, 128, 3, 0, 0⟩ : GCInput) with
      AnalogY := (GCtoDS4 ⟨0x10, 0, 128, 200, 128, 3, 0, 0⟩).bThumbLY,
      CStickY := (GCtoDS4 ⟨0x10, 0, 128, 200, 128, 3, 0, 0⟩).bThumbRY }).bThumbLY = 200 :=
  ⟨GCtoDS4_inversion_involutive.1 200 (by decide),
   (GCtoDS4_inversion_involutive.2 ⟨0x10, 0, 128, 200, 128, 3, 0, 0⟩ (by decide)).1⟩

theorem testBit_above_dpad (bw d i : Nat) (hbw : bw % 16 = 0) (hd : d < 16) (hi : 4 ≤ i) :
    (bw + d).testBit i = bw.testBit i := by
  obtain ⟨k, rfl⟩ : ∃ k, bw = 2 ^ 4 * k := ⟨bw / 16, by omega⟩
  have h0 : 2 ^ 4 * k = 2 ^ 4 * k + 0 := rfl
  have hlt : ¬ i < 4 := by omega
  rw [Nat.testBit_mul_pow_two_add k (by omega : d < 2 ^ 4) i, h0,
    Nat.testBit_mul_pow_two_add k (by norm_num : 0 < 2 ^ 4) i]
  simp [hlt]

theorem buttonWord_unused_bits (st z r l x a b y : Bool) :
    (buttonWord st z r l x a b y).testBit 10 = false ∧
    (buttonWord st z r l x a b y).testBit 11 = false ∧
    (buttonWord st z r l x a b y).testBit 14 = false ∧
    (buttonWord st z r l x a b y).testBit 15 = false := by
  revert st z r l x a b y
  decide

/-- C20: for every snapshot the `wButtons` of `GCtoDS4` is below `2^16` and
splits cleanly: its low 4 bits (`wButtons % 16`, also `wButtons &&& 0xF`) are
the d-pad code picked by the direction chain, a value from 0 to 8; its bits 4
to 15 are the mapped button mask; the mask has its low 4 bits clear, so that
OR-ing the d-pad code into it is adding it; and bits 10, 11, 14 and 15 are
never set. -/
theorem GCtoDS4_wButtons_layout (gc : GCInput) :
    (GCtoDS4 gc).wButtons < 65536 ∧
    (GCtoDS4 gc).wButtons % 16 = dpadCode gc.DpadUp gc.DpadLeft gc.DpadDown gc.DpadRight ∧
    (GCtoDS4 gc).wButtons &&& 0xF = (GCtoDS4 gc).wButtons % 16 ∧
    (GCtoDS4 gc).wButtons % 16 ≤ 8 ∧
    (GCtoDS4 gc).wButtons / 16 * 16 = tableMask gc ∧
    tableMask gc % 16 = 0 ∧
    tableMask gc ||| (GCtoDS4 gc).wButtons % 16 = tableMask gc + (GCtoDS4 gc).wButtons % 16 ∧
    (GCtoDS4 gc).wButtons = tableMask gc ||| (GCtoDS4 gc).wButtons % 16 ∧
    (GCtoDS4 gc).wButtons.testBit 10 = false ∧ (GCtoDS4 gc).wButtons.testBit 11 = false ∧
    (GCtoDS4 gc).wButtons.testBit 14 = false ∧ (GCtoDS4 gc).wButtons.testBit 15 = false := by
  have hb := buttonWord_bounds gc.Start gc.Z gc.R gc.L gc.X gc.A gc.B gc.Y
  have hd := dpadCode_le gc.DpadUp gc.DpadLeft gc.DpadDown gc.DpadRight
  have hu := buttonWord_unused_bits gc.Start gc.Z gc.R gc.L gc.X gc.A gc.B gc.Y
  have hlow := wButtons_low gc
  have hw := wButtons_eq gc
  have hmask := tableMask_eq gc
  have hand : (GCtoDS4 gc).wButtons &&& 0xF = (GCtoDS4 gc).wButtons % 16 :=
    Nat.and_pow_two_sub_one_eq_mod _ 4
  have hor : tableMask gc ||| (GCtoDS4 gc).wButtons % 16 =
      tableMask gc + (GCtoDS4 gc).wButtons % 16 :=
    lor_small _ _ (by rw [hmask]; exact hb.1) (by omega)
  have hbit : ∀ i, 4 ≤ i → (GCtoDS4 gc).wButtons.testBit i =
      (buttonWord gc.Start gc.Z gc.R gc.L gc.X gc.A gc.B gc.Y).testBit i := by
    intro i hi
    rw [hw]
    exact testBit_above_dpad _ _ i hb.1 (by omega) hi
  refine ⟨by omega, hlow, hand, by omega, by rw [hmask]; omega, by rw [hmask]; exact hb.1,
    hor, ?_, ?_, ?_, ?_, ?_⟩
  · rw [hor, hmask, hlow]
    exact hw
  · rw [hbit 10 (by decide)]; exact hu.1
  · rw [hbit 11 (by decide)]; exact hu.2.1
  · rw [hbit 14 (by decide)]; exact hu.2.2.1
  · rw [hbit 15 (by decide)]; exact hu.2.2.2

/-! ## Index safety of the polling loop and of the feedback path -/

theorem RemoveAdapter_sizes (p : Option Adapter) (w : World) :
    (RemoveAdapter p w).adapters.length = w.adapters.length ∧
    (RemoveAdapter p w).pads = w.pads ∧ (RemoveAdapter p w).isConnected = w.isConnected := by
  rcases removeFirstMatch_cases p w.adapters with h | ⟨k, b, _, h⟩ <;>
    simp [RemoveAdapter, h]

theorem pollAdapter_sized (i : Nat) (reply : InterruptReply) (w : World)
    (hi : i < MAX_ADAPTERS) (hs : w.Sized) :
    ∃ w', pollAdapter i reply w = Except.ok w' ∧ w'.Sized := by
  obtain ⟨hs1, hs2, hs3⟩ := hs
  have hlt : i < w.adapters.length := by rw [hs1]; exact hi
  have hc : i * 4 + 4 ≤ w.isConnected.length := by
    simp only [MAX_ADAPTERS] at hs3 hi; omega
  have hp : i * 4 + 4 ≤ w.pads.length := by
    simp only [MAX_ADAPTERS] at hs2 hi; omega
  have hget : w.adapters[i]? = some w.adapters[i] := List.getElem?_eq_getElem hlt
  cases hslot : w.adapters[i] with
  | none =>
    rw [hslot] at hget
    exact ⟨w, pollAdapter_empty i reply w hget, hs1, hs2, hs3⟩
  | some a =>
    rw [hslot] at hget
    cases hgot : (a.GetInputs reply).1 with
    | true =>
      obtain ⟨w', h1, h2, h3, h4, h5, h6, h7, h8, h9⟩ :=
        pollAdapter_success i reply w a hget hgot hc hp
      exact ⟨w', h1, by rw [h2]; simpa using hs1, by rw [h3]; exact hs2,
        by rw [h6]; exact hs3⟩
    | false =>
      cases hsd : (a.ShouldDisconnect false).1 with
      | false =>
        exact ⟨_, pollAdapter_fail_keep i reply w a hget hgot hsd,
          by simpa using hs1, hs2, hs3⟩
      | true =>
        obtain ⟨r1, r2, r3⟩ := RemoveAdapter_sizes
          ((w.adapters.set i (some (a.ShouldDisconnect false).2)).getD i none)
          { w with adapters := w.adapters.set i (some (a.ShouldDisconnect false).2) }
        obtain ⟨w', h1, h2, h3, h4, h5, h6, h7, h8, h9⟩ := markDisconnected_ok i
          (RemoveAdapter ((w.adapters.set i (some (a.ShouldDisconnect false).2)).getD i none)
            { w with adapters := w.adapters.set i (some (a.ShouldDisconnect false).2) })
          (by rw [r3]; exact hc)
        refine ⟨w', ?_, ?_, ?_, ?_⟩
        · simp only [pollAdapter, hget, hgot, hsd, if_true, bind, Except.bind, h1]
          rfl
        · rw [h2, r1]; simpa using hs1
        · rw [h3, r2]; exact hs2
        · rw [h7, r3]; exact hs3

theorem pollSlots_sized (replies : Nat → InterruptReply) : ∀ (ks : List Nat) (w : World),
    (∀ k ∈ ks, k < MAX_ADAPTERS) → w.Sized →
    ∃ w', ks.foldlM (fun w k => pollAdapter k (replies k) w) w = Except.ok w' ∧ w'.Sized := by
  intro ks
  induction ks with
  | nil => intro w _ hs; exact ⟨w, rfl, hs⟩
  | cons k ks ih =>
    intro w hks hs
    obtain ⟨w1, a1, a2⟩ := pollAdapter_sized k (replies k) w (hks k (List.mem_cons_self _ _)) hs
    obtain ⟨w2, b1, b2⟩ := ih w1 (fun k' hk' => hks k' (List.mem_cons_of_mem _ hk')) a2
    refine ⟨w2, ?_, b2⟩
    simp only [List.foldlM_cons, a1, bind, Except.bind]
    exact b1

theorem pollCycle_sized (replies : Nat → InterruptReply) (w : World) (hs : w.Sized) :
    ∃ w', pollCycle replies w = Except.ok w' ∧ w'.Sized :=
  pollSlots_sized replies (List.range MAX_ADAPTERS) w
    (fun _ hk => List.mem_range.mp hk) hs

theorem SetupPads_from_start (env : Nat → PadReply)
    (henv : ∀ n, (env n).add_err = VIGEM_ERROR_NONE ∧ (env n).reg_err = VIGEM_ERROR_NONE)
    (w : World) (hpads : w.pads = []) (hflags : w.isConnected = [])
    (hadapters : w.adapters.length = MAX_ADAPTERS) (fuel : Nat) (hfuel : MAX_ADAPTERS ≤ fuel) :
    ∃ w', SetupPads fuel env w = some (Except.ok w') ∧ w'.Sized ∧
      w'.adapters = w.adapters := by
  obtain ⟨w', h1, h2, h3, h4, h5, h6, h7⟩ := SetupPads_groups env henv MAX_ADAPTERS w fuel
    (by rw [hpads]; simp) hfuel
  refine ⟨w', h1, ⟨by rw [h2]; exact hadapters, ?_, ?_⟩, h2⟩
  · rw [h5, hpads]; simp
  · rw [h6, hflags]; simp

theorem SetupPads_sized (env : Nat → PadReply) (w : World) (hs : w.Sized) (fuel : Nat) :
    SetupPads fuel env w = some (Except.ok w) := by
  apply whileLoop_done
  have := hs.2.1
  simp only [MAX_ADAPTERS] at this ⊢
  simp only [decide_eq_false_iff_not]
  omega

theorem GetPadIndex_range (w : World) (pad : Nat) :
    GetPadIndex w pad = SIZE_MAX ∨ GetPadIndex w pad < w.pads.length := by
  unfold GetPadIndex
  by_cases h : List.indexOf pad w.pads < w.pads.length
  · exact Or.inr (by simp only [h, if_true])
  · exact Or.inl (by simp only [h, if_false])

theorem UpdateRumble_in_bounds (Client Target LargeMotor SmallMotor : Nat) (reply : BulkReply)
    (w : World) (hs : w.Sized) :
    UpdateRumble Client Target LargeMotor SmallMotor reply w ≠ Except.error Fault.undefined := by
  obtain ⟨hs1, hs2, _⟩ := hs
  simp only [MAX_ADAPTERS] at hs1 hs2
  unfold UpdateRumble
  by_cases hclient : (Client != w.client) = true
  · simp only [hclient, if_true]
    intro h
    cases h
  · simp only [hclient, if_false]
    by_cases hmax : (GetPadIndex w Target == SIZE_MAX) = true
    · simp only [hmax, if_true]
      intro h
      cases h
    · simp only [hmax, if_false]
      have hne : GetPadIndex w Target ≠ SIZE_MAX := by simpa using hmax
      have hlt : GetPadIndex w Target / 4 < w.adapters.length := by
        rcases GetPadIndex_range w Target with h | h
        · exact absurd h hne
        · omega
      rw [List.getElem?_eq_getElem hlt]
      cases w.adapters[GetPadIndex w Target / 4] with
      | none => intro h; cases h
      | some a => intro h; cases h

theorem setupPad_result (env : Nat → PadReply) (w : World) :
    (∃ pad, setupPad env w = Except.ok
      { w with
        pads := w.pads ++ [pad],
        isConnected := w.isConnected ++ [false],
        vigemLog := w.vigemLog ++
          [ViGEmCall.target_ds4_update pad (GCtoDS4 GCInput.reset)] }) ∨
    setupPad env w = Except.error Fault.runtime_error := by
  by_cases h1 : VIGEM_SUCCESS (env w.pads.length).add_err = true
  · by_cases h2 : VIGEM_SUCCESS (env w.pads.length).reg_err = true
    · refine Or.inl ⟨(env w.pads.length).pad, ?_⟩
      simp only [setupPad, AddController, h1, h2, Bool.not_true, Bool.false_eq_true, if_false,
        bind, Except.bind, pure, Except.pure, List.getLast?_concat, World.UpdateController]
    · refine Or.inr ?_
      simp only [setupPad, AddController, h1, h2, Bool.not_true, Bool.false_eq_true, if_false,
        Bool.not_eq_true, Bool.not_false, if_true, bind, Except.bind]
  · refine Or.inr ?_
    simp only [setupPad, AddController, h1, Bool.not_eq_true, Bool.not_false, if_true, bind,
      Except.bind]

theorem setupPads_fold_result (env : Nat → PadReply) : ∀ (is : List Nat) (w : World),
    (∃ w', is.foldlM (fun w _ => setupPad env w) w = Except.ok w' ∧
      w'.adapters = w.adapters ∧ w'.pads.length = w.pads.length + is.length ∧
      w'.isConnected.length = w.isConnected.length + is.length) ∨
    (∃ e, is.foldlM (fun w _ => setupPad env w) w = Except.error e) := by
  intro is
  induction is with
  | nil => intro w; exact Or.inl ⟨w, rfl, rfl, rfl, rfl⟩
  | cons i is ih =>
    intro w
    rcases setupPad_result env w with ⟨pad, hpad⟩ | herr
    · rcases ih { w with
          pads := w.pads ++ [pad],
          isConnected := w.isConnected ++ [false],
          vigemLog := w.vigemLog ++
            [ViGEmCall.target_ds4_update pad (GCtoDS4 GCInput.reset)] } with
        ⟨w', h1, h2, h3, h4⟩ | ⟨e, he⟩
      · refine Or.inl ⟨w', ?_, h2, ?_, ?_⟩
        · simp only [List.foldlM_cons, hpad, bind, Except.bind]
          exact h1
        · rw [h3]; simp; omega
        · rw [h4]; simp; omega
      · refine Or.inr ⟨e, ?_⟩
        simp only [List.foldlM_cons, hpad, bind, Except.bind]
        exact he
    · refine Or.inr ⟨Fault.runtime_error, ?_⟩
      simp only [List.foldlM_cons, herr, bind, Except.bind]

theorem whileLoop_spent {σ : Type} (cond : σ → Bool) (body : σ → Except Fault σ) (s : σ)
    (h : cond s = true) : whileLoop cond body 0 s = none := by
  simp [whileLoop, h]

theorem whileLoop_error {σ : Type} (cond : σ → Bool) (body : σ → Except Fault σ) (fuel : Nat)
    (s : σ) (e : Fault) (h : cond s = true) (hb : body s = Except.error e) :
    whileLoop cond body (fuel + 1) s = some (Except.error e) := by
  simp [whileLoop, h, hb]

theorem SetupPads_returned (env : Nat → PadReply) : ∀ (r : Nat) (w : World) (fuel : Nat),
    w.pads.length + 4 * r = 4 * MAX_ADAPTERS → w.isConnected.length = w.pads.length →
    ∀ w', SetupPads fuel env w = some (Except.ok w') →
      w'.pads.length = 4 * MAX_ADAPTERS ∧ w'.isConnected.length = 4 * MAX_ADAPTERS ∧
      w'.adapters = w.adapters := by
  intro r
  induction r with
  | zero =>
    intro w fuel hlen hflags w' hret
    have hdone : SetupPads fuel env w = some (Except.ok w) := by
      apply whileLoop_done
      simp only [MAX_ADAPTERS] at hlen ⊢
      simp only [decide_eq_false_iff_not]
      omega
    rw [hdone] at hret
    have hw : w = w' := Except.ok.inj (Option.some.inj hret)
    subst hw
    exact ⟨by omega, by omega, rfl⟩
  | succ r ih =>
    intro w fuel hlen hflags w' hret
    have hcond : decide (w.pads.length / 4 < MAX_ADAPTERS) = true := by
      simp only [MAX_ADAPTERS] at hlen ⊢
      simp only [decide_eq_true_eq]
      omega
    cases fuel with
    | zero =>
      unfold SetupPads at hret
      rw [whileLoop_spent _ _ w hcond] at hret
      cases hret
    | succ f =>
      rcases setupPads_fold_result env (List.range 4) w with ⟨w1, g1, g2, g3, g4⟩ | ⟨e, he⟩
      · unfold SetupPads at hret
        rw [whileLoop_step _ _ f w w1 hcond g1] at hret
        simp only [List.length_range] at g3 g4
        obtain ⟨h1, h2, h3⟩ := ih w1 f (by omega) (by omega) w' hret
        exact ⟨h1, h2, h3.trans g2⟩
      · unfold SetupPads at hret
        rw [whileLoop_error _ _ f w e hcond he] at hret
        cases hret

/-- C21: whatever the bus answers, whenever `SetupPads`, entered at program
start (no pad, no flag, the table with its `MAX_ADAPTERS` slots) or on a
state that already has the sizes below, returns, `pads` and `isConnected`
both have length `4 * MAX_ADAPTERS = 24`; with a bus that accepts every
target it does return (6 passes of its loop suffice).  On a state with these
sizes, for every slot `i < MAX_ADAPTERS` and sub-port `j < 4` the index
`4i + j` is below both lengths and the guard `pads.size() < index` is false,
and the loop over the adapters returns normally (no `out_of_range`, no access
outside a container) with the sizes kept, so that every pass of the polling
loop returns normally with these sizes.  Every value of `GetPadIndex` other
than `SIZE_MAX` is below 24, its quotient by 4 is below `MAX_ADAPTERS` and
names a slot of the table, so that `UpdateRumble` never reads outside
`adapters`. -/
theorem polling_index_safety (env : Nat → PadReply)
    (henv : ∀ n, (env n).add_err = VIGEM_ERROR_NONE ∧ (env n).reg_err = VIGEM_ERROR_NONE) :
    (∀ (w : World) (fuel : Nat), w.pads = [] → w.isConnected = [] →
      w.adapters.length = MAX_ADAPTERS → MAX_ADAPTERS ≤ fuel →
      ∃ w', SetupPads fuel env w = some (Except.ok w') ∧
        w'.pads.length = 4 * MAX_ADAPTERS ∧ w'.isConnected.length = 4 * MAX_ADAPTERS ∧
        4 * MAX_ADAPTERS = 24 ∧ w'.adapters = w.adapters) ∧
    (∀ (bus : Nat → PadReply) (w w' : World) (fuel : Nat),
      (w.Sized ∨ (w.pads = [] ∧ w.isConnected = [] ∧ w.adapters.length = MAX_ADAPTERS)) →
      SetupPads fuel bus w = some (Except.ok w') →
      w'.pads.length = 4 * MAX_ADAPTERS ∧ w'.isConnected.length = 4 * MAX_ADAPTERS ∧
        w'.adapters.length = MAX_ADAPTERS) ∧
    (∀ (w : World) (fuel : Nat), w.Sized → SetupPads fuel env w = some (Except.ok w)) ∧
    (∀ w : World, w.Sized → ∀ i j : Nat, i < MAX_ADAPTERS → j < 4 →
      i * 4 + j < w.pads.length ∧ i * 4 + j < w.isConnected.length ∧
      ¬ (w.pads.length < i * 4 + j)) ∧
    (∀ w : World, w.Sized → ∀ replies : Nat → InterruptReply,
      ∃ w', pollCycle replies w = Except.ok w' ∧ w'.Sized) ∧
    (∀ (w : World) (fuel : Nat) (replies : Nat → InterruptReply),
      (w.Sized ∨ (w.pads = [] ∧ w.isConnected = [] ∧ w.adapters.length = MAX_ADAPTERS)) →
      MAX_ADAPTERS ≤ fuel →
      ∃ w', runIteration fuel env replies w = some (Except.ok w') ∧ w'.Sized) ∧
    (∀ (w : World) (pad : Nat), w.pads.length ≤ 4 * MAX_ADAPTERS →
      w.adapters.length = MAX_ADAPTERS →
      GetPadIndex w pad = SIZE_MAX ∨
        (GetPadIndex w pad < 4 * MAX_ADAPTERS ∧ GetPadIndex w pad / 4 < MAX_ADAPTERS ∧
          ∃ slot, w.adapters[GetPadIndex w pad / 4]? = some slot)) ∧
    (∀ (w : World) (Client Target LargeMotor SmallMotor : Nat) (reply : BulkReply), w.Sized →
      UpdateRumble Client Target LargeMotor SmallMotor reply w ≠
        Except.error Fault.undefined) := by
  refine ⟨?_, ?_, ?_, ?_, ?_, ?_, ?_, ?_⟩
  · intro w fuel hpads hflags hadapters hfuel
    obtain ⟨w', h1, h2, h3⟩ :=
      SetupPads_from_start env henv w hpads hflags hadapters fuel hfuel
    exact ⟨w', h1, h2.2.1, h2.2.2, by decide, h3⟩
  · intro bus w w' fuel hstart hret
    rcases hstart with hs | ⟨hpads, hflags, hadapters⟩
    · rw [SetupPads_sized bus w hs fuel] at hret
      have hw : w = w' := Except.ok.inj (Option.some.inj hret)
      subst hw
      exact ⟨hs.2.1, hs.2.2, hs.1⟩
    · obtain ⟨h1, h2, h3⟩ := SetupPads_returned bus MAX_ADAPTERS w fuel
        (by rw [hpads]; simp) (by rw [hpads, hflags]; rfl) w' hret
      exact ⟨h1, h2, by rw [h3]; exact hadapters⟩
  · intro w fuel hs
    exact SetupPads_sized env w hs fuel
  · intro w hs i j hi hj
    obtain ⟨_, hs2, hs3⟩ := hs
    simp only [MAX_ADAPTERS] at hs2 hs3 hi
    omega
  · intro w hs replies
    exact pollCycle_sized replies w hs
  · intro w fuel replies hstart hfuel
    have hsetup : ∃ w1, SetupPads fuel env w = some (Except.ok w1) ∧ w1.Sized := by
      rcases hstart with hs | ⟨hpads, hflags, hadapters⟩
      · exact ⟨w, SetupPads_sized env w hs fuel, hs⟩
      · obtain ⟨w1, h1, h2, _⟩ :=
          SetupPads_from_start env henv w hpads hflags hadapters fuel hfuel
        exact ⟨w1, h1, h2⟩
    obtain ⟨w1, h1, h2⟩ := hsetup
    obtain ⟨w2, c1, c2⟩ := pollCycle_sized replies w1 h2
    refine ⟨w2, ?_, c2⟩
    simp only [runIteration, h1, c1]
  · intro w pad hlen hadapters
    rcases GetPadIndex_range w pad with h | h
    · exact Or.inl h
    · have hk : GetPadIndex w pad / 4 < w.adapters.length := by
        simp only [MAX_ADAPTERS] at hlen hadapters
        omega
      refine Or.inr ⟨by omega, by rw [← hadapters]; exact hk, _,
        List.getElem?_eq_getElem hk⟩
  · intro w Client Target LargeMotor SmallMotor reply hs
    exact UpdateRumble_in_bounds Client Target LargeMotor SmallMotor reply w hs

/-- C21 with the bus `sampleBus`: from `twoAdapterStart` (no pad yet) a pass
of the polling loop with every read succeeding returns normally with 24 pads
and 24 flags, and on `sampleWorld` the pad index of handle 109 is 9, which
names slot 2. -/
theorem polling_index_safety_witness :
    (∃ w', runIteration 6 sampleBus (fun _ => wiredReply) twoAdapterStart =
        some (Except.ok w') ∧ w'.Sized) ∧
    (GetPadIndex sampleWorld 109 = SIZE_MAX ∨
      (GetPadIndex sampleWorld 109 < 4 * MAX_ADAPTERS ∧
        GetPadIndex sampleWorld 109 / 4 < MAX_ADAPTERS ∧
        ∃ slot, sampleWorld.adapters[GetPadIndex sampleWorld 109 / 4]? = some slot)) :=
  ⟨(polling_index_safety sampleBus (fun _ => ⟨rfl, rfl⟩)).2.2.2.2.2.1 twoAdapterStart 6
      (fun _ => wiredReply) (Or.inr ⟨rfl, rfl, rfl⟩) (by decide),
   (polling_index_safety sampleBus (fun _ => ⟨rfl, rfl⟩)).2.2.2.2.2.2.1 sampleWorld 109
      (by decide) (by decide)⟩

end GameCubeAdapterUnlimited
